import Mathlib

/-!
Thread library: mutex, reader/writer lock, condition variable, semaphore and
thread lifecycle; the automatic stack growth handler; the timer driver.

A shallow embedding of `user/inc/mutex.c`, `user/libthread/rwlock.c`,
`user/libthread/rwlock_helper.c`, `user/libthread/cond_var.c`,
`user/libthread/semaphore.c`, `user/libthread/malloc.c`,
`user/libthread/thread_helpers.c`, `user/libthread/thread.c`,
`user/libautostack/autostack.c` and `kern/timer_driver.c`.

Conventions.
* `unsigned int` fields are `Nat` values kept below `2^32`; every increment is
  reduced modulo `2^32`.  `int` fields are `Int`; the count of a semaphore and
  the tick count of the timer are kept in the range of an `int` by `wrap32`.
* A function whose C counterpart takes a pointer takes the pointee and returns
  the updated pointee.  Where the NULL test is modelled the pointer is an
  `Option`.
* A call that can only return after another thread has acted returns `none`
  when it would wait.  The calls of the condition variable, the semaphore and
  the thread functions return an `Outcome`, which tells whether the call
  returned and, if not, why.
* The records of the threads live in a memory indexed by address; the thread
  table, the free-stack list and the queue of a condition variable hold
  addresses of records.
* Concurrency is modelled by interleaving: every section of code bracketed by a
  mutex is one atomic step of a transition system, and a blocking call is
  split at the point where the caller leaves the processor.
-/

namespace ThrLib

/-! ## Constants (`error_code.h`, `thr_internals.h`) -/

def SUCCESS_RETURN : Int := 0
def ERROR_NULL_POINTER : Int := -1
def ERROR_DOUBLE_INITIALIZATION : Int := -2
def ERROR_INIT_ON_USE : Int := -11

def LOCK_INITIALIZED : Nat := 1
def LOCK_UNINITIALIZED : Nat := 0

def RW_UNLOCKED : Int := 0
def RW_READING : Int := 1
def RW_WRITING : Int := 2

def RWLOCK_INVALID : Int := -1

/-- Modelled from the spec: the request tags `RWLOCK_READ` and `RWLOCK_WRITE`
are declared in `rwlock.h`, which is not among the sources.  The spec names
three distinct tags READ, WRITE and INVALID; `RWLOCK_INVALID` is `-1` in
`thr_internals.h`, and the two values here only have to differ from it and
from each other. -/
def RWLOCK_READ : Int := 0

/-- Modelled from the spec: see `RWLOCK_READ`. -/
def RWLOCK_WRITE : Int := 1

/-- Number of values of an `unsigned int`. -/
def UINT_RANGE : Nat := 2 ^ 32

/-! ## Mutex (`mutex_type.h`, `mutex.c`) -/

/-- The struct `mutex_t`. -/
structure mutex_t where
  valid : Nat
  ticket_num : Nat
  turn : Nat
deriving DecidableEq, Repr

/-- Modelled from the spec: `atomic_increment` is an assembly routine that is
only declared in `mutex_private.h`.  It atomically adds 1 to a 32-bit counter
and returns the previous value.  The result is `(new counter, returned value)`. -/
def atomic_increment (v : Nat) : Nat × Nat :=
  ((v + 1) % UINT_RANGE, v)

/-- `mutex_init`.  The argument is the pointer (`none` is NULL); the result is
the pointee afterwards and the return value. -/
def mutex_init : Option mutex_t → Option mutex_t × Int
  | none => (none, ERROR_NULL_POINTER)
  | some mp =>
    if mp.valid = LOCK_INITIALIZED ∧ mp.ticket_num ≠ 0 then
      (some mp, ERROR_INIT_ON_USE)
    else
      (some { valid := LOCK_INITIALIZED, ticket_num := 0, turn := 0 }, SUCCESS_RETURN)

/-- First half of `mutex_lock` on a non-NULL mutex: the validity test and the
ticket draw.  The result is the mutex afterwards and the ticket, `none` when
the call returned at once because the mutex is uninitialized. -/
def mutex_lock_draw (mp : mutex_t) : mutex_t × Option Nat :=
  if mp.valid = LOCK_UNINITIALIZED then (mp, none)
  else
    let r := atomic_increment mp.ticket_num
    ({ mp with ticket_num := r.1 }, some r.2)

/-- The loop test of `mutex_lock`, `myticket != mp->turn`: `true` means the
caller yields and tests again, `false` means `mutex_lock` returns. -/
def mutex_lock_spin (myticket : Nat) (mp : mutex_t) : Bool :=
  decide (myticket ≠ mp.turn)

/-- `mutex_unlock` on a non-NULL mutex. -/
def mutex_unlock (mp : mutex_t) : mutex_t :=
  if mp.valid = LOCK_UNINITIALIZED then mp
  else { mp with turn := (atomic_increment mp.turn).1 }

/-- `mutex_lock` on a non-NULL mutex when no other thread runs during the call:
after the draw the loop test is evaluated on an unchanging `turn`, so the call
either returns at once or yields forever (`none`). -/
def mutex_lock (mp : mutex_t) : Option mutex_t :=
  match mutex_lock_draw mp with
  | (mp1, none) => some mp1
  | (mp1, some myticket) => if mutex_lock_spin myticket mp1 then none else some mp1

/-! ### The mutex shared by several threads -/

/-- A mutex together with the bookkeeping of its callers.  `draws` counts the
tickets drawn since initialization.  `pending` lists, oldest draw first, the
tickets drawn and not yet released, each with a flag telling whether its
`mutex_lock` call has returned (the caller holds the mutex). -/
structure MutexSys where
  m : mutex_t
  draws : Nat
  pending : List (Nat × Bool)
deriving DecidableEq, Repr

/-- The steps of the callers of one mutex.  `draw`: a thread enters
`mutex_lock` and draws its ticket.  `spin i`: the thread owning entry `i` of
`pending` evaluates the loop test once.  `unlock i`: the thread owning entry
`i`, whose `mutex_lock` has returned, calls `mutex_unlock`. -/
inductive MutexEvent where
  | draw
  | spin (i : Nat)
  | unlock (i : Nat)
deriving DecidableEq, Repr

/-- State right after a successful `mutex_init` on a fresh mutex. -/
def MutexSys.init : MutexSys :=
  { m := { valid := LOCK_INITIALIZED, ticket_num := 0, turn := 0 }, draws := 0, pending := [] }

/-- One step; `none` when the event is not possible in this state. -/
def MutexSys.step (s : MutexSys) : MutexEvent → Option MutexSys
  | .draw =>
    match mutex_lock_draw s.m with
    | (m1, some t) => some { m := m1, draws := s.draws + 1, pending := s.pending ++ [(t, false)] }
    | (m1, none) => some { s with m := m1 }
  | .spin i =>
    match s.pending.get? i with
    | some (t, false) =>
      if mutex_lock_spin t s.m then some s
      else some { s with pending := s.pending.set i (t, true) }
    | _ => none
  | .unlock i =>
    match s.pending.get? i with
    | some (_, true) => some { s with m := mutex_unlock s.m, pending := s.pending.eraseIdx i }
    | _ => none

/-- Run a sequence of events. -/
def MutexSys.run (s : MutexSys) : List MutexEvent → Option MutexSys
  | [] => some s
  | e :: es =>
    match s.step e with
    | some s1 => s1.run es
    | none => none

/-- Fewer than `2^32` tickets are outstanding in every state the run visits. -/
def MutexSys.bounded (s : MutexSys) : List MutexEvent → Bool
  | [] => decide (s.pending.length < UINT_RANGE)
  | e :: es =>
    decide (s.pending.length < UINT_RANGE) &&
      (match s.step e with
       | some s1 => s1.bounded es
       | none => true)

/-! ## Reader/writer lock (`rwlock_type.h`, `rwlock.c`, `rwlock_helper.c`) -/

/-- The fields of the struct `thr_stack_meta_t` that the reader/writer lock
reads or writes: the thread id and the request tag. -/
structure thr_stack_meta_t where
  tid : Int
  rw_type : Int
deriving DecidableEq, Repr

/-- The struct `rwlock_t`.  Modelled from the spec: the queue macros of
`variable_queue.h` are not among the sources; the wait queue is a FIFO list,
front first, and its `size` is the length of the list.  `reader_count` and
`mode` are C `int`s; `reader_count` is an unbounded integer here, so that
the overflow of the signed counter (undefined in C) is outside the model. -/
structure rwlock_t where
  valid : Bool
  data_mutex : mutex_t
  waiting_rw : List thr_stack_meta_t
  reader_count : Int
  mode : Int
deriving DecidableEq, Repr

/-- Calls that leave the library, in program order.  `make_runnable` and
`new_pages` carry the value the kernel returned. -/
inductive Call where
  | make_runnable (tid : Int) (ret : Int)
  | thr_yield (tid : Int)
  | deschedule
  | new_pages (base len : Nat) (ret : Int)
deriving DecidableEq, Repr

/-- The loop `while ( make_runnable( tid ) < 0 ) thr_yield( tid );`.
`env tid` is the number of attempts the kernel rejects before the target has
descheduled itself.  The loop ends only with an accepted `make_runnable`; the
kernel is taken to accept one after finitely many attempts, which is what a
queued thread on its way to `deschedule` provides. -/
def wake_loop (env : Int → Nat) (tid : Int) : List Call :=
  (List.replicate (env tid) [Call.make_runnable tid (-1), Call.thr_yield tid]).flatten
    ++ [Call.make_runnable tid 0]

/-- What `rwlock_lock` reports to its caller.  `acquired`: the call returned
holding the lock.  `blocked`: the caller is queued and descheduled, and
`rwlock_lock_wake` runs once it has been made runnable.  `rejected`: the call
returned early without touching the lock. -/
inductive LockOutcome where
  | acquired
  | blocked
  | rejected
deriving DecidableEq, Repr

/-- `append_rw`: the caller's record `self`, tagged with `type`, goes to the
tail of the wait queue. -/
def append_rw (rwlock : rwlock_t) (self : thr_stack_meta_t) (type : Int) : rwlock_t × Int :=
  if !rwlock.valid then (rwlock, -1)
  else ({ rwlock with waiting_rw := rwlock.waiting_rw ++ [{ self with rw_type := type }] }, 0)

/-- The reader loop of `dequeue`, entered with `next_waiting` at the front of
the queue and tagged READ; `rest` is the queue behind it.  The result is the
queue left over, the calls made and the records removed. -/
def dequeue_readers (env : Int → Nat) (next_waiting : thr_stack_meta_t) :
    List thr_stack_meta_t → List thr_stack_meta_t × List Call × List thr_stack_meta_t
  | [] =>
    ([], wake_loop env next_waiting.tid, [{ next_waiting with rw_type := RWLOCK_INVALID }])
  | next :: rest =>
    if RWLOCK_READ = next.rw_type then
      let r := dequeue_readers env next rest
      (r.1, wake_loop env next_waiting.tid ++ r.2.1,
        { next_waiting with rw_type := RWLOCK_INVALID } :: r.2.2)
    else
      (next :: rest, wake_loop env next_waiting.tid,
        [{ next_waiting with rw_type := RWLOCK_INVALID }])

/-- `dequeue`: the next mode, the lock afterwards, the calls made and the
records removed from the wait queue (in the order of removal). -/
def dequeue (env : Int → Nat) (rwlock : rwlock_t) :
    Int × rwlock_t × List Call × List thr_stack_meta_t :=
  match rwlock.waiting_rw with
  | [] => (RW_UNLOCKED, rwlock, [], [])
  | next_waiting :: rest =>
    if RWLOCK_READ = next_waiting.rw_type then
      let r := dequeue_readers env next_waiting rest
      (RW_READING, { rwlock with waiting_rw := r.1 }, r.2.1, r.2.2)
    else if RWLOCK_WRITE = next_waiting.rw_type then
      (RW_WRITING, { rwlock with waiting_rw := rest }, wake_loop env next_waiting.tid,
        [next_waiting])
    else (RW_UNLOCKED, rwlock, [], [])

/-- `rwlock_lock` on a non-NULL lock, up to the point where the caller either
returns or leaves the processor in `deschedule`.  `self` is the caller's
record as found by `find_current_thread_meta`.  The result is `none` when the
caller would wait for the data mutex. -/
def rwlock_lock (rwlock : rwlock_t) (self : thr_stack_meta_t) (type : Int) :
    Option (rwlock_t × List Call × LockOutcome) :=
  if ¬ (RWLOCK_READ = type ∨ RWLOCK_WRITE = type) then some (rwlock, [], .rejected)
  else if !rwlock.valid then some (rwlock, [], .rejected)
  else
    match mutex_lock rwlock.data_mutex with
    | none => none
    | some m =>
      let rw := { rwlock with data_mutex := m }
      if RWLOCK_READ = type then
        let next_state := RW_READING
        if rw.mode = RW_UNLOCKED then
          let rw := { rw with reader_count := rw.reader_count + 1 }
          let rw := { rw with mode := next_state }
          some ({ rw with data_mutex := mutex_unlock rw.data_mutex }, [], .acquired)
        else if rw.mode = RW_READING ∧ rw.waiting_rw.length = 0 then
          let rw := { rw with reader_count := rw.reader_count + 1 }
          let rw := { rw with mode := next_state }
          some ({ rw with data_mutex := mutex_unlock rw.data_mutex }, [], .acquired)
        else if rw.mode = RW_READING ∨ rw.mode = RW_WRITING then
          let rw := (append_rw rw self type).1
          some ({ rw with data_mutex := mutex_unlock rw.data_mutex }, [Call.deschedule], .blocked)
        else
          let rw := { rw with mode := next_state }
          some ({ rw with data_mutex := mutex_unlock rw.data_mutex }, [], .acquired)
      else
        let next_state := RW_WRITING
        if rw.mode = RW_UNLOCKED then
          let rw := { rw with mode := next_state }
          some ({ rw with data_mutex := mutex_unlock rw.data_mutex }, [], .acquired)
        else if rw.mode = RW_READING ∨ rw.mode = RW_WRITING then
          let rw := (append_rw rw self type).1
          some ({ rw with data_mutex := mutex_unlock rw.data_mutex }, [Call.deschedule], .blocked)
        else
          let rw := { rw with mode := next_state }
          some ({ rw with data_mutex := mutex_unlock rw.data_mutex }, [], .acquired)

/-- The rest of a blocked `rwlock_lock`, from the return of `deschedule` to
the end: the data mutex is taken again, a reader adds itself to
`reader_count`, and the mode is set to the mode asked for. -/
def rwlock_lock_wake (rwlock : rwlock_t) (type : Int) : Option rwlock_t :=
  match mutex_lock rwlock.data_mutex with
  | none => none
  | some m =>
    let rw := { rwlock with data_mutex := m }
    if RWLOCK_READ = type then
      let rw := { rw with reader_count := rw.reader_count + 1 }
      let rw := { rw with mode := RW_READING }
      some { rw with data_mutex := mutex_unlock rw.data_mutex }
    else
      let rw := { rw with mode := RW_WRITING }
      some { rw with data_mutex := mutex_unlock rw.data_mutex }

/-- `rwlock_unlock` on a non-NULL lock.  The result is the lock afterwards,
whether `dequeue` was called, the calls made and the records removed from the
wait queue. -/
def rwlock_unlock (env : Int → Nat) (rwlock : rwlock_t) :
    Option (rwlock_t × Bool × List Call × List thr_stack_meta_t) :=
  if !rwlock.valid then some (rwlock, false, [], [])
  else
    match mutex_lock rwlock.data_mutex with
    | none => none
    | some m =>
      let rw := { rwlock with data_mutex := m }
      let next_state := RW_UNLOCKED
      if rw.mode = RW_UNLOCKED then
        let rw := { rw with mode := next_state }
        some ({ rw with data_mutex := mutex_unlock rw.data_mutex }, false, [], [])
      else if rw.mode = RW_READING then
        if rw.reader_count > 1 then
          let rw := { rw with reader_count := rw.reader_count - 1 }
          let rw := { rw with mode := next_state }
          some ({ rw with data_mutex := mutex_unlock rw.data_mutex }, false, [], [])
        else
          let rw := { rw with reader_count := rw.reader_count - 1 }
          let d := dequeue env rw
          let rw := { d.2.1 with mode := d.1 }
          some ({ rw with data_mutex := mutex_unlock rw.data_mutex }, true, d.2.2.1, d.2.2.2)
      else if rw.mode = RW_WRITING then
        let d := dequeue env rw
        let rw := { d.2.1 with mode := d.1 }
        some ({ rw with data_mutex := mutex_unlock rw.data_mutex }, true, d.2.2.1, d.2.2.2)
      else
        let rw := { rw with mode := next_state }
        some ({ rw with data_mutex := mutex_unlock rw.data_mutex }, false, [], [])

/-- `rwlock_downgrade` on a non-NULL lock.  The result is the lock afterwards,
the calls made and the records removed from the wait queue.  The test
`size > 0` followed by the look at the front record is the match on the
queue; the value returned by `dequeue` is dropped, as in the source. -/
def rwlock_downgrade (env : Int → Nat) (rwlock : rwlock_t) :
    Option (rwlock_t × List Call × List thr_stack_meta_t) :=
  if !rwlock.valid then some (rwlock, [], [])
  else
    match mutex_lock rwlock.data_mutex with
    | none => none
    | some m =>
      let rw := { rwlock with data_mutex := m }
      if rw.mode = RW_WRITING then
        let rw := { rw with reader_count := rw.reader_count + 1 }
        match rw.waiting_rw with
        | [] =>
          let rw := { rw with mode := RW_READING }
          some ({ rw with data_mutex := mutex_unlock rw.data_mutex }, [], [])
        | front :: _ =>
          if RWLOCK_READ = front.rw_type then
            let d := dequeue env rw
            let rw := { d.2.1 with mode := RW_READING }
            some ({ rw with data_mutex := mutex_unlock rw.data_mutex }, d.2.2.1, d.2.2.2)
          else
            let rw := { rw with mode := RW_READING }
            some ({ rw with data_mutex := mutex_unlock rw.data_mutex }, [], [])
      else
        some ({ rw with data_mutex := mutex_unlock rw.data_mutex }, [], [])

/-- `rwlock_init`.  The argument is the pointer (`none` is NULL); the result is
the pointee afterwards and the return value.  The queue head obtained from
`malloc` is the empty queue. -/
def rwlock_init : Option rwlock_t → Option rwlock_t × Int
  | none => (none, ERROR_NULL_POINTER)
  | some rwlock =>
    if rwlock.valid then (some rwlock, ERROR_DOUBLE_INITIALIZATION)
    else
      match mutex_init (some rwlock.data_mutex) with
      | (some m, ret) =>
        if ret < 0 then (some { rwlock with data_mutex := m }, ERROR_DOUBLE_INITIALIZATION)
        else
          (some { valid := true, data_mutex := m, waiting_rw := [], reader_count := 0,
                  mode := RW_UNLOCKED }, SUCCESS_RETURN)
      | (none, _) => (some rwlock, ERROR_DOUBLE_INITIALIZATION)

/-! ### The reader/writer lock shared by several threads -/

/-- A lock together with the bookkeeping of its callers.  `holders` lists the
tids whose `rwlock_lock` has returned with the lock and who have not unlocked
since.  `woken` lists `(tid, type)` for the threads that `dequeue` has removed
from the wait queue and made runnable and whose `rwlock_lock` has not yet
continued after `deschedule`; `type` is the argument of that call. -/
structure RwSys where
  rw : rwlock_t
  holders : List Int
  woken : List (Int × Int)
deriving DecidableEq, Repr

/-- The steps of the callers of one lock.  `lock self type`: a thread calls
`rwlock_lock`, which runs until it returns or deschedules.  `wake tid`: a
thread that was made runnable runs the rest of its `rwlock_lock`.
`unlock tid`, `downgrade tid`: a holder calls `rwlock_unlock`,
`rwlock_downgrade`. -/
inductive RwEvent where
  | lock (self : thr_stack_meta_t) (type : Int)
  | wake (tid : Int)
  | unlock (tid : Int)
  | downgrade (tid : Int)
deriving DecidableEq, Repr

/-- The thread `tid` is neither in the wait queue nor between `make_runnable`
and the rest of its `rwlock_lock`: it is free to make a call. -/
def RwSys.running (s : RwSys) (tid : Int) : Bool :=
  !(s.rw.waiting_rw.any fun r => r.tid = tid) && !(s.woken.any fun p => p.1 = tid)

/-- The `(tid, type)` pairs of the records that a `dequeue` call removed from
the queue `q`: the records removed are the first `removed.length` of `q`, and
their tag in the queue is the `type` of their blocked `rwlock_lock`. -/
def woken_of (q removed : List thr_stack_meta_t) : List (Int × Int) :=
  (q.take removed.length).map fun r => (r.tid, r.rw_type)

/-- One step; `none` when the event is not possible in this state. -/
def RwSys.step (env : Int → Nat) (s : RwSys) : RwEvent → Option RwSys
  | .lock self type =>
    if s.running self.tid then
      match rwlock_lock s.rw self type with
      | some (rw1, _, .acquired) => some { s with rw := rw1, holders := s.holders ++ [self.tid] }
      | some (rw1, _, _) => some { s with rw := rw1 }
      | none => none
    else none
  | .wake tid =>
    match s.woken.find? fun p => p.1 = tid with
    | some p =>
      match rwlock_lock_wake s.rw p.2 with
      | some rw1 => some { rw := rw1, holders := s.holders ++ [tid], woken := s.woken.erase p }
      | none => none
    | none => none
  | .unlock tid =>
    if s.running tid ∧ tid ∈ s.holders then
      match rwlock_unlock env s.rw with
      | some (rw1, _, _, removed) =>
        some { rw := rw1, holders := s.holders.erase tid,
               woken := s.woken ++ woken_of s.rw.waiting_rw removed }
      | none => none
    else none
  | .downgrade tid =>
    if s.running tid ∧ tid ∈ s.holders then
      match rwlock_downgrade env s.rw with
      | some (rw1, _, removed) =>
        some { s with rw := rw1, woken := s.woken ++ woken_of s.rw.waiting_rw removed }
      | none => none
    else none

/-- Run a sequence of events. -/
def RwSys.run (env : Int → Nat) (s : RwSys) : List RwEvent → Option RwSys
  | [] => some s
  | e :: es =>
    match s.step env e with
    | some s1 => s1.run env es
    | none => none

/-- The event keeps to the two disciplines of an orderly schedule: while a
dequeued thread has yet to continue its `rwlock_lock`, only such a
continuation runs; and `rwlock_unlock` is not called while more than one
reader holds the lock. -/
def RwSys.orderly (s : RwSys) : RwEvent → Bool
  | .wake _ => true
  | .unlock _ => s.woken.isEmpty && !(decide (s.rw.mode = RW_READING ∧ s.rw.reader_count > 1))
  | _ => s.woken.isEmpty

/-- Run a sequence of events, every one of them orderly. -/
def RwSys.run_orderly (env : Int → Nat) (s : RwSys) : List RwEvent → Option RwSys
  | [] => some s
  | e :: es =>
    if s.orderly e then
      match s.step env e with
      | some s1 => s1.run_orderly env es
      | none => none
    else none


/-- One uncontended `mutex_lock` followed by the holder's `mutex_unlock`. -/
def lock_unlock_cycle : List MutexEvent := [.draw, .spin 0, .unlock 0]

/-- A schedule of `2^32 - 1` uncontended lock/unlock pairs followed by one
more uncontended `mutex_lock`. -/
def wrap_schedule : List MutexEvent :=
  (List.replicate (UINT_RANGE - 1) lock_unlock_cycle).flatten ++ [.draw, .spin 0]

/-- Invariant of the shared mutex: the counters follow the number of draws and
releases. -/
def MutexSys.Inv (s : MutexSys) : Prop :=
  s.m.valid = LOCK_INITIALIZED ∧
  s.m.ticket_num = s.draws % UINT_RANGE ∧
  s.pending.length ≤ s.draws ∧
  s.m.turn = (s.draws - s.pending.length) % UINT_RANGE

/-- The outstanding tickets are consecutive in draw order, and only the oldest
of them can belong to a caller whose `mutex_lock` has returned. -/
def MutexSys.InvOrder (s : MutexSys) : Prop :=
  ∀ j p, s.pending.get? j = some p →
    p.1 = (s.draws - s.pending.length + j) % UINT_RANGE ∧ (p.2 = true → j = 0)

/-- The mutex is initialized and nobody holds or awaits it. -/
def mutex_free (m : mutex_t) : Prop :=
  m.valid = LOCK_INITIALIZED ∧ m.ticket_num = m.turn

instance (m : mutex_t) : Decidable (mutex_free m) := by
  unfold mutex_free; exact inferInstance

/-- A free mutex after one uncontended `mutex_lock` and `mutex_unlock`. -/
def mutex_cycled (m : mutex_t) : mutex_t :=
  { m with ticket_num := (m.ticket_num + 1) % UINT_RANGE, turn := (m.turn + 1) % UINT_RANGE }

/-- The tag of a queued record is READ. -/
def is_reader (r : thr_stack_meta_t) : Bool := decide (RWLOCK_READ = r.rw_type)

/-- The calls that wake the given records one after the other. -/
def wake_all (env : Int → Nat) (rs : List thr_stack_meta_t) : List Call :=
  (rs.map fun r => wake_loop env r.tid).flatten

/-- The tids for which `make_runnable` was called, in call order, each once
per call. -/
def make_runnable_targets : List Call → List Int
  | [] => []
  | Call.make_runnable tid _ :: cs => tid :: make_runnable_targets cs
  | _ :: cs => make_runnable_targets cs

/-- The tids for which a `make_runnable` call succeeded, in call order. -/
def made_runnable : List Call → List Int
  | [] => []
  | Call.make_runnable tid ret :: cs =>
    if ret < 0 then made_runnable cs else tid :: made_runnable cs
  | _ :: cs => made_runnable cs

/-- The kernel accepts every `make_runnable` at the first attempt. -/
def no_retry : Int → Nat := fun _ => 0

/-- The lock right after a successful `rwlock_init`. -/
def rwlock_fresh : rwlock_t :=
  { valid := true, data_mutex := { valid := LOCK_INITIALIZED, ticket_num := 0, turn := 0 },
    waiting_rw := [], reader_count := 0, mode := RW_UNLOCKED }

/-- A sample lock held by a writer, with two readers, a writer and a third
reader waiting in that order. -/
def rwlock_sample : rwlock_t :=
  { valid := true, data_mutex := { valid := LOCK_INITIALIZED, ticket_num := 9, turn := 9 },
    waiting_rw := [⟨5, RWLOCK_READ⟩, ⟨6, RWLOCK_READ⟩, ⟨7, RWLOCK_WRITE⟩, ⟨8, RWLOCK_READ⟩],
    reader_count := 0, mode := RW_WRITING }

/-- The mode is one of the three modes of `thr_internals.h`. -/
def mode_known (mode : Int) : Prop :=
  mode = RW_UNLOCKED ∨ mode = RW_READING ∨ mode = RW_WRITING

instance (mode : Int) : Decidable (mode_known mode) := by
  unfold mode_known; exact inferInstance

/-- Two readers take a fresh lock and the first of them unlocks. -/
def two_readers_one_leaves : List RwEvent :=
  [.lock ⟨1, RWLOCK_INVALID⟩ RWLOCK_READ, .lock ⟨2, RWLOCK_INVALID⟩ RWLOCK_READ, .unlock 1]

/-- Two readers take a fresh lock, a writer queues behind them, and the first
reader unlocks. -/
def writer_behind_two_readers : List RwEvent :=
  [.lock ⟨1, RWLOCK_INVALID⟩ RWLOCK_READ, .lock ⟨2, RWLOCK_INVALID⟩ RWLOCK_READ,
   .lock ⟨4, RWLOCK_INVALID⟩ RWLOCK_WRITE, .unlock 1]

/-- A writer holds a fresh lock, a reader and a second writer queue behind
it; the holder downgrades and then unlocks before the dequeued reader has
continued, so that the second writer is dequeued as well; both continue, and
the reader unlocks. -/
def handoff_race : List RwEvent :=
  [.lock ⟨1, RWLOCK_INVALID⟩ RWLOCK_WRITE, .lock ⟨2, RWLOCK_INVALID⟩ RWLOCK_READ,
   .lock ⟨3, RWLOCK_INVALID⟩ RWLOCK_WRITE, .downgrade 1, .unlock 1, .wake 2, .wake 3,
   .unlock 2]

/-- A writer holds a fresh lock and a reader queues behind it; the holder
downgrades (the reader is dequeued) and unlocks, then takes the lock again as
a writer, and a second reader queues.  Only now does the first reader
continue; the writer unlocks, which dequeues the second reader, and the first
reader unlocks. -/
def handoff_race_negative : List RwEvent :=
  [.lock ⟨1, RWLOCK_INVALID⟩ RWLOCK_WRITE, .lock ⟨2, RWLOCK_INVALID⟩ RWLOCK_READ,
   .downgrade 1, .unlock 1, .lock ⟨1, RWLOCK_INVALID⟩ RWLOCK_WRITE,
   .lock ⟨3, RWLOCK_INVALID⟩ RWLOCK_READ, .wake 2, .unlock 1, .unlock 2]

/-- Invariant of the lock along orderly schedules.  The lock is valid, its
data mutex is free between steps, every queued record is tagged READ or WRITE,
and one of five situations holds: unlocked and idle; held by `reader_count`
readers; held by one writer; being handed to dequeued readers that have yet to
continue; being handed to one dequeued writer that has yet to continue. -/
def RwSys.Calm (s : RwSys) : Prop :=
  s.rw.valid = true ∧ mutex_free s.rw.data_mutex ∧
  (∀ r ∈ s.rw.waiting_rw, r.rw_type = RWLOCK_READ ∨ r.rw_type = RWLOCK_WRITE) ∧
  ((s.woken = [] ∧ s.rw.mode = RW_UNLOCKED ∧ s.rw.reader_count = 0 ∧
      s.rw.waiting_rw = [] ∧ s.holders = []) ∨
   (s.woken = [] ∧ s.rw.mode = RW_READING ∧ 1 ≤ s.rw.reader_count ∧
      s.rw.reader_count = s.holders.length) ∨
   (s.woken = [] ∧ s.rw.mode = RW_WRITING ∧ s.rw.reader_count = 0 ∧
      s.holders.length = 1) ∨
   (s.woken ≠ [] ∧ s.rw.mode = RW_READING ∧ (∀ p ∈ s.woken, p.2 = RWLOCK_READ) ∧
      s.rw.reader_count = s.holders.length) ∨
   (∃ t, s.woken = [(t, RWLOCK_WRITE)] ∧ s.rw.mode = RW_WRITING ∧ s.rw.reader_count = 0 ∧
      s.holders = []))

/-- The state in which a reading lock has been handed to the dequeued reader
with tid 2, which has not yet continued its `rwlock_lock`. -/
def reader_handoff : RwSys :=
  { rw := { valid := true, data_mutex := { valid := LOCK_INITIALIZED, ticket_num := 3, turn := 3 },
            waiting_rw := [], reader_count := 0, mode := RW_READING },
    holders := [], woken := [(2, RWLOCK_READ)] }

/-! ## Condition variable (`cond_type.h`, `cond_var.c`) -/

def ERROR_SEM_ILLEGAL_CNT : Int := -3
def ERROR_THR_INIT_FAILED : Int := -4
def ERROR_THR_CREATE_FAILED : Int := -5
def ERROR_INIT_STACK_META_FAILED : Int := -6
def ERROR_INVALID_TID : Int := -7
def ERROR_MALLOC_FAILED : Int := -9
def ERROR_MULTIPLE_JOINS : Int := -10

def COND_INITIALIZED : Nat := 1
def COND_UNINITIALIZED : Nat := 0

/-- Why a call does not return.  `blocked`: the caller has descheduled itself
inside the call and goes on once it is made runnable.  `spins`: the caller
waits for a mutex or repeats a loop for ever.  `panicked`: the call ended in
`panic` or in a failed assertion.  `faulted`: the call dereferenced a pointer
that is NULL or points to no record.  `vanished`: the call ended in `vanish`,
the calling thread is gone. -/
inductive Stop where
  | blocked
  | spins
  | panicked
  | faulted
  | vanished
deriving DecidableEq, Repr

/-- The result of a call on a state of type `σ`: it returns a value, or it
stops, in both cases with the state it has produced so far. -/
inductive Outcome (σ α : Type) where
  | returned (s : σ) (v : α)
  | stopped (s : σ) (why : Stop)
deriving DecidableEq, Repr

/-- What the kernel and the thread table answer while a signaller tries to
wake one tid.  `accepted k`: the first `k` calls of `make_runnable` are
rejected while the tid is in the thread table, the next call is accepted.
`abandoned k`: every call is rejected; the tid is in the thread table after
each of the first `k` rejections and is not after the next one.  `stuck`: every
call is rejected and the tid stays in the thread table. -/
inductive Fate where
  | accepted (k : Nat)
  | abandoned (k : Nat)
  | stuck
deriving DecidableEq, Repr

/-- The kernel accepts a `make_runnable` for the tid in the end. -/
def Fate.accepts : Fate → Bool
  | .accepted _ => true
  | _ => false

/-- The struct `cond_t`.  The queue is a pointer: `none` is NULL, otherwise
the FIFO list, front first, of the addresses of the waiting records. -/
structure cond_t where
  valid : Nat
  cond_queue : Option (List Nat)
  cond_mutex : mutex_t
deriving DecidableEq, Repr

/-- `mutex_destroy` on a non-NULL mutex. -/
def mutex_destroy (mp : mutex_t) : mutex_t :=
  if mp.valid = LOCK_INITIALIZED ∧ mp.ticket_num ≠ mp.turn then mp
  else { valid := LOCK_UNINITIALIZED, ticket_num := 0, turn := 0 }

/-- `cond_init`.  The argument is the pointer (`none` is NULL); `malloc_ok`
tells whether `malloc` returns a queue head.  The result is the pointee
afterwards and the return value. -/
def cond_init (malloc_ok : Bool) : Option cond_t → Option cond_t × Int
  | none => (none, ERROR_NULL_POINTER)
  | some cv =>
    if cv.valid = COND_INITIALIZED then (some cv, ERROR_INIT_ON_USE)
    else
      match mutex_init (some cv.cond_mutex) with
      | (some m, ret) =>
        if ret < 0 then (some { cv with cond_mutex := m }, ERROR_INIT_ON_USE)
        else if !malloc_ok then
          (some { cv with cond_mutex := m, cond_queue := none }, ERROR_MALLOC_FAILED)
        else
          (some { valid := COND_INITIALIZED, cond_queue := some [], cond_mutex := m },
            SUCCESS_RETURN)
      | (none, _) => (some cv, ERROR_INIT_ON_USE)

/-- `cond_destroy` on a non-NULL condition variable. -/
def cond_destroy (cv : cond_t) : Outcome cond_t Unit :=
  match mutex_lock cv.cond_mutex with
  | none => .stopped cv .spins
  | some m =>
    let cv := { cv with cond_mutex := m }
    if (match cv.cond_queue with
        | some q => decide (q.length ≠ 0)
        | none => false) then
      .returned { cv with cond_mutex := mutex_unlock cv.cond_mutex } ()
    else
      let cv := { cv with valid := COND_UNINITIALIZED }
      let cv := { cv with cond_mutex := mutex_unlock cv.cond_mutex }
      let cv := { cv with cond_mutex := mutex_destroy cv.cond_mutex }
      .returned { cv with cond_queue := none } ()

/-- `append_thread`: `self` is what `find_current_thread_meta` returns, the
address of the caller's record or NULL. -/
def append_thread (cv : cond_t) (self : Option Nat) : Outcome cond_t Unit :=
  match self with
  | none => .stopped cv .panicked
  | some new_thread =>
    match cv.cond_queue with
    | none => .stopped cv .faulted
    | some q => .returned { cv with cond_queue := some (q ++ [new_thread]) } ()

/-- `cond_wait` on a non-NULL condition variable and a non-NULL mutex, up to
the point where the caller returns or leaves the processor in `deschedule`.
The state is the condition variable and the caller's mutex. -/
def cond_wait (cv : cond_t) (mp : mutex_t) (self : Option Nat) :
    Outcome (cond_t × mutex_t) Unit :=
  match mutex_lock cv.cond_mutex with
  | none => .stopped (cv, mp) .spins
  | some m =>
    let cv := { cv with cond_mutex := m }
    if cv.valid = COND_UNINITIALIZED then
      .returned ({ cv with cond_mutex := mutex_unlock cv.cond_mutex }, mp) ()
    else
      match append_thread cv self with
      | .stopped cv1 why => .stopped (cv1, mp) why
      | .returned cv1 _ =>
        .stopped ({ cv1 with cond_mutex := mutex_unlock cv1.cond_mutex }, mutex_unlock mp)
          .blocked

/-- The rest of a blocked `cond_wait`, after `deschedule` has returned: the
caller takes its mutex again. -/
def cond_wait_wake (mp : mutex_t) : Option mutex_t :=
  mutex_lock mp

/-- The calls of `k` rejected attempts, each followed by a yield to the tid. -/
def rejected_attempts (k : Nat) (tid : Int) : List Call :=
  (List.replicate k [Call.make_runnable tid (-1), Call.thr_yield tid]).flatten

/-- The loop of `cond_signal`,
`while ( make_runnable( next_tid ) < 0 ) { if ( find_thread_meta_by_tid( next_tid ) == NULL ) break; thr_yield( next_tid ); }`:
the calls made, or `none` when the loop does not end. -/
def signal_loop (kern : Int → Fate) (next_tid : Int) : Option (List Call) :=
  match kern next_tid with
  | .accepted k => some (rejected_attempts k next_tid ++ [Call.make_runnable next_tid 0])
  | .abandoned k => some (rejected_attempts k next_tid ++ [Call.make_runnable next_tid (-1)])
  | .stuck => none

/-- `cond_signal` (the source has no NULL test).  `tid_at` reads the `tid`
field of the record at an address. -/
def cond_signal (kern : Int → Fate) (tid_at : Nat → Int) (cv : cond_t) :
    Outcome cond_t (List Call) :=
  match mutex_lock cv.cond_mutex with
  | none => .stopped cv .spins
  | some m =>
    let cv := { cv with cond_mutex := m }
    match cv.cond_queue with
    | none => .stopped cv .faulted
    | some [] => .returned { cv with cond_mutex := mutex_unlock cv.cond_mutex } []
    | some (next_thread :: rest) =>
      let cv := { cv with cond_queue := some rest }
      let next_tid := tid_at next_thread
      let cv := { cv with cond_mutex := mutex_unlock cv.cond_mutex }
      match signal_loop kern next_tid with
      | some calls => .returned cv calls
      | none => .stopped cv .spins

/-- The inner loop of `cond_broadcast`,
`while ( make_runnable( next_thread->tid ) ) { thr_yield( next_tid ); }`:
the calls made, or `none` when the loop does not end. -/
def broadcast_loop (kern : Int → Fate) (next_tid : Int) : Option (List Call) :=
  match kern next_tid with
  | .accepted k => some (rejected_attempts k next_tid ++ [Call.make_runnable next_tid 0])
  | .abandoned _ => none
  | .stuck => none

/-- The outer loop of `cond_broadcast` over the queue: the queue left, the
calls made, and whether the loop has ended. -/
def broadcast_queue (kern : Int → Fate) (tid_at : Nat → Int) :
    List Nat → List Nat × List Call × Bool
  | [] => ([], [], true)
  | next_thread :: rest =>
    match broadcast_loop kern (tid_at next_thread) with
    | none => (rest, [], false)
    | some calls =>
      let r := broadcast_queue kern tid_at rest
      (r.1, calls ++ r.2.1, r.2.2)

/-- `cond_broadcast` (the source has no NULL test). -/
def cond_broadcast (kern : Int → Fate) (tid_at : Nat → Int) (cv : cond_t) :
    Outcome cond_t (List Call) :=
  match mutex_lock cv.cond_mutex with
  | none => .stopped cv .spins
  | some m =>
    let cv := { cv with cond_mutex := m }
    match cv.cond_queue with
    | none => .stopped cv .faulted
    | some q =>
      let r := broadcast_queue kern tid_at q
      let cv := { cv with cond_queue := some r.1 }
      if r.2.2 then .returned { cv with cond_mutex := mutex_unlock cv.cond_mutex } r.2.1
      else .stopped cv .spins

/-! ## Semaphore (`sem_type.h`, `semaphore.c`) -/

/-- An `int` after an increment or decrement: the value modulo `2^32` in the
signed range `-2^31 .. 2^31 - 1`, which is what the machine instruction
leaves. -/
def wrap32 (x : Int) : Int :=
  (x + 2147483648) % 4294967296 - 2147483648

/-- The conversion of an `int` to `unsigned int`. -/
def to_u32 (x : Int) : Nat := (x % 4294967296).toNat

/-- The struct `sem_t`.  `count` is a C `int`: a value in the range
`-2^31 .. 2^31 - 1`; `(sem->count)++` and `(sem->count)--` wrap around
(`wrap32`). -/
structure sem_t where
  valid : Nat
  count : Int
  lock : mutex_t
  cv : cond_t
deriving DecidableEq, Repr

/-- `sem_init`.  The first argument of the source is the pointer (`none` is
NULL); `malloc_ok` tells whether the `malloc` in `cond_init` succeeds. -/
def sem_init (malloc_ok : Bool) : Option sem_t → Int → Outcome (Option sem_t) Int
  | none, _ => .returned none ERROR_NULL_POINTER
  | some sem, count =>
    if sem.valid ≠ 0 then .returned (some sem) ERROR_DOUBLE_INITIALIZATION
    else
      match mutex_init (some sem.lock) with
      | (none, _) => .returned (some sem) ERROR_NULL_POINTER
      | (some l, ret) =>
        let sem := { sem with lock := l }
        if ret < 0 then .returned (some sem) ret
        else
          match cond_init malloc_ok (some sem.cv) with
          | (none, _) => .returned (some sem) ERROR_NULL_POINTER
          | (some c, ret) =>
            let sem := { sem with cv := c }
            if ret < 0 then .returned (some sem) ret
            else
              match mutex_lock sem.lock with
              | none => .stopped (some sem) .spins
              | some l1 =>
                let sem := { sem with lock := l1 }
                let sem := { sem with valid := 1 }
                let sem := { sem with count := count }
                .returned (some { sem with lock := mutex_unlock sem.lock }) SUCCESS_RETURN

/-- The loop and the tail of `sem_wait`, entered with the internal mutex
held: `while (sem->count <= 0) cond_wait(..); (sem->count)--; mutex_unlock(..)`.
A `cond_wait` that returns without having descheduled the caller leaves the
mutex held and the count as it is, so the loop repeats for ever. -/
def sem_wait_loop (sem : sem_t) (self : Option Nat) : Outcome (Option sem_t) Unit :=
  if sem.count ≤ 0 then
    match cond_wait sem.cv sem.lock self with
    | .returned (c, l) _ => .stopped (some { sem with cv := c, lock := l }) .spins
    | .stopped (c, l) why => .stopped (some { sem with cv := c, lock := l }) why
  else
    let sem := { sem with count := wrap32 (sem.count - 1) }
    .returned (some { sem with lock := mutex_unlock sem.lock }) ()

/-- `sem_wait`, up to the point where the caller returns or leaves the
processor inside `cond_wait`. -/
def sem_wait : Option sem_t → Option Nat → Outcome (Option sem_t) Unit
  | none, _ => .stopped none .panicked
  | some sem, self =>
    if sem.valid = 0 then .stopped (some sem) .panicked
    else
      match mutex_lock sem.lock with
      | none => .stopped (some sem) .spins
      | some l => sem_wait_loop { sem with lock := l } self

/-- The rest of a blocked `sem_wait`, after `deschedule` has returned:
`cond_wait` takes the internal mutex again and the loop test is repeated. -/
def sem_wait_wake (sem : sem_t) (self : Option Nat) : Outcome (Option sem_t) Unit :=
  match cond_wait_wake sem.lock with
  | none => .stopped (some sem) .spins
  | some l => sem_wait_loop { sem with lock := l } self

/-- `sem_signal`. -/
def sem_signal (kern : Int → Fate) (tid_at : Nat → Int) :
    Option sem_t → Outcome (Option sem_t) (List Call)
  | none => .stopped none .panicked
  | some sem =>
    if sem.valid = 0 then .stopped (some sem) .panicked
    else
      match mutex_lock sem.lock with
      | none => .stopped (some sem) .spins
      | some l =>
        let sem := { sem with lock := l }
        let sem := { sem with count := wrap32 (sem.count + 1) }
        match cond_signal kern tid_at sem.cv with
        | .stopped c why => .stopped (some { sem with cv := c }) why
        | .returned c calls =>
          let sem := { sem with cv := c }
          .returned (some { sem with lock := mutex_unlock sem.lock }) calls

/-- `sem_destroy`. -/
def sem_destroy : Option sem_t → Outcome (Option sem_t) Unit
  | none => .stopped none .panicked
  | some sem =>
    if sem.valid ≠ 0 then .stopped (some sem) .panicked
    else
      match mutex_lock sem.lock with
      | none => .stopped (some sem) .spins
      | some l =>
        let sem := { sem with lock := l }
        let sem := { sem with valid := 0 }
        let sem := { sem with count := 0 }
        let sem := { sem with lock := mutex_unlock sem.lock }
        let sem := { sem with lock := mutex_destroy sem.lock }
        match cond_destroy sem.cv with
        | .stopped c why => .stopped (some { sem with cv := c }) why
        | .returned c _ => .returned (some { sem with cv := c }) ()

/-- The steps of the callers of one semaphore.  `wait self`: the thread whose
record is at `self` calls `sem_wait`, which runs until it returns or
deschedules.  `wake self`: a thread blocked in `sem_wait` runs again from the
return of `deschedule`.  `signal`: a thread calls `sem_signal`. -/
inductive SemEvent where
  | wait (self : Nat)
  | wake (self : Nat)
  | signal
deriving DecidableEq, Repr

/-- The semaphore after a call that returned or left its caller descheduled;
`none` when the call ended the schedule (panic, fault, endless loop). -/
def sem_after {α : Type} : Outcome (Option sem_t) α → Option sem_t
  | .returned s _ => s
  | .stopped s .blocked => s
  | .stopped _ _ => none

/-- One step of the callers of a semaphore. -/
def sem_step (kern : Int → Fate) (tid_at : Nat → Int) (sem : sem_t) : SemEvent → Option sem_t
  | .wait self => sem_after (sem_wait (some sem) (some self))
  | .wake self => sem_after (sem_wait_wake sem (some self))
  | .signal => sem_after (sem_signal kern tid_at (some sem))

/-- Run a sequence of steps. -/
def sem_run (kern : Int → Fate) (tid_at : Nat → Int) (sem : sem_t) :
    List SemEvent → Option sem_t
  | [] => some sem
  | e :: es =>
    match sem_step kern tid_at sem e with
    | some s1 => sem_run kern tid_at s1 es
    | none => none

/-- No `sem_signal` of the schedule finds the count at `2^31 - 1`, the
largest `int`. -/
def sem_no_overflow (kern : Int → Fate) (tid_at : Nat → Int) (sem : sem_t) :
    List SemEvent → Bool
  | [] => true
  | e :: es =>
    (decide (e = .signal → sem.count < 2147483647)) &&
      match sem_step kern tid_at sem e with
      | some s1 => sem_no_overflow kern tid_at s1 es
      | none => true

/-- A condition variable in freshly zeroed memory. -/
def cond_zero : cond_t :=
  { valid := 0, cond_queue := none, cond_mutex := { valid := 0, ticket_num := 0, turn := 0 } }

/-- A semaphore in freshly zeroed memory. -/
def sem_zero : sem_t :=
  { valid := 0, count := 0, lock := { valid := 0, ticket_num := 0, turn := 0 }, cv := cond_zero }

/-- The kernel accepts every `make_runnable` at the first attempt. -/
def kern_accepts : Int → Fate := fun _ => Fate.accepted 0

/-- The records are laid out so that the record at address `p` has tid `p`. -/
def tid_is_addr : Nat → Int := fun p => (p : Int)

/-- The steps of the callers of one condition variable.  `wait self mp`: the
thread whose record is at `self` calls `cond_wait` with its mutex `mp`.
`signal`: a thread calls `cond_signal`. -/
inductive CvEvent where
  | wait (self : Nat) (mp : mutex_t)
  | signal
deriving DecidableEq, Repr

/-- The addresses that the `wait` steps of a schedule enqueue, in order. -/
def cv_arrivals : List CvEvent → List Nat
  | [] => []
  | .wait self _ :: es => self :: cv_arrivals es
  | .signal :: es => cv_arrivals es

/-- One step of the callers of a condition variable.  The state is the
condition variable, the addresses dequeued by the signals so far, and the tids
for which a `make_runnable` has been accepted so far, both in order.  The
result is `none` when the call ended the schedule. -/
def cv_step (kern : Int → Fate) (tid_at : Nat → Int) (s : cond_t × List Nat × List Int) :
    CvEvent → Option (cond_t × List Nat × List Int)
  | .wait self mp =>
    match cond_wait s.1 mp (some self) with
    | .stopped (cv1, _) .blocked => some (cv1, s.2.1, s.2.2)
    | _ => none
  | .signal =>
    match cond_signal kern tid_at s.1 with
    | .returned cv1 calls =>
      some (cv1, s.2.1 ++ ((s.1.cond_queue.getD []).head?).toList, s.2.2 ++ made_runnable calls)
    | .stopped _ _ => none

/-- Run a sequence of steps. -/
def cv_run (kern : Int → Fate) (tid_at : Nat → Int) (s : cond_t × List Nat × List Int) :
    List CvEvent → Option (cond_t × List Nat × List Int)
  | [] => some s
  | e :: es =>
    match cv_step kern tid_at s e with
    | some s1 => cv_run kern tid_at s1 es
    | none => none

/-- A sample condition variable with the records at 5, 6 and 7 waiting. -/
def cond_sample : cond_t :=
  { valid := COND_INITIALIZED, cond_queue := some [5, 6, 7],
    cond_mutex := { valid := LOCK_INITIALIZED, ticket_num := 2, turn := 2 } }

/-- A sample semaphore with count 1 and nobody waiting. -/
def sem_sample : sem_t :=
  { valid := 1, count := 1, lock := { valid := LOCK_INITIALIZED, ticket_num := 1, turn := 1 },
    cv := { valid := COND_INITIALIZED, cond_queue := some [],
            cond_mutex := { valid := LOCK_INITIALIZED, ticket_num := 0, turn := 0 } } }

/-- The waiting thread has left: every `make_runnable` is rejected and the
tid is no longer in the thread table at the first look. -/
def kern_gone : Int → Fate := fun _ => Fate.abandoned 0

/-- The semaphore that `sem_init` with count `-1` leaves in zeroed memory. -/
def sem_negative : sem_t :=
  { valid := 1, count := -1, lock := ⟨1, 1, 1⟩, cv := ⟨1, some [], ⟨1, 0, 0⟩⟩ }

/-- The semaphore that `sem_init` with count `2^31 - 1` leaves in zeroed
memory. -/
def sem_full : sem_t :=
  { valid := 1, count := 2147483647, lock := ⟨1, 1, 1⟩, cv := ⟨1, some [], ⟨1, 0, 0⟩⟩ }

/-- The thread with tid 5 is gone; every other tid is accepted at the second
attempt. -/
def kern_mixed : Int → Fate := fun t => if t = 5 then Fate.abandoned 0 else Fate.accepted 1

/-! ## Thread library (`thr_internals.h`, `thread_helpers.c`, `thread.c`, `malloc.c`) -/

def UNSTARTED : Int := 0
def RUNNABLE : Int := 1
def NOTRUNNABLE : Int := 2
def WAITING : Int := 3
def TERMINATED : Int := 4

def ESP_ALIGNMENT : Nat := 4

def IS_ROOT : Int := 1
def IS_NOT_ROOT : Int := 0

def NOTJOINING : Int := 0
def JOINING : Int := 1

def UNSIGNED_TID : Int := -999

/-- Modelled from the spec: `PAGE_SIZE` comes from the kernel's `syscall.h`,
which is not among the sources; `swexn_internals.h` records that it is 4096. -/
def PAGE_SIZE : Nat := 4096

/-- Addition of two `uint32_t` values. -/
def add32 (a b : Nat) : Nat := (a + b) % UINT_RANGE

/-- Subtraction of two `uint32_t` values. -/
def sub32 (a b : Nat) : Nat := (a + (UINT_RANGE - b % UINT_RANGE)) % UINT_RANGE

/-- The bitwise or of two `int` values, `a | b`, on their 32-bit two's
complement representations. -/
def or32 (a b : Int) : Int :=
  let n := (a % (UINT_RANGE : Int)).toNat ||| (b % (UINT_RANGE : Int)).toNat
  if n < 2 ^ 31 then (n : Int) else (n : Int) - (UINT_RANGE : Int)

/-- `round_up_stack_size`. -/
def round_up_stack_size (size : Nat) : Nat :=
  add32 (sub32 PAGE_SIZE (size % PAGE_SIZE)) size

/-- The struct `thr_stack_meta` as the thread library uses it.  `addr` is the
address of the record, by which pointers to it are compared.  Pointers and
`void*` values are numbers, 0 being NULL.  The four link fields are
represented by the lists that hold the record's address; `ret_addr` (always
`&thr_exit`) and `zero` (always 0) are left out. -/
structure thr_stack_meta where
  addr : Nat
  func : Nat
  arg : Nat
  thr_state : Int
  root : Int
  tid : Int
  rw_type : Int
  join_flag : Int
  exit_status : Nat
  meta_mutex : mutex_t
  meta_cv : cond_t
  stack_high : Nat
  stack_low : Nat
deriving DecidableEq, Repr

/-- The globals of the thread library.  `mem` holds the records that exist
in memory: the static `g_root_thr_meta`, whose address is the field of that
name, and the records at the top of the stack regions mapped so far.  The
thread table and the free-stack table are the lists of the addresses linked
into them, front first.  `calls` logs the calls that leave the library. -/
structure thr_lib where
  mem : List thr_stack_meta
  g_root_thr_meta : Nat
  g_thr_table : List Nat
  g_free_stk_table : List Nat
  g_thr_stack_size : Nat
  g_stacks_brk : Nat
  g_stack_mutex : mutex_t
  g_thr_table_mutex : mutex_t
  g_free_stk_table_mutex : mutex_t
  calls : List Call
deriving DecidableEq, Repr

/-- The statics of `malloc.c`. -/
structure malloc_state where
  heap_mutex : mutex_t
  mutex_initialized : Bool
deriving DecidableEq, Repr

/-- What the surroundings answer during one call.  `kern`: the fate of the
attempts to wake a tid.  `malloc_ok`, `new_pages_ok`, `swexn_ok`: whether
`malloc`, `new_pages`, `swexn` succeed.  `fresh`: the contents of newly mapped
memory at the place of a record.  `fork_ret`: what `create_new_thread` returns
to the parent.  `meta_size`: `sizeof(thr_stack_meta_t)`.  `gettid`,
`root_stack_high`, `root_stack_low`: what `gettid`, `get_root_stack_high` and
`get_root_stack_low` return. -/
structure Env where
  kern : Int → Fate
  malloc_ok : Bool
  new_pages_ok : Bool
  swexn_ok : Bool
  fresh : thr_stack_meta
  fork_ret : Int
  meta_size : Nat
  gettid : Int
  root_stack_high : Nat
  root_stack_low : Nat

/-- The record at address `p`, if there is one. -/
def thr_lib.read (st : thr_lib) (p : Nat) : Option thr_stack_meta :=
  st.mem.find? fun r => r.addr = p

/-- Write through the pointer `p`. -/
def thr_lib.update (st : thr_lib) (p : Nat) (f : thr_stack_meta → thr_stack_meta) : thr_lib :=
  { st with mem := st.mem.map fun r => if r.addr = p then { f r with addr := r.addr } else r }

/-- Append calls to the log. -/
def thr_lib.log (st : thr_lib) (calls : List Call) : thr_lib :=
  { st with calls := st.calls ++ calls }

/-- The `tid` field of the record at `p`. -/
def thr_lib.tid_at (st : thr_lib) (p : Nat) : Int :=
  match st.read p with
  | some r => r.tid
  | none => UNSIGNED_TID

/-- `find_thread_meta_by_ebp`. -/
def find_thread_meta_by_ebp (st : thr_lib) (ebp : Nat) : Option Nat :=
  st.g_thr_table.find? fun p =>
    match st.read p with
    | some current_thread =>
      decide (ebp ≤ current_thread.stack_high ∧ ebp ≥ current_thread.stack_low)
    | none => false

/-- `find_current_thread_meta`; `ebp` is what `read_ebp` returns. -/
def find_current_thread_meta (st : thr_lib) (ebp : Nat) : Option Nat :=
  if st.g_thr_table.length = 0 then none
  else find_thread_meta_by_ebp st ebp

/-- `find_thread_meta_by_tid`. -/
def find_thread_meta_by_tid (st : thr_lib) (tid : Int) : Option Nat :=
  if tid < 0 then none
  else if st.g_thr_table.length = 0 then none
  else
    st.g_thr_table.find? fun p =>
      match st.read p with
      | some current_thread => decide (current_thread.tid = tid)
      | none => false

/-- A call of the thread library: from the globals to an outcome. -/
@[reducible] def Lib (α : Type) : Type := thr_lib → Outcome thr_lib α

instance : Monad Lib where
  pure a := fun s => .returned s a
  bind m f := fun s =>
    match m s with
    | .returned s1 a => f a s1
    | .stopped s1 why => .stopped s1 why

/-- The globals. -/
def Lib.get : Lib thr_lib := fun s => .returned s s

/-- Replace the globals. -/
def Lib.modify (f : thr_lib → thr_lib) : Lib Unit := fun s => .returned (f s) ()

/-- The call ends here. -/
def Lib.stop {α : Type} (why : Stop) : Lib α := fun s => .stopped s why

/-- Read through the pointer `p`. -/
def Lib.deref (p : Nat) : Lib thr_stack_meta := fun s =>
  match s.read p with
  | some r => .returned s r
  | none => .stopped s .faulted

/-- Write through the pointer `p`. -/
def Lib.store (p : Nat) (f : thr_stack_meta → thr_stack_meta) : Lib Unit :=
  Lib.modify fun s => s.update p f

/-- `mutex_lock` on one of the global mutexes, given by how it is read and
written. -/
def Lib.lock (get : thr_lib → mutex_t) (set : thr_lib → mutex_t → thr_lib) : Lib Unit :=
  fun s =>
    match mutex_lock (get s) with
    | some m => .returned (set s m) ()
    | none => .stopped s .spins

/-- `mutex_unlock` on one of the global mutexes. -/
def Lib.unlock (get : thr_lib → mutex_t) (set : thr_lib → mutex_t → thr_lib) : Lib Unit :=
  Lib.modify fun s => set s (mutex_unlock (get s))

/-- `mutex_lock( &g_thr_table_mutex )`. -/
def lock_thr_table : Lib Unit :=
  Lib.lock (fun s => s.g_thr_table_mutex) (fun s m => { s with g_thr_table_mutex := m })

/-- `mutex_unlock( &g_thr_table_mutex )`. -/
def unlock_thr_table : Lib Unit :=
  Lib.unlock (fun s => s.g_thr_table_mutex) (fun s m => { s with g_thr_table_mutex := m })

/-- `mutex_lock( &g_free_stk_table_mutex )`. -/
def lock_free_stk_table : Lib Unit :=
  Lib.lock (fun s => s.g_free_stk_table_mutex)
    (fun s m => { s with g_free_stk_table_mutex := m })

/-- `mutex_unlock( &g_free_stk_table_mutex )`. -/
def unlock_free_stk_table : Lib Unit :=
  Lib.unlock (fun s => s.g_free_stk_table_mutex)
    (fun s m => { s with g_free_stk_table_mutex := m })

/-- `mutex_lock( &g_stack_mutex )`. -/
def lock_stack : Lib Unit :=
  Lib.lock (fun s => s.g_stack_mutex) (fun s m => { s with g_stack_mutex := m })

/-- `mutex_unlock( &g_stack_mutex )`. -/
def unlock_stack : Lib Unit :=
  Lib.unlock (fun s => s.g_stack_mutex) (fun s m => { s with g_stack_mutex := m })

/-- `mutex_lock( &(p->meta_mutex) )`. -/
def lock_meta (p : Nat) : Lib Unit := do
  let r ← Lib.deref p
  match mutex_lock r.meta_mutex with
  | some m => Lib.store p fun r => { r with meta_mutex := m }
  | none => Lib.stop .spins

/-- `mutex_unlock( &(p->meta_mutex) )`. -/
def unlock_meta (p : Nat) : Lib Unit := do
  let _ ← Lib.deref p
  Lib.store p fun r => { r with meta_mutex := mutex_unlock r.meta_mutex }

/-- `cond_signal( &(p->meta_cv) )`; the calls made are appended to the log. -/
def cond_signal_meta (kern : Int → Fate) (p : Nat) : Lib Unit := do
  let r ← Lib.deref p
  let st ← Lib.get
  match cond_signal kern st.tid_at r.meta_cv with
  | .returned cv calls =>
    Lib.store p fun r => { r with meta_cv := cv }
    Lib.modify fun s => s.log calls
  | .stopped cv why =>
    Lib.store p fun r => { r with meta_cv := cv }
    Lib.stop why

/-- `cond_wait( &(p->meta_cv), &(p->meta_mutex) )` by the thread whose frame
pointer is `ebp`, up to the point where it returns or deschedules. -/
def cond_wait_meta (p : Nat) (ebp : Nat) : Lib Unit := do
  let r ← Lib.deref p
  let st ← Lib.get
  match cond_wait r.meta_cv r.meta_mutex (find_current_thread_meta st ebp) with
  | .returned (cv, m) _ =>
    Lib.store p fun r => { r with meta_cv := cv, meta_mutex := m }
  | .stopped (cv, m) why =>
    Lib.store p fun r => { r with meta_cv := cv, meta_mutex := m }
    Lib.stop why

/-- `free_thr_stack`; the argument is the pointer, `none` being NULL.
`Q_REMOVE` takes the record's address out of the thread table. -/
def free_thr_stack : Option Nat → Lib Unit
  | none => pure ()
  | some stack_meta_ptr => do
    let r ← Lib.deref stack_meta_ptr
    if r.root = IS_ROOT then pure ()
    else do
      lock_thr_table
      Lib.modify fun s => { s with g_thr_table := s.g_thr_table.erase stack_meta_ptr }
      unlock_thr_table
      lock_free_stk_table
      Lib.modify fun s => { s with g_free_stk_table := s.g_free_stk_table ++ [stack_meta_ptr] }
      unlock_free_stk_table

/-- A computed address as a pointer: 0 is NULL. -/
def ptr (a : Nat) : Option Nat := if a = 0 then none else some a

/-- `mutex_init` on the mutex `mp` in place: the mutex afterwards and the
return value. -/
def mutex_init_at (mp : mutex_t) : mutex_t × Int :=
  match mutex_init (some mp) with
  | (some m, ret) => (m, ret)
  | (none, ret) => (mp, ret)

/-- `cond_init` on the condition variable `cv` in place: the condition
variable afterwards and the return value. -/
def cond_init_at (malloc_ok : Bool) (cv : cond_t) : cond_t × Int :=
  match cond_init malloc_ok (some cv) with
  | (some c, ret) => (c, ret)
  | (none, ret) => (cv, ret)

/-- The first-initialization block of `initialize_stack_meta`:
`ret |= mutex_init( &(p->meta_mutex) ); ret |= cond_init( &(p->meta_cv) );`,
returning `ret`. -/
def init_meta_locks (env : Env) (p : Nat) : Lib Int := do
  let r ← Lib.deref p
  let a := mutex_init_at r.meta_mutex
  let b := cond_init_at env.malloc_ok r.meta_cv
  Lib.store p fun r => { r with meta_mutex := a.1, meta_cv := b.1 }
  pure (or32 (or32 0 a.2) b.2)

/-- `initialize_stack_meta`; `func` and `arg` are pointers, 0 being NULL. -/
def initialize_stack_meta (env : Env) (stack_meta_ptr : Option Nat) (first_init : Bool)
    (func arg : Nat) : Lib Int :=
  match stack_meta_ptr with
  | none => pure ERROR_INIT_STACK_META_FAILED
  | some p =>
    if func = 0 then pure ERROR_INIT_STACK_META_FAILED
    else if p % ESP_ALIGNMENT ≠ 0 then Lib.stop .panicked
    else do
      let st ← Lib.get
      let thr_stack_high := add32 p env.meta_size
      let thr_stack_low := sub32 thr_stack_high st.g_thr_stack_size
      let ret ← (if first_init then init_meta_locks env p else pure 0)
      if ret < 0 then pure ERROR_INIT_STACK_META_FAILED
      else do
        lock_meta p
        Lib.store p fun r =>
          { r with func := func, arg := arg, thr_state := UNSTARTED, join_flag := NOTJOINING,
                   rw_type := RWLOCK_INVALID, exit_status := 0, root := IS_NOT_ROOT,
                   tid := UNSIGNED_TID, stack_high := thr_stack_high,
                   stack_low := thr_stack_low }
        unlock_meta p
        pure SUCCESS_RETURN

/-- The first part of `allocate_init_thr_stack`, which finds the place of the
record: the pointer `free_spot` and `first_init`, or `none` where the
function returns NULL because `new_pages` failed.  The call of `new_pages` is
appended to the log.  Newly mapped memory holds `env.fresh` at the place of
the record. -/
def find_free_spot (env : Env) (size : Nat) : Lib (Option (Option Nat × Bool)) := do
  lock_free_stk_table
  let st ← Lib.get
  match st.g_free_stk_table with
  | free_spot :: rest =>
    Lib.modify fun s => { s with g_free_stk_table := rest }
    unlock_free_stk_table
    pure (some (some free_spot, false))
  | [] =>
    unlock_free_stk_table
    lock_stack
    Lib.modify fun s => { s with g_stacks_brk := s.g_stacks_brk - s.g_stacks_brk % PAGE_SIZE }
    Lib.modify fun s => { s with g_stacks_brk := sub32 s.g_stacks_brk size }
    let st ← Lib.get
    let local_stack_low := st.g_stacks_brk
    unlock_stack
    Lib.modify fun s =>
      s.log [Call.new_pages local_stack_low size (if env.new_pages_ok then 0 else -1)]
    if env.new_pages_ok then do
      let free_spot := sub32 (add32 local_stack_low size) env.meta_size
      Lib.modify fun s =>
        { s with mem := (s.mem.filter fun r => r.addr ≠ free_spot) ++
                        [{ env.fresh with addr := free_spot }] }
      pure (some (ptr free_spot, true))
    else pure none

/-- `allocate_init_thr_stack`; the result is the pointer, `none` being NULL. -/
def allocate_init_thr_stack (env : Env) (size func arg : Nat) : Lib (Option Nat) := do
  if size % PAGE_SIZE ≠ 0 then Lib.stop .panicked
  else
    match ← find_free_spot env size with
    | none => pure none
    | some (free_spot, first_init) =>
      let ret ← initialize_stack_meta env free_spot first_init func arg
      if ret = ERROR_INIT_STACK_META_FAILED then
        match free_spot with
        | none => Lib.stop .faulted
        | some p =>
          lock_free_stk_table
          Lib.modify fun s => { s with g_free_stk_table := s.g_free_stk_table ++ [p] }
          unlock_free_stk_table
          pure none
      else
        match free_spot with
        | none => Lib.stop .faulted
        | some p =>
          lock_thr_table
          Lib.modify fun s => { s with g_thr_table := s.g_thr_table ++ [p] }
          unlock_thr_table
          pure (some p)

/-- `thr_create`, when the child does not run before the call is over;
`env.fork_ret` is what `create_new_thread` returns. -/
def thr_create (env : Env) (func arg : Nat) : Lib Int := do
  let st ← Lib.get
  match ← allocate_init_thr_stack env st.g_thr_stack_size func arg with
  | none => pure ERROR_THR_CREATE_FAILED
  | some stack_meta_ptr =>
    let tid := env.fork_ret
    if tid < 0 then do
      free_thr_stack (some stack_meta_ptr)
      pure ERROR_THR_CREATE_FAILED
    else do
      lock_meta stack_meta_ptr
      Lib.store stack_meta_ptr fun r => { r with tid := tid, thr_state := RUNNABLE }
      cond_signal_meta env.kern stack_meta_ptr
      unlock_meta stack_meta_ptr
      pure tid

/-- The loop of `thr_join` and what follows it, entered with the record's
mutex held.  While the target has not terminated the caller waits on the
record's condition variable; should `cond_wait` return at once the loop
repeats for ever.  `statusp` tells whether the status pointer is non-NULL;
the result is the return value and what was stored through the pointer. -/
def thr_join_loop (exit_thread : Nat) (statusp : Bool) (ebp : Nat) : Lib (Int × Option Nat) := do
  let r ← Lib.deref exit_thread
  if r.thr_state ≠ TERMINATED then do
    cond_wait_meta exit_thread ebp
    Lib.stop .spins
  else do
    let status := if statusp then some r.exit_status else none
    unlock_meta exit_thread
    free_thr_stack (some exit_thread)
    pure (SUCCESS_RETURN, status)

/-- `thr_join` by the thread whose frame pointer is `ebp`, up to the point
where it returns or deschedules inside `cond_wait`. -/
def thr_join (tid : Int) (statusp : Bool) (ebp : Nat) : Lib (Int × Option Nat) := do
  let st ← Lib.get
  match find_thread_meta_by_tid st tid with
  | none => pure (ERROR_INVALID_TID, none)
  | some exit_thread =>
    let r ← Lib.deref exit_thread
    if r.join_flag = JOINING ∨ r.tid ≠ tid then pure (ERROR_MULTIPLE_JOINS, none)
    else do
      lock_meta exit_thread
      let r ← Lib.deref exit_thread
      if r.join_flag = JOINING ∨ r.tid ≠ tid then do
        unlock_meta exit_thread
        pure (ERROR_MULTIPLE_JOINS, none)
      else do
        Lib.store exit_thread fun r => { r with join_flag := JOINING }
        thr_join_loop exit_thread statusp ebp

/-- The rest of `thr_join` once the waiting caller has been made runnable:
`cond_wait` takes the record's mutex again and the loop test is repeated. -/
def thr_join_wake (exit_thread : Nat) (statusp : Bool) (ebp : Nat) : Lib (Int × Option Nat) := do
  lock_meta exit_thread
  thr_join_loop exit_thread statusp ebp

/-- `thr_exit` by the thread whose frame pointer is `ebp`. -/
def thr_exit (env : Env) (status : Nat) (ebp : Nat) : Lib Unit := do
  let st ← Lib.get
  match find_current_thread_meta st ebp with
  | none => Lib.stop .panicked
  | some exit_thread =>
    lock_meta exit_thread
    Lib.store exit_thread fun r => { r with exit_status := status, thr_state := TERMINATED }
    let r ← Lib.deref exit_thread
    if r.join_flag = JOINING then cond_signal_meta env.kern exit_thread else pure ()
    unlock_meta exit_thread
    Lib.stop .vanished

/-- `malloc_init`: the statics afterwards and the return value. -/
def malloc_init (ms : malloc_state) : malloc_state × Int :=
  if !ms.mutex_initialized then
    let a := mutex_init_at ms.heap_mutex
    if a.2 = SUCCESS_RETURN then ({ heap_mutex := a.1, mutex_initialized := true }, a.2)
    else ({ ms with heap_mutex := a.1 }, a.2)
  else (ms, ERROR_DOUBLE_INITIALIZATION)

/-- `install_swexn`. -/
def install_swexn (env : Env) : Lib Unit :=
  if env.swexn_ok then pure () else Lib.stop .panicked

/-- `cond_destroy( &(p->meta_cv) )`. -/
def cond_destroy_meta (p : Nat) : Lib Unit := do
  let r ← Lib.deref p
  match cond_destroy r.meta_cv with
  | .returned cv _ => Lib.store p fun r => { r with meta_cv := cv }
  | .stopped cv why =>
    Lib.store p fun r => { r with meta_cv := cv }
    Lib.stop why

/-- The part of `thr_init` that follows the call of `malloc_init`. -/
def thr_init_tables (env : Env) : Lib Int := do
  let st ← Lib.get
  let root := st.g_root_thr_meta
  let a := mutex_init_at st.g_stack_mutex
  let b := mutex_init_at st.g_thr_table_mutex
  let c := mutex_init_at st.g_free_stk_table_mutex
  Lib.modify fun s =>
    { s with g_stack_mutex := a.1, g_thr_table_mutex := b.1, g_free_stk_table_mutex := c.1 }
  let r ← Lib.deref root
  let d := mutex_init_at r.meta_mutex
  let e := cond_init_at env.malloc_ok r.meta_cv
  Lib.store root fun r => { r with meta_mutex := d.1, meta_cv := e.1 }
  let ret := or32 (or32 (or32 (or32 (or32 0 a.2) b.2) c.2) d.2) e.2
  if ret < 0 then do
    Lib.modify fun s =>
      { s with g_stack_mutex := mutex_destroy s.g_stack_mutex,
               g_thr_table_mutex := mutex_destroy s.g_thr_table_mutex,
               g_free_stk_table_mutex := mutex_destroy s.g_free_stk_table_mutex }
    Lib.store root fun r => { r with meta_mutex := mutex_destroy r.meta_mutex }
    cond_destroy_meta root
    pure ERROR_THR_INIT_FAILED
  else do
    Lib.modify fun s => { s with g_thr_table := [], g_free_stk_table := [] }
    Lib.store root fun r =>
      { r with func := 0, arg := 0, thr_state := RUNNABLE, join_flag := NOTJOINING,
               rw_type := RWLOCK_INVALID, exit_status := 0, root := IS_ROOT,
               tid := env.gettid, stack_high := env.root_stack_high,
               stack_low := env.root_stack_low }
    lock_thr_table
    Lib.modify fun s => { s with g_thr_table := root :: s.g_thr_table }
    unlock_thr_table
    lock_stack
    let r ← Lib.deref root
    Lib.modify fun s => { s with g_stacks_brk := r.stack_low }
    unlock_stack
    pure SUCCESS_RETURN

/-- `thr_init`, on the statics of `malloc.c` and the globals of the thread
library. -/
def thr_init (env : Env) (size : Nat) (g : malloc_state × thr_lib) :
    Outcome (malloc_state × thr_lib) Int :=
  match install_swexn env g.2 with
  | .stopped st why => .stopped (g.1, st) why
  | .returned st _ =>
    let st := { st with g_thr_stack_size := round_up_stack_size (add32 size env.meta_size) }
    let m := malloc_init g.1
    if m.2 < 0 then .stopped (m.1, st) .panicked
    else
      match thr_init_tables env st with
      | .returned st1 v => .returned (m.1, st1) v
      | .stopped st1 why => .stopped (m.1, st1) why

/-! ### Sample states of the thread library -/

/-- The state an outcome ends in. -/
def Outcome.state {σ α : Type} : Outcome σ α → σ
  | .returned s _ => s
  | .stopped s _ => s

/-- A record in zero-filled memory at address `a`. -/
def meta_zero (a : Nat) : thr_stack_meta :=
  { addr := a, func := 0, arg := 0, thr_state := 0, root := 0, tid := 0, rw_type := 0,
    join_flag := 0, exit_status := 0, meta_mutex := ⟨0, 0, 0⟩,
    meta_cv := ⟨0, none, ⟨0, 0, 0⟩⟩, stack_high := 0, stack_low := 0 }

/-- The statics of `malloc.c` when the program starts. -/
def malloc_boot : malloc_state := { heap_mutex := ⟨0, 0, 0⟩, mutex_initialized := false }

/-- The globals when the program starts: everything is zero, and the static
root record lies at `0x1000000`. -/
def lib_boot : thr_lib :=
  { mem := [meta_zero 16777216], g_root_thr_meta := 16777216, g_thr_table := [],
    g_free_stk_table := [], g_thr_stack_size := 0, g_stacks_brk := 0,
    g_stack_mutex := ⟨0, 0, 0⟩, g_thr_table_mutex := ⟨0, 0, 0⟩,
    g_free_stk_table_mutex := ⟨0, 0, 0⟩, calls := [] }

/-- Surroundings in which every system call succeeds: the root thread has
tid 1 and the stack `0xFFFFE000 .. 0xFFFFFFF0`, a record takes 128 bytes, new
pages are zero-filled, and the thread made by `create_new_thread` has tid 5. -/
def env_sample : Env :=
  { kern := kern_accepts, malloc_ok := true, new_pages_ok := true, swexn_ok := true,
    fresh := meta_zero 0, fork_ret := 5, meta_size := 128, gettid := 1,
    root_stack_high := 4294967280, root_stack_low := 4294959104 }

/-- The globals after `thr_init(4096)`. -/
def lib_ready : thr_lib :=
  (thr_init env_sample 4096 (malloc_boot, lib_boot)).state.2

/-- The globals after `thr_init(4096)` and `thr_create(f, 7)`, where `f` is
the function at address 77: the new thread has tid 5, its record lies at
`0xFFFFDF80` and its stack is `0xFFFFC000 .. 0xFFFFE000`. -/
def lib_running : thr_lib :=
  (thr_create env_sample 77 7 lib_ready).state

/-- The globals after the thread with tid 5, whose frame pointer lies in its
stack below `0xFFFFE000`, has called `thr_exit(7)` in `lib_running`. -/
def lib_exited : thr_lib :=
  (thr_exit env_sample 7 4294959000 lib_running).state

/-- The globals after the root thread has then called `thr_join(5, &s)`. -/
def lib_joined : thr_lib :=
  (thr_join 5 true 4294967000 lib_exited).state

/-- The globals after `thr_init(4096)` and `thr_create(NULL, 7)`. -/
def lib_null_create : thr_lib :=
  (thr_create env_sample 0 7 lib_ready).state

/-- As `env_sample`, but `malloc` fails. -/
def env_no_malloc : Env :=
  { kern := kern_accepts, malloc_ok := false, new_pages_ok := true, swexn_ok := true,
    fresh := meta_zero 0, fork_ret := 5, meta_size := 128, gettid := 1,
    root_stack_high := 4294967280, root_stack_low := 4294959104 }

/-- As `env_sample`, but the fork fails. -/
def env_no_fork : Env :=
  { kern := kern_accepts, malloc_ok := true, new_pages_ok := true, swexn_ok := true,
    fresh := meta_zero 0, fork_ret := -1, meta_size := 128, gettid := 1,
    root_stack_high := 4294967280, root_stack_low := 4294959104 }

/-- As `env_sample`, but `new_pages` fails. -/
def env_no_pages : Env :=
  { kern := kern_accepts, malloc_ok := true, new_pages_ok := false, swexn_ok := true,
    fresh := meta_zero 0, fork_ret := 5, meta_size := 128, gettid := 1,
    root_stack_high := 4294967280, root_stack_low := 4294959104 }

/-! ## Round trips of the mutex and of the reader/writer lock -/

/-- The sequence `rwlock_lock(WRITE); rwlock_downgrade; rwlock_unlock` by the
thread with record `self`: the lock afterwards, or `none` when a call waits
for the data mutex, when `rwlock_lock` does not return with the lock, or
when a call wakes somebody. -/
def write_downgrade_unlock (env : Int → Nat) (self : thr_stack_meta_t) (rw : rwlock_t) :
    Option rwlock_t :=
  match rwlock_lock rw self RWLOCK_WRITE with
  | some (rw1, [], .acquired) =>
    match rwlock_downgrade env rw1 with
    | some (rw2, [], []) =>
      match rwlock_unlock env rw2 with
      | some (rw3, _, [], []) => some rw3
      | _ => none
    | _ => none
  | _ => none

/-- The sequence repeated `n` times. -/
def write_downgrade_unlock_times (env : Int → Nat) (self : thr_stack_meta_t) :
    Nat → rwlock_t → Option rwlock_t
  | 0, rw => some rw
  | n + 1, rw =>
    match write_downgrade_unlock env self rw with
    | some rw1 => write_downgrade_unlock_times env self n rw1
    | none => none

/-! ## Autostack handler (`autostack.c`, `swexn_internals.h`) -/

/-- Modelled from the spec: `SWEXN_CAUSE_PAGEFAULT` is declared in the
kernel's `ureg.h`, which is not among the sources.  It is the number of the
page-fault exception, 14; the handler only compares the cause with it. -/
def SWEXN_CAUSE_PAGEFAULT : Nat := 14

def POINTER32 : Nat := 4
def ESP_ALIGN_MASK : Nat := 4294967040
def SWEXN_STACK_SIZE : Nat := PAGE_SIZE

/-- The fields of the register record `ureg_t` that the handler reads, all
`unsigned int`.  Modelled from the spec: the struct is declared in the
kernel's `ureg.h`, which is not among the sources. -/
structure ureg_t where
  cause : Nat
  cr2 : Nat
  ebp : Nat
  esp : Nat
deriving DecidableEq, Repr

/-- The system calls of the autostack code, with the value returned.
`swexn` carries the handler stack, the argument and the register record
passed on (`none` is NULL); the handler passed is always
`autostack_handler`. -/
inductive SysCall where
  | new_pages (base : Nat) (len : Nat) (ret : Int)
  | swexn (esp3 : Nat) (arg : Nat) (newureg : Option ureg_t) (ret : Int)
deriving DecidableEq, Repr

/-- The statics of `autostack.c`, the global `esp3`, and the log of the
system calls made. -/
structure autostack_t where
  g_root_stk_high : Nat
  g_root_stk_low : Nat
  g_swexn_stk_high : Nat
  g_swexn_stk_low : Nat
  g_stack_grow_size : Nat
  esp3 : Nat
  calls : List SysCall
deriving DecidableEq, Repr

/-- `autostack_handler`.  `new_pages_ret` and `swexn_ret` are what the two
system calls return if they are made.  A successful `swexn` with the register
record resumes the thread at the faulting instruction; that and the plain
return at the end of the function are both `returned`. -/
def autostack_handler (new_pages_ret swexn_ret : Int) (arg : Nat) (ureg : ureg_t)
    (s : autostack_t) : Outcome autostack_t Unit :=
  if ureg.cause = SWEXN_CAUSE_PAGEFAULT then
    if ureg.cr2 ≤ ureg.ebp ∧ add32 ureg.cr2 POINTER32 ≥ ureg.esp then
      let s := { s with g_root_stk_low := sub32 s.g_root_stk_low s.g_stack_grow_size }
      let s := { s with calls := s.calls ++
        [SysCall.new_pages s.g_root_stk_low s.g_stack_grow_size new_pages_ret] }
      if new_pages_ret < 0 then .stopped s .panicked
      else
        let s := { s with calls := s.calls ++ [SysCall.swexn s.esp3 arg (some ureg) swexn_ret] }
        if swexn_ret < 0 then .stopped s .panicked
        else .returned s ()
    else .returned s ()
  else .returned s ()

/-- `install_autostack`; `malloc_ret` is what `malloc` returns (0 is NULL). -/
def install_autostack (malloc_ret : Nat) (swexn_ret : Int) (stack_high stack_low : Nat)
    (s : autostack_t) : Outcome autostack_t Unit :=
  if stack_high = 0 ∧ stack_low = 0 then .stopped s .panicked
  else
    let s := { s with g_root_stk_high := stack_high }
    let s := { s with g_root_stk_low := stack_low }
    let s := { s with g_stack_grow_size := sub32 stack_high stack_low }
    let s := { s with g_stack_grow_size := round_up_stack_size s.g_stack_grow_size }
    let swexn_stack_low := malloc_ret
    if swexn_stack_low = 0 then .stopped s .panicked
    else
      let s := { s with g_swexn_stk_low := swexn_stack_low }
      let s := { s with g_swexn_stk_high := add32 s.g_swexn_stk_low SWEXN_STACK_SIZE }
      let s := { s with esp3 := add32 swexn_stack_low SWEXN_STACK_SIZE }
      let s := { s with esp3 := s.esp3 &&& ESP_ALIGN_MASK }
      let s := { s with calls := s.calls ++ [SysCall.swexn s.esp3 0 none swexn_ret] }
      if swexn_ret < 0 then .stopped s .panicked
      else .returned s ()

/-- The handler run on a sequence of faults, every system call succeeding. -/
def autostack_run (s : autostack_t) : List ureg_t → autostack_t
  | [] => s
  | ureg :: rest =>
    match autostack_handler 0 0 0 ureg s with
    | .returned s1 _ => autostack_run s1 rest
    | .stopped s1 _ => s1

/-- The fault is a page fault at an address from 4 bytes below the stack
pointer up to the frame pointer. -/
def in_frame (ureg : ureg_t) : Prop :=
  ureg.cause = SWEXN_CAUSE_PAGEFAULT ∧ (ureg.esp : Int) - 4 ≤ ureg.cr2 ∧ ureg.cr2 ≤ ureg.ebp

instance (ureg : ureg_t) : Decidable (in_frame ureg) := by
  unfold in_frame; exact inferInstance

/-- The statics before `install_autostack`. -/
def autostack_boot : autostack_t :=
  { g_root_stk_high := 0, g_root_stk_low := 0, g_swexn_stk_high := 0, g_swexn_stk_low := 0,
    g_stack_grow_size := 0, esp3 := 0, calls := [] }

/-- The statics after `install_autostack(0xFFFFFFF0, 0xFFFFE000)` with the
handler stack allocated at `0x1100000`. -/
def autostack_sample : autostack_t :=
  (install_autostack 17825792 0 4294967280 4294959104 autostack_boot).state

/-! ## Timer driver (`kern/timer_driver.c`, `kern/device_drivers.h`) -/

def TIMER_TICK_CALIBRATE_NUM : Int := 14551

/-- What the timer handler does to its surroundings: a call of the
registered callback with its argument, and the acknowledgement
`outb(INT_CTL_PORT, INT_ACK_CURRENT)` sent to the interrupt controller. -/
inductive TimerOut where
  | tick_callback (numTicks : Nat)
  | ack
deriving DecidableEq, Repr

/-- The statics of `timer_driver.c`; `tick_callback` tells whether the
callback pointer is non-NULL.  `out` logs what the handler did. -/
structure timer_t where
  num_ticks : Int
  tick_callback : Bool
  out : List TimerOut
deriving DecidableEq, Repr

/-- `link_tick_funct` with a non-NULL function. -/
def link_tick_funct (s : timer_t) : timer_t := { s with tick_callback := true }

/-- `timer_int_handler`. -/
def timer_int_handler (s : timer_t) : timer_t :=
  let s :=
    if s.num_ticks ≠ 0 ∧ Int.tmod s.num_ticks TIMER_TICK_CALIBRATE_NUM = 0 then s
    else
      let s := { s with num_ticks := wrap32 (s.num_ticks + 1) }
      if s.tick_callback then { s with out := s.out ++ [TimerOut.tick_callback (to_u32 s.num_ticks)] }
      else s
  { s with out := s.out ++ [TimerOut.ack] }

/-- The handler run for `n` interrupts. -/
def timer_run : Nat → timer_t → timer_t
  | 0, s => s
  | n + 1, s => timer_run n (timer_int_handler s)

/-- The arguments of the callback calls in a log, in call order. -/
def callback_args : List TimerOut → List Nat
  | [] => []
  | TimerOut.tick_callback k :: rest => k :: callback_args rest
  | TimerOut.ack :: rest => callback_args rest

/-- The statics when the kernel starts and after `link_tick_funct(tick)`. -/
def timer_boot : timer_t := { num_ticks := 0, tick_callback := true, out := [] }

/-! ## More sample states of the thread library -/

/-- As `env_sample`, but the thread made by `create_new_thread` has tid 6. -/
def env_second : Env :=
  { kern := kern_accepts, malloc_ok := true, new_pages_ok := true, swexn_ok := true,
    fresh := meta_zero 0, fork_ret := 6, meta_size := 128, gettid := 1,
    root_stack_high := 4294967280, root_stack_low := 4294959104 }

/-- The globals after `thr_init(4096)` and two calls `thr_create(f, 7)`: the
threads have tids 5 and 6, their records lie at `0xFFFFDF80` and
`0xFFFFBF80`. -/
def lib_two_threads : thr_lib :=
  (thr_create env_second 77 7 lib_running).state

/-- The record at `p` is in the thread table and its stack range, with both
bounds included as in `find_thread_meta_by_ebp`, holds the address `a`. -/
def stack_holds (st : thr_lib) (p a : Nat) : Prop :=
  p ∈ st.g_thr_table ∧
    ∃ r, st.read p = some r ∧ a ≤ r.stack_high ∧ a ≥ r.stack_low

/-- The record at `p` has an initialized mutex and an initialized condition
variable. -/
def record_initialized (st : thr_lib) (p : Nat) : Prop :=
  ∃ r, st.read p = some r ∧ r.meta_mutex.valid = LOCK_INITIALIZED ∧
    r.meta_cv.valid = COND_INITIALIZED

/-! ## The thread table and the free-stack list along any schedule -/

/-- The outcome of the call `m` from the state `s`: `Q` holds of the value
and the state if the call returns, `E` of the reason and the state if it
stops. -/
def Lib.wp {α : Type} (m : Lib α) (Q : α → thr_lib → Prop) (E : Stop → thr_lib → Prop)
    (s : thr_lib) : Prop :=
  match m s with
  | .returned s1 a => Q a s1
  | .stopped s1 why => E why s1

/-- The `root` and `join_flag` fields of the record at `q`. -/
def rec_flags (st : thr_lib) (q : Nat) : Option (Int × Int) :=
  (st.read q).map fun r => (r.root, r.join_flag)

/-- The state `s1` has the thread table, the free-stack list and the root
record's address of `s`, and every record has kept its `root` and
`join_flag` fields. -/
def quiet (s s1 : thr_lib) : Prop :=
  s1.g_thr_table = s.g_thr_table ∧ s1.g_free_stk_table = s.g_free_stk_table ∧
    s1.g_root_thr_meta = s.g_root_thr_meta ∧ ∀ q, rec_flags s1 q = rec_flags s q

/-- What the claim about the two lists says of a state: the root record is in
the thread table and not on the free-stack list, and no record is in both. -/
def lists_ok (st : thr_lib) : Prop :=
  st.g_root_thr_meta ∈ st.g_thr_table ∧ st.g_root_thr_meta ∉ st.g_free_stk_table ∧
    ∀ q ∈ st.g_free_stk_table, q ∉ st.g_thr_table

/-- The invariant that carries `lists_ok` along a schedule.  `joining` lists
the records on which a `thr_join` is blocked: neither list repeats a record,
the root record carries `IS_ROOT`, and every record being joined is in the
thread table with its join flag set. -/
def lib_inv (joining : List Nat) (st : thr_lib) : Prop :=
  lists_ok st ∧ st.g_thr_table.Nodup ∧ st.g_free_stk_table.Nodup ∧
    (rec_flags st st.g_root_thr_meta).map Prod.fst = some IS_ROOT ∧
    (∀ q ∈ joining, q ∈ st.g_thr_table ∧ (rec_flags st q).map Prod.snd = some JOINING) ∧
    joining.Nodup

/-- The calls that change the two lists, as steps of a schedule.  `wake` is
the continuation of a `thr_join` that blocked on the record `exit_thread`;
`free` is a direct call of `free_thr_stack`. -/
inductive LibEvent where
  | create (env : Env) (func arg : Nat)
  | join (tid : Int) (statusp : Bool) (ebp : Nat)
  | wake (exit_thread : Nat) (statusp : Bool) (ebp : Nat)
  | exit (env : Env) (status ebp : Nat)
  | free (stack_meta_ptr : Option Nat)

/-- The globals together with the records on which a `thr_join` is blocked. -/
structure LibSys where
  lib : thr_lib
  joining : List Nat
deriving DecidableEq

/-- Where `allocate_init_thr_stack` places the record when it maps a new
region of the per-thread stack size. -/
def fresh_spot (st : thr_lib) (env : Env) : Nat :=
  sub32 (add32 (sub32 (st.g_stacks_brk - st.g_stacks_brk % PAGE_SIZE) st.g_thr_stack_size)
    st.g_thr_stack_size) env.meta_size

/-- One step; `none` when the event is not possible in this state.  A call
that stops part-way leaves the globals as they are at that point.
`create`: the kernel grants new pages only where no record of the thread
table lies.  `wake`: only for a record on which a join is blocked.  `free`:
on NULL, or on a record of the thread table that nobody is joining. -/
def LibSys.step (sys : LibSys) : LibEvent → Option LibSys
  | .create env func arg =>
    if sys.lib.g_free_stk_table = [] ∧ env.new_pages_ok = true ∧
        fresh_spot sys.lib env ∈ sys.lib.g_thr_table then none
    else some { sys with lib := (thr_create env func arg sys.lib).state }
  | .join tid statusp ebp =>
    match thr_join tid statusp ebp sys.lib, find_thread_meta_by_tid sys.lib tid with
    | .stopped st .blocked, some p => some { lib := st, joining := sys.joining ++ [p] }
    | o, _ => some { sys with lib := o.state }
  | .wake p statusp ebp =>
    if p ∈ sys.joining then
      match thr_join_wake p statusp ebp sys.lib with
      | .stopped st .blocked => some { sys with lib := st }
      | o => some { lib := o.state, joining := sys.joining.erase p }
    else none
  | .exit env status ebp => some { sys with lib := (thr_exit env status ebp sys.lib).state }
  | .free none => some { sys with lib := (free_thr_stack none sys.lib).state }
  | .free (some p) =>
    if p ∈ sys.lib.g_thr_table ∧ p ∉ sys.joining then
      some { sys with lib := (free_thr_stack (some p) sys.lib).state }
    else none

/-- Run a sequence of events. -/
def LibSys.run (sys : LibSys) : List LibEvent → Option LibSys
  | [] => some sys
  | e :: es =>
    match sys.step e with
    | some sys1 => sys1.run es
    | none => none

/-- The call `m` is quiet: however it ends, the two lists, the address of the
root record and the `root` and `join_flag` fields of all records are as
before. -/
def Lib.is_quiet {α : Type} (m : Lib α) : Prop :=
  ∀ s, quiet s (m s).state

/-- The record `p` is between the lists: taken off the free-stack list or
newly mapped, and not yet in the thread table. -/
def detached (joining : List Nat) (p : Nat) (st : thr_lib) : Prop :=
  lib_inv joining st ∧ p ∉ st.g_thr_table ∧ p ∉ st.g_free_stk_table ∧ p ≠ st.g_root_thr_meta

/-- The call `m` leaves the address of the root record as it is, however it
ends. -/
def Lib.keeps_root {α : Type} (m : Lib α) : Prop :=
  ∀ s, (m s).state.g_root_thr_meta = s.g_root_thr_meta

/-- A schedule after `thr_init(4096)`: `thr_create(f, 7)` makes the thread
with tid 5, which calls `thr_exit(7)`; the root thread joins it; the root
thread calls `thr_exit(0)`; a `thr_join` on the root's tid 1 follows, and a
direct `free_thr_stack` on the root record. -/
def sched_sample : List LibEvent :=
  [.create env_sample 77 7, .exit env_sample 7 4294959000, .join 5 true 4294967000,
   .exit env_sample 0 4294967000, .join 1 false 4294959000, .free (some 16777216)]

/-- The state in which `sched_sample` ends. -/
def sys_sample : LibSys :=
  { lib := (thr_join 1 false 4294959000
      (thr_exit env_sample 0 4294967000 lib_joined).state).state,
    joining := [] }

/-! ## Arithmetic and list facts -/

theorem UINT_RANGE_eq : UINT_RANGE = 4294967296 := by decide

theorem getElem?_some_lt {α : Type} (l : List α) (i : Nat) (a : α) (h : l[i]? = some a) :
    i < l.length := by
  by_contra hne
  rw [List.getElem?_eq_none (by omega)] at h; simp at h

theorem mod_add_eq_self (r i : Nat) (hi : i < UINT_RANGE)
    (h : (r + i) % UINT_RANGE = r % UINT_RANGE) : i = 0 := by
  rw [UINT_RANGE_eq] at *; omega

theorem take_length_takeWhile {α : Type} (p : α → Bool) (l : List α) :
    l.take (l.takeWhile p).length = l.takeWhile p := by
  induction l with
  | nil => simp
  | cons a l ih =>
    by_cases h : p a
    · simp [List.takeWhile_cons, h, ih]
    · simp [List.takeWhile_cons, h]

theorem erase_of_length_one {α : Type} [DecidableEq α] (l : List α) (a : α)
    (ha : a ∈ l) (hl : l.length = 1) : l.erase a = [] := by
  have := List.length_erase_of_mem ha
  rw [hl] at this
  exact List.length_eq_zero.mp (by simpa using this)

/-! ## The mutex -/

theorem mutex_init_success (mp m0 : mutex_t)
    (h : mutex_init (some mp) = (some m0, SUCCESS_RETURN)) :
    m0 = { valid := LOCK_INITIALIZED, ticket_num := 0, turn := 0 } := by
  simp only [mutex_init] at h
  split at h
  · simp [ERROR_INIT_ON_USE, SUCCESS_RETURN] at h
  · simp at h; exact h.symm

theorem MutexSys.inv_init : (MutexSys.mk ⟨LOCK_INITIALIZED, 0, 0⟩ 0 []).Inv := by
  simp [MutexSys.Inv]

theorem MutexSys.invOrder_init : (MutexSys.mk ⟨LOCK_INITIALIZED, 0, 0⟩ 0 []).InvOrder := by
  intro j p h; simp at h

theorem MutexSys.inv_step (s s1 : MutexSys) (e : MutexEvent) (hi : s.Inv)
    (hs : s.step e = some s1) : s1.Inv := by
  obtain ⟨hv, ht, hl, hu⟩ := hi
  cases e with
  | draw =>
    simp only [MutexSys.step, mutex_lock_draw, hv, LOCK_INITIALIZED, LOCK_UNINITIALIZED,
      atomic_increment] at hs
    simp at hs
    subst hs
    refine ⟨by simp [LOCK_INITIALIZED], ?_, ?_, ?_⟩
    · simp [ht, Nat.add_mod]
    · simp; exact hl
    · simp; rw [hu]
  | spin i =>
    simp only [MutexSys.step] at hs
    split at hs
    · rename_i t hg
      split at hs
      · simp at hs; subst hs; exact ⟨hv, ht, hl, hu⟩
      · simp at hs; subst hs
        exact ⟨hv, ht, by simpa using hl, by simpa using hu⟩
    · simp at hs
  | unlock i =>
    simp only [MutexSys.step] at hs
    split at hs
    · rename_i t hg
      simp at hs; subst hs
      simp only [List.get?_eq_getElem?] at hg
      have hil : i < s.pending.length := getElem?_some_lt _ _ _ hg
      refine ⟨?_, ?_, ?_, ?_⟩
      · simp [mutex_unlock, hv, LOCK_INITIALIZED, LOCK_UNINITIALIZED]
      · simp [mutex_unlock, hv, LOCK_INITIALIZED, LOCK_UNINITIALIZED, ht]
      · simp [List.length_eraseIdx, hil]; omega
      · simp [mutex_unlock, hv, LOCK_INITIALIZED, LOCK_UNINITIALIZED, atomic_increment,
          List.length_eraseIdx, hil, hu]
        rw [UINT_RANGE_eq]; omega
    · simp at hs

theorem MutexSys.invOrder_step (s s1 : MutexSys) (e : MutexEvent) (hi : s.Inv)
    (ho : s.InvOrder) (hb : s.pending.length < UINT_RANGE)
    (hs : s.step e = some s1) : s1.InvOrder := by
  obtain ⟨hv, ht, hl, hu⟩ := hi
  cases e with
  | draw =>
    simp only [MutexSys.step, mutex_lock_draw, hv, LOCK_INITIALIZED, LOCK_UNINITIALIZED,
      atomic_increment] at hs
    simp at hs
    subst hs
    intro j p hj
    simp only [List.length_append, List.length_singleton, Nat.add_sub_add_right]
    simp only [List.get?_eq_getElem?] at hj
    by_cases hjl : j < s.pending.length
    · rw [List.getElem?_append_left hjl] at hj
      exact ho j p (by simpa using hj)
    · rw [List.getElem?_append_right (by omega)] at hj
      have hlt := getElem?_some_lt _ _ _ hj
      simp at hlt
      rw [hlt] at hj
      simp at hj
      subst hj
      refine ⟨?_, by simp⟩
      simp only [ht]
      congr 1; omega
  | spin i =>
    simp only [MutexSys.step] at hs
    split at hs
    · rename_i t hg
      split at hs
      · simp at hs; subst hs; exact ho
      · rename_i hsp
        simp at hs; subst hs
        intro j p hj
        simp only [List.length_set]
        simp only [List.get?_eq_getElem?] at hj hg
        rw [List.getElem?_set] at hj
        split at hj
        · rename_i hij
          subst hij
          split at hj
          · simp at hj; subst hj
            have h1 := (ho i _ (by simpa using hg)).1
            refine ⟨h1, fun _ => ?_⟩
            simp [mutex_lock_spin] at hsp
            simp only at h1
            have hil := getElem?_some_lt _ _ _ hg
            apply mod_add_eq_self (s.draws - s.pending.length) i (by omega)
            rw [← h1, hsp, hu]
          · simp at hj
        · exact ho j p (by simpa using hj)
    · simp at hs
  | unlock i =>
    simp only [MutexSys.step] at hs
    split at hs
    · rename_i t hg
      simp at hs; subst hs
      have hi0 : i = 0 := (ho i _ hg).2 rfl
      subst hi0
      simp only [List.get?_eq_getElem?] at hg
      have hil := getElem?_some_lt _ _ _ hg
      intro j p hj
      simp only [List.get?_eq_getElem?] at hj
      rw [List.getElem?_eraseIdx] at hj
      simp at hj
      have := ho (j+1) p (by simpa using hj)
      simp only [List.length_eraseIdx, hil, if_true]
      refine ⟨?_, fun hp => ?_⟩
      · rw [this.1]; congr 1; omega
      · have := this.2 hp; omega
    · simp at hs

theorem MutexSys.run_append (s : MutexSys) (a b : List MutexEvent) :
    s.run (a ++ b) = (s.run a).bind fun s1 => s1.run b := by
  induction a generalizing s with
  | nil => simp [MutexSys.run]
  | cons e es ih =>
    simp only [List.cons_append, MutexSys.run]
    cases h : s.step e with
    | none => simp
    | some s1 => simp [ih]

theorem MutexSys.run_inv (evs : List MutexEvent) (s0 s : MutexSys) (hi : s0.Inv)
    (hr : s0.run evs = some s) : s.Inv := by
  induction evs generalizing s0 with
  | nil => simp [MutexSys.run] at hr; subst hr; exact hi
  | cons e es ih =>
    simp only [MutexSys.run] at hr
    cases h : s0.step e with
    | none => simp [h] at hr
    | some s1 =>
      simp only [h] at hr
      exact ih s1 (MutexSys.inv_step s0 s1 e hi h) hr

theorem MutexSys.run_invOrder (evs : List MutexEvent) (s0 s : MutexSys) (hi : s0.Inv)
    (ho : s0.InvOrder) (hb : s0.bounded evs = true)
    (hr : s0.run evs = some s) :
    s.InvOrder ∧ s.pending.length < UINT_RANGE := by
  induction evs generalizing s0 with
  | nil =>
    simp [MutexSys.run] at hr; subst hr
    simp [MutexSys.bounded] at hb
    exact ⟨ho, hb⟩
  | cons e es ih =>
    simp only [MutexSys.run] at hr
    simp only [MutexSys.bounded, Bool.and_eq_true, decide_eq_true_eq] at hb
    cases h : s0.step e with
    | none => simp [h] at hr
    | some s1 =>
      simp only [h] at hr hb
      exact ih s1 (MutexSys.inv_step s0 s1 e hi h)
        (MutexSys.invOrder_step s0 s1 e hi ho hb.1 h) hb.2 hr

theorem MutexSys.run_cycles (n k : Nat) :
    (MutexSys.mk ⟨LOCK_INITIALIZED, k % UINT_RANGE, k % UINT_RANGE⟩ k []).run
      (List.replicate n lock_unlock_cycle).flatten
    = some (MutexSys.mk ⟨LOCK_INITIALIZED, (k + n) % UINT_RANGE, (k + n) % UINT_RANGE⟩ (k + n) []) := by
  induction n generalizing k with
  | zero => simp [MutexSys.run]
  | succ n ih =>
    rw [List.replicate_succ, List.flatten_cons, MutexSys.run_append]
    have h1 : (MutexSys.mk ⟨LOCK_INITIALIZED, k % UINT_RANGE, k % UINT_RANGE⟩ k []).run
        lock_unlock_cycle
        = some (MutexSys.mk ⟨LOCK_INITIALIZED, (k + 1) % UINT_RANGE, (k + 1) % UINT_RANGE⟩ (k + 1) []) := by
      simp [lock_unlock_cycle, MutexSys.run, MutexSys.step, mutex_lock_draw, mutex_lock_spin,
        mutex_unlock, atomic_increment, LOCK_INITIALIZED, LOCK_UNINITIALIZED]
    rw [h1]
    simp only [Option.some_bind]
    rw [ih (k + 1)]
    simp [Nat.add_assoc, Nat.add_comm 1 n]

theorem mutex_lock_free (m : mutex_t) (h : mutex_free m) :
    mutex_lock m = some { m with ticket_num := (m.ticket_num + 1) % UINT_RANGE } := by
  obtain ⟨hv, ht⟩ := h
  simp [mutex_lock, mutex_lock_draw, mutex_lock_spin, atomic_increment, hv, ht,
    LOCK_INITIALIZED, LOCK_UNINITIALIZED]

theorem mutex_unlock_locked (m : mutex_t) (h : mutex_free m) :
    mutex_unlock { m with ticket_num := (m.ticket_num + 1) % UINT_RANGE } = mutex_cycled m := by
  obtain ⟨hv, ht⟩ := h
  simp [mutex_unlock, mutex_cycled, atomic_increment, hv, LOCK_INITIALIZED, LOCK_UNINITIALIZED]

theorem mutex_cycled_free (m : mutex_t) (h : mutex_free m) : mutex_free (mutex_cycled m) := by
  obtain ⟨hv, ht⟩ := h
  simp [mutex_free, mutex_cycled, hv, ht]

/-! ### Claims about the mutex -/

/-- C1: on a mutex initialized by a successful `mutex_init`, after any
sequence of steps of its callers in which only a caller whose `mutex_lock` has
returned calls `mutex_unlock`: the next `mutex_lock` draws the ticket
`draws mod 2^32`, where `draws` is the number of calls made so far; the loop of
`mutex_lock` is left exactly when `turn` equals the caller's ticket;
`mutex_unlock` advances `turn` by one (modulo `2^32`) and leaves `ticket_num`
alone.  If moreover fewer than `2^32` tickets were outstanding throughout, the
outstanding tickets are consecutive in draw order, at most one of them equals
`turn`, and the only caller that is or can be admitted is the one with the
oldest outstanding ticket. -/
theorem mutex_ticket_order (mp m0 : mutex_t) (evs : List MutexEvent) (s : MutexSys)
    (hinit : mutex_init (some mp) = (some m0, SUCCESS_RETURN))
    (hr : (MutexSys.mk m0 0 []).run evs = some s) :
    mutex_lock_draw s.m =
        ({ s.m with ticket_num := (s.m.ticket_num + 1) % UINT_RANGE },
          some (s.draws % UINT_RANGE)) ∧
    (∀ t, mutex_lock_spin t s.m = false ↔ s.m.turn = t) ∧
    mutex_unlock s.m = { s.m with turn := (s.m.turn + 1) % UINT_RANGE } ∧
    ((MutexSys.mk m0 0 []).bounded evs = true →
      (∀ j p, s.pending.get? j = some p →
        p.1 = (s.draws - s.pending.length + j) % UINT_RANGE) ∧
      (∀ i j p q, s.pending.get? i = some p → s.pending.get? j = some q →
        p.1 = s.m.turn → q.1 = s.m.turn → i = j) ∧
      (∀ i p, s.pending.get? i = some p →
        (mutex_lock_spin p.1 s.m = false ∨ p.2 = true) → i = 0)) := by
  have hm0 := mutex_init_success mp m0 hinit
  subst hm0
  have hi := MutexSys.run_inv evs _ s MutexSys.inv_init hr
  obtain ⟨hv, ht, hl, hu⟩ := hi
  refine ⟨?_, ?_, ?_, ?_⟩
  · simp [mutex_lock_draw, atomic_increment, hv, ht, LOCK_INITIALIZED, LOCK_UNINITIALIZED]
  · intro t
    simp [mutex_lock_spin]
    exact eq_comm
  · simp [mutex_unlock, atomic_increment, hv, LOCK_INITIALIZED, LOCK_UNINITIALIZED]
  · intro hb
    obtain ⟨ho, hlen⟩ := MutexSys.run_invOrder evs _ s MutexSys.inv_init
      MutexSys.invOrder_init hb hr
    have key : ∀ i p, s.pending.get? i = some p → p.1 = s.m.turn → i = 0 := by
      intro i p hp hpt
      have h1 := (ho i p hp).1
      simp only [List.get?_eq_getElem?] at hp
      have hil := getElem?_some_lt _ _ _ hp
      apply mod_add_eq_self (s.draws - s.pending.length) i (by omega)
      rw [← h1, hpt, hu]
    refine ⟨fun j p hp => (ho j p hp).1, ?_, ?_⟩
    · intro i j p q hp hq hpt hqt
      rw [key i p hp hpt, key j q hq hqt]
    · intro i p hp h
      rcases h with h | h
      · apply key i p hp
        simp [mutex_lock_spin] at h
        exact h
      · exact (ho i p hp).2 h

/-- C1 (witness): two callers draw tickets 0 and 1, both test the loop
condition, and only the first is admitted. -/
theorem mutex_ticket_order_witness :
    mutex_init (some ⟨0, 0, 0⟩) = (some ⟨1, 0, 0⟩, SUCCESS_RETURN) ∧
    (MutexSys.mk ⟨1, 0, 0⟩ 0 []).run [.draw, .draw, .spin 1, .spin 0]
      = some (MutexSys.mk ⟨1, 2, 0⟩ 2 [(0, true), (1, false)]) ∧
    mutex_lock_draw ⟨1, 2, 0⟩ = (⟨1, 3, 0⟩, some 2) ∧
    (∀ i p, [((0 : Nat), true), (1, false)].get? i = some p →
        (mutex_lock_spin p.1 ⟨1, 2, 0⟩ = false ∨ p.2 = true) → i = 0) :=
  have h := mutex_ticket_order ⟨0, 0, 0⟩ ⟨1, 0, 0⟩ [.draw, .draw, .spin 1, .spin 0]
    (MutexSys.mk ⟨1, 2, 0⟩ 2 [(0, true), (1, false)]) (by decide) (by decide)
  ⟨by decide, by decide, h.1, (h.2.2.2 (by decide)).2.2⟩

/-- C2 (counterexample): after `2^32 - 1` uncontended lock/unlock pairs and one
more uncontended `mutex_lock`, all by holders, `ticket_num` has wrapped to 0
while `turn` is `2^32 - 1`. -/
theorem mutex_ticket_wraps_below_turn :
    mutex_init (some ⟨0, 0, 0⟩) = (some ⟨1, 0, 0⟩, SUCCESS_RETURN) ∧
    (MutexSys.mk ⟨1, 0, 0⟩ 0 []).run wrap_schedule
      = some (MutexSys.mk ⟨1, 0, 4294967295⟩ 4294967296 [(4294967295, true)]) ∧
    ¬ ((MutexSys.mk ⟨1, 0, 4294967295⟩ 4294967296 [(4294967295, true)]).m.turn
        ≤ (MutexSys.mk ⟨1, 0, 4294967295⟩ 4294967296 [(4294967295, true)]).m.ticket_num) := by
  refine ⟨by decide, ?_, by decide⟩
  have h := MutexSys.run_cycles (UINT_RANGE - 1) 0
  have e1 : (0 : Nat) % UINT_RANGE = 0 := by decide
  have e2 : (0 + (UINT_RANGE - 1)) % UINT_RANGE = 4294967295 := by decide
  have e3 : 0 + (UINT_RANGE - 1) = 4294967295 := by decide
  have e4 : (LOCK_INITIALIZED : Nat) = 1 := rfl
  rw [e1, e2, e3, e4] at h
  rw [wrap_schedule, MutexSys.run_append, h]
  simp only [Option.some_bind]
  decide

/-- C2 (amended): in every state reached from a successful `mutex_init` by
steps in which only holders unlock, `turn ≤ ticket_num` as long as fewer than
`2^32` tickets have been drawn since the initialization. -/
theorem mutex_turn_le_ticket (mp m0 : mutex_t) (evs : List MutexEvent) (s : MutexSys)
    (hinit : mutex_init (some mp) = (some m0, SUCCESS_RETURN))
    (hr : (MutexSys.mk m0 0 []).run evs = some s)
    (hd : s.draws < UINT_RANGE) :
    s.m.turn ≤ s.m.ticket_num := by
  have hm0 := mutex_init_success mp m0 hinit
  subst hm0
  obtain ⟨_, ht, hl, hu⟩ := MutexSys.run_inv evs _ s MutexSys.inv_init hr
  rw [ht, hu, Nat.mod_eq_of_lt hd, Nat.mod_eq_of_lt (by omega)]
  omega

/-- C2 (witness): two draws, the first caller admitted and released. -/
theorem mutex_turn_le_ticket_witness :
    mutex_init (some ⟨0, 0, 0⟩) = (some ⟨1, 0, 0⟩, SUCCESS_RETURN) ∧
    (MutexSys.mk ⟨1, 0, 0⟩ 0 []).run [.draw, .draw, .spin 0, .unlock 0]
      = some (MutexSys.mk ⟨1, 2, 1⟩ 2 [(1, false)]) ∧
    (1 : Nat) ≤ 2 :=
  ⟨by decide, by decide,
    mutex_turn_le_ticket ⟨0, 0, 0⟩ ⟨1, 0, 0⟩ [.draw, .draw, .spin 0, .unlock 0]
      (MutexSys.mk ⟨1, 2, 1⟩ 2 [(1, false)]) (by decide) (by decide) (by decide)⟩

/-- C3 (the code at the failing input): a mutex that was initialized, locked
once and unlocked once has `ticket_num = turn = 1`; `mutex_init` on it returns
`ERROR_INIT_ON_USE` and leaves it as it is, because the test compares
`ticket_num` with 0 and not with `turn`. -/
theorem mutex_init_rejects_released :
    (MutexSys.mk ⟨1, 0, 0⟩ 0 []).run lock_unlock_cycle = some (MutexSys.mk ⟨1, 1, 1⟩ 1 []) ∧
    mutex_init (some ⟨1, 1, 1⟩) = (some ⟨1, 1, 1⟩, ERROR_INIT_ON_USE) := by
  decide

/-! ## The reader/writer lock -/

/-! ### `dequeue` and the wake-up calls -/

theorem dequeue_readers_spec (env : Int → Nat) (r : thr_stack_meta_t)
    (rest : List thr_stack_meta_t) :
    dequeue_readers env r rest =
      (rest.dropWhile is_reader,
       wake_all env (r :: rest.takeWhile is_reader),
       (r :: rest.takeWhile is_reader).map fun x => { x with rw_type := RWLOCK_INVALID }) := by
  induction rest generalizing r with
  | nil => simp [dequeue_readers, wake_all]
  | cons n rest ih =>
    simp only [dequeue_readers]
    by_cases h : RWLOCK_READ = n.rw_type
    · have hn : is_reader n = true := by simp [is_reader, h]
      simp only [h, if_true, ih n, List.dropWhile_cons, List.takeWhile_cons, hn]
      simp [wake_all]
    · have hn : is_reader n = false := by simp [is_reader, h]
      simp only [h, if_false, List.dropWhile_cons, List.takeWhile_cons, hn]
      simp [wake_all]

theorem wake_all_nil (env : Int → Nat) : wake_all env [] = [] := by simp [wake_all]

theorem made_runnable_append (a b : List Call) :
    made_runnable (a ++ b) = made_runnable a ++ made_runnable b := by
  induction a with
  | nil => simp [made_runnable]
  | cons c cs ih =>
    cases c with
    | make_runnable t r =>
      simp only [List.cons_append, made_runnable]
      split <;> simp [ih]
    | thr_yield t => simp [made_runnable, ih]
    | deschedule => simp [made_runnable, ih]
    | new_pages b l r => simp [made_runnable, ih]

theorem make_runnable_targets_append (a b : List Call) :
    make_runnable_targets (a ++ b) = make_runnable_targets a ++ make_runnable_targets b := by
  induction a with
  | nil => simp [make_runnable_targets]
  | cons c cs ih =>
    cases c <;> simp [make_runnable_targets, ih]

theorem made_runnable_wake_loop (env : Int → Nat) (tid : Int) :
    made_runnable (wake_loop env tid) = [tid] := by
  unfold wake_loop
  rw [made_runnable_append]
  generalize env tid = n
  induction n with
  | zero => simp [made_runnable]
  | succ n ih =>
    rw [List.replicate_succ, List.flatten_cons, made_runnable_append]
    simpa [made_runnable] using ih

theorem make_runnable_targets_wake_loop (env : Int → Nat) (tid : Int) :
    make_runnable_targets (wake_loop env tid) = List.replicate (env tid + 1) tid := by
  unfold wake_loop
  rw [make_runnable_targets_append]
  generalize env tid = n
  induction n with
  | zero => simp [make_runnable_targets]
  | succ n ih =>
    rw [List.replicate_succ, List.flatten_cons, make_runnable_targets_append, List.append_assoc,
      ih]
    simp [make_runnable_targets, List.replicate_succ]

theorem made_runnable_wake_all (env : Int → Nat) (rs : List thr_stack_meta_t) :
    made_runnable (wake_all env rs) = rs.map fun r => r.tid := by
  induction rs with
  | nil => simp [wake_all, made_runnable]
  | cons r rs ih =>
    simp only [wake_all, List.map_cons, List.flatten_cons] at *
    rw [made_runnable_append, made_runnable_wake_loop, ih]
    simp

theorem make_runnable_targets_wake_all (env : Int → Nat) (rs : List thr_stack_meta_t)
    (t : Int) (h : t ∈ make_runnable_targets (wake_all env rs)) : t ∈ rs.map fun r => r.tid := by
  induction rs with
  | nil => simp [wake_all, make_runnable_targets] at h
  | cons r rs ih =>
    simp only [wake_all, List.map_cons, List.flatten_cons] at h ih
    rw [make_runnable_targets_append, make_runnable_targets_wake_loop] at h
    simp only [List.mem_append, List.mem_replicate] at h
    rcases h with h | h
    · simp [h.2]
    · simp [ih h]

/-! ### The results of the lock operations, case by case -/

theorem rwlock_lock_read_unlocked (rw : rwlock_t) (self : thr_stack_meta_t)
    (hv : rw.valid = true) (hm : mutex_free rw.data_mutex) (hmo : rw.mode = RW_UNLOCKED) :
    rwlock_lock rw self RWLOCK_READ =
      some ({ rw with data_mutex := mutex_cycled rw.data_mutex,
                      reader_count := rw.reader_count + 1,
                      mode := RW_READING }, [], .acquired) := by
  simp [rwlock_lock, hv, mutex_lock_free _ hm, hmo, mutex_unlock_locked _ hm]

theorem rwlock_lock_write_unlocked (rw : rwlock_t) (self : thr_stack_meta_t)
    (hv : rw.valid = true) (hm : mutex_free rw.data_mutex) (hmo : rw.mode = RW_UNLOCKED) :
    rwlock_lock rw self RWLOCK_WRITE =
      some ({ rw with data_mutex := mutex_cycled rw.data_mutex,
                      mode := RW_WRITING }, [], .acquired) := by
  simp [rwlock_lock, hv, mutex_lock_free _ hm, hmo, mutex_unlock_locked _ hm,
    RWLOCK_READ, RWLOCK_WRITE]

theorem rwlock_lock_read_shared (rw : rwlock_t) (self : thr_stack_meta_t)
    (hv : rw.valid = true) (hm : mutex_free rw.data_mutex) (hmo : rw.mode = RW_READING)
    (hq : rw.waiting_rw = []) :
    rwlock_lock rw self RWLOCK_READ =
      some ({ rw with data_mutex := mutex_cycled rw.data_mutex,
                      reader_count := rw.reader_count + 1,
                      mode := RW_READING }, [], .acquired) := by
  simp [rwlock_lock, hv, mutex_lock_free _ hm, hmo, hq, mutex_unlock_locked _ hm,
    RW_READING, RW_UNLOCKED]

theorem rwlock_lock_blocks (rw : rwlock_t) (self : thr_stack_meta_t) (type : Int)
    (hv : rw.valid = true) (hm : mutex_free rw.data_mutex)
    (ht : type = RWLOCK_READ ∨ type = RWLOCK_WRITE)
    (hc : rw.mode = RW_WRITING ∨ (type = RWLOCK_WRITE ∧ rw.mode = RW_READING) ∨
        (type = RWLOCK_READ ∧ rw.mode = RW_READING ∧ rw.waiting_rw ≠ [])) :
    rwlock_lock rw self type =
      some ({ rw with data_mutex := mutex_cycled rw.data_mutex,
                      waiting_rw := rw.waiting_rw ++ [{ self with rw_type := type }] },
            [Call.deschedule], .blocked) := by
  have hul := mutex_unlock_locked _ hm
  rcases ht with ht | ht
  · rcases hc with hmo | ⟨hw, _⟩ | ⟨_, hmo, hq⟩
    · simp [rwlock_lock, ht, hv, mutex_lock_free _ hm, hmo, hul, append_rw,
        RW_READING, RW_UNLOCKED, RW_WRITING]
    · rw [ht] at hw; simp [RWLOCK_READ, RWLOCK_WRITE] at hw
    · simp [rwlock_lock, ht, hv, mutex_lock_free _ hm, hmo, hq, hul, append_rw,
        RW_READING, RW_UNLOCKED]
  · rcases hc with hmo | ⟨_, hmo⟩ | ⟨hr, _⟩
    · simp [rwlock_lock, ht, hv, mutex_lock_free _ hm, hmo, hul, append_rw,
        RW_READING, RW_UNLOCKED, RW_WRITING, RWLOCK_READ, RWLOCK_WRITE]
    · simp [rwlock_lock, ht, hv, mutex_lock_free _ hm, hmo, hul, append_rw,
        RW_READING, RW_UNLOCKED, RW_WRITING, RWLOCK_READ, RWLOCK_WRITE]
    · rw [ht] at hr; simp [RWLOCK_READ, RWLOCK_WRITE] at hr

theorem rwlock_lock_rejects (rw : rwlock_t) (self : thr_stack_meta_t) (type : Int)
    (h1 : type ≠ RWLOCK_READ) (h2 : type ≠ RWLOCK_WRITE) :
    rwlock_lock rw self type = some (rw, [], .rejected) := by
  simp [rwlock_lock, Ne.symm h1, Ne.symm h2]

theorem rwlock_lock_wake_read (rw : rwlock_t) (hm : mutex_free rw.data_mutex) :
    rwlock_lock_wake rw RWLOCK_READ =
      some { rw with data_mutex := mutex_cycled rw.data_mutex,
                     reader_count := rw.reader_count + 1, mode := RW_READING } := by
  simp [rwlock_lock_wake, mutex_lock_free _ hm, mutex_unlock_locked _ hm]

theorem rwlock_lock_wake_write (rw : rwlock_t) (hm : mutex_free rw.data_mutex) :
    rwlock_lock_wake rw RWLOCK_WRITE =
      some { rw with data_mutex := mutex_cycled rw.data_mutex, mode := RW_WRITING } := by
  simp [rwlock_lock_wake, mutex_lock_free _ hm, mutex_unlock_locked _ hm,
    RWLOCK_READ, RWLOCK_WRITE]

/-- The reader count after `rwlock_unlock` released the last hold. -/
theorem rwlock_unlock_empty (env : Int → Nat) (rw : rwlock_t)
    (hv : rw.valid = true) (hm : mutex_free rw.data_mutex)
    (hlast : rw.mode = RW_WRITING ∨ (rw.mode = RW_READING ∧ rw.reader_count = 1))
    (hq : rw.waiting_rw = []) :
    rwlock_unlock env rw =
      some ({ rw with data_mutex := mutex_cycled rw.data_mutex, mode := RW_UNLOCKED,
                      reader_count := (if rw.mode = RW_READING then 0 else rw.reader_count) },
            true, [], []) := by
  have hul := mutex_unlock_locked _ hm
  rcases hlast with h | ⟨h, hc⟩
  · simp [rwlock_unlock, hv, mutex_lock_free _ hm, h, dequeue, hq, hul,
      RW_WRITING, RW_UNLOCKED, RW_READING]
  · simp [rwlock_unlock, hv, mutex_lock_free _ hm, h, hc, dequeue, hq, hul,
      RW_UNLOCKED, RW_READING]

theorem rwlock_unlock_reader_front (env : Int → Nat) (rw : rwlock_t)
    (hv : rw.valid = true) (hm : mutex_free rw.data_mutex)
    (hlast : rw.mode = RW_WRITING ∨ (rw.mode = RW_READING ∧ rw.reader_count = 1))
    (f : thr_stack_meta_t) (rest : List thr_stack_meta_t)
    (hq : rw.waiting_rw = f :: rest) (hr : RWLOCK_READ = f.rw_type) :
    rwlock_unlock env rw =
      some ({ rw with data_mutex := mutex_cycled rw.data_mutex, mode := RW_READING,
                      reader_count := (if rw.mode = RW_READING then 0 else rw.reader_count),
                      waiting_rw := rw.waiting_rw.dropWhile is_reader },
            true, wake_all env (rw.waiting_rw.takeWhile is_reader),
            (rw.waiting_rw.takeWhile is_reader).map
              (fun x => { x with rw_type := RWLOCK_INVALID })) := by
  have hul := mutex_unlock_locked _ hm
  have hf : is_reader f = true := by simp [is_reader, hr]
  rcases hlast with h | ⟨h, hc⟩
  · simp [rwlock_unlock, hv, mutex_lock_free _ hm, h, dequeue, hq, hul, hr,
      dequeue_readers_spec, List.takeWhile_cons, List.dropWhile_cons, hf,
      RW_WRITING, RW_UNLOCKED, RW_READING]
  · simp [rwlock_unlock, hv, mutex_lock_free _ hm, h, hc, dequeue, hq, hul, hr,
      dequeue_readers_spec, List.takeWhile_cons, List.dropWhile_cons, hf,
      RW_UNLOCKED, RW_READING]

theorem rwlock_unlock_writer_front (env : Int → Nat) (rw : rwlock_t)
    (hv : rw.valid = true) (hm : mutex_free rw.data_mutex)
    (hlast : rw.mode = RW_WRITING ∨ (rw.mode = RW_READING ∧ rw.reader_count = 1))
    (f : thr_stack_meta_t) (rest : List thr_stack_meta_t)
    (hq : rw.waiting_rw = f :: rest) (hw : RWLOCK_WRITE = f.rw_type) :
    rwlock_unlock env rw =
      some ({ rw with data_mutex := mutex_cycled rw.data_mutex, mode := RW_WRITING,
                      reader_count := (if rw.mode = RW_READING then 0 else rw.reader_count),
                      waiting_rw := rest },
            true, wake_loop env f.tid, [f]) := by
  have hul := mutex_unlock_locked _ hm
  have hr : ¬ RWLOCK_READ = f.rw_type := by
    rw [← hw]; simp [RWLOCK_READ, RWLOCK_WRITE]
  rcases hlast with h | ⟨h, hc⟩
  · simp [rwlock_unlock, hv, mutex_lock_free _ hm, h, dequeue, hq, hul, hr, hw,
      RW_WRITING, RW_UNLOCKED, RW_READING]
  · simp [rwlock_unlock, hv, mutex_lock_free _ hm, h, hc, dequeue, hq, hul, hr, hw,
      RW_UNLOCKED, RW_READING]

theorem rwlock_unlock_other_front (env : Int → Nat) (rw : rwlock_t)
    (hv : rw.valid = true) (hm : mutex_free rw.data_mutex)
    (hlast : rw.mode = RW_WRITING ∨ (rw.mode = RW_READING ∧ rw.reader_count = 1))
    (f : thr_stack_meta_t) (rest : List thr_stack_meta_t)
    (hq : rw.waiting_rw = f :: rest) (hr : ¬ RWLOCK_READ = f.rw_type)
    (hw : ¬ RWLOCK_WRITE = f.rw_type) :
    rwlock_unlock env rw =
      some ({ rw with data_mutex := mutex_cycled rw.data_mutex, mode := RW_UNLOCKED,
                      reader_count := (if rw.mode = RW_READING then 0 else rw.reader_count) },
            true, [], []) := by
  have hul := mutex_unlock_locked _ hm
  rcases hlast with h | ⟨h, hc⟩
  · simp [rwlock_unlock, hv, mutex_lock_free _ hm, h, dequeue, hq, hul, hr, hw,
      RW_WRITING, RW_UNLOCKED, RW_READING]
  · simp [rwlock_unlock, hv, mutex_lock_free _ hm, h, hc, dequeue, hq, hul, hr, hw,
      RW_UNLOCKED, RW_READING]

theorem rwlock_downgrade_reader_front (env : Int → Nat) (rw : rwlock_t)
    (hv : rw.valid = true) (hm : mutex_free rw.data_mutex) (hmo : rw.mode = RW_WRITING)
    (r : thr_stack_meta_t) (rest : List thr_stack_meta_t)
    (hq : rw.waiting_rw = r :: rest) (hr : r.rw_type = RWLOCK_READ) :
    rwlock_downgrade env rw =
      some ({ rw with data_mutex := mutex_cycled rw.data_mutex,
                      reader_count := rw.reader_count + 1, mode := RW_READING,
                      waiting_rw := rw.waiting_rw.dropWhile is_reader },
            wake_all env (rw.waiting_rw.takeWhile is_reader),
            (rw.waiting_rw.takeWhile is_reader).map
              (fun x => { x with rw_type := RWLOCK_INVALID })) := by
  have hf : is_reader r = true := by simp [is_reader, hr]
  simp [rwlock_downgrade, hv, mutex_lock_free _ hm, hmo, hq, hr, mutex_unlock_locked _ hm,
    dequeue, dequeue_readers_spec, List.takeWhile_cons, List.dropWhile_cons, hf]

theorem rwlock_downgrade_no_reader (env : Int → Nat) (rw : rwlock_t)
    (hv : rw.valid = true) (hm : mutex_free rw.data_mutex) (hmo : rw.mode = RW_WRITING)
    (hq : rw.waiting_rw = [] ∨ ∃ w rest, rw.waiting_rw = w :: rest ∧ w.rw_type ≠ RWLOCK_READ) :
    rwlock_downgrade env rw =
      some ({ rw with data_mutex := mutex_cycled rw.data_mutex,
                      reader_count := rw.reader_count + 1, mode := RW_READING },
            [], []) := by
  rcases hq with hq | ⟨w, rest, hq, hw⟩
  · simp [rwlock_downgrade, hv, mutex_lock_free _ hm, hmo, hq, mutex_unlock_locked _ hm]
  · simp [rwlock_downgrade, hv, mutex_lock_free _ hm, hmo, hq, Ne.symm hw,
      mutex_unlock_locked _ hm]

theorem rwlock_downgrade_idle (env : Int → Nat) (rw : rwlock_t)
    (hv : rw.valid = true) (hm : mutex_free rw.data_mutex) (hmo : rw.mode ≠ RW_WRITING) :
    rwlock_downgrade env rw =
      some ({ rw with data_mutex := mutex_cycled rw.data_mutex }, [], []) := by
  simp [rwlock_downgrade, hv, mutex_lock_free _ hm, hmo, mutex_unlock_locked _ hm]

/-! ### The lock along orderly schedules -/

theorem rwlock_init_success (rw0 rw1 : rwlock_t)
    (h : rwlock_init (some rw0) = (some rw1, SUCCESS_RETURN)) : rw1 = rwlock_fresh := by
  simp only [rwlock_init] at h
  split at h
  · simp [ERROR_DOUBLE_INITIALIZATION, SUCCESS_RETURN] at h
  · split at h
    · rename_i m ret hmi
      split at h
      · simp [ERROR_DOUBLE_INITIALIZATION, SUCCESS_RETURN] at h
      · rename_i hret
        simp only [mutex_init] at hmi
        split at hmi
        · simp at hmi
          rw [← hmi.2] at hret
          simp [ERROR_INIT_ON_USE] at hret
        · simp at hmi h
          rw [← h, ← hmi.1]
          rfl
    · simp [ERROR_DOUBLE_INITIALIZATION, SUCCESS_RETURN] at h

theorem RwSys.calm_init : (RwSys.mk rwlock_fresh [] []).Calm := by
  refine ⟨rfl, by decide, by simp [rwlock_fresh], Or.inl ?_⟩
  simp [rwlock_fresh]

theorem woken_of_readers (q : List thr_stack_meta_t) (g : thr_stack_meta_t → thr_stack_meta_t) :
    woken_of q ((q.takeWhile is_reader).map g) =
      (q.takeWhile is_reader).map fun r => (r.tid, r.rw_type) := by
  simp [woken_of, take_length_takeWhile]

theorem woken_of_readers_tag (q : List thr_stack_meta_t) (p : Int × Int)
    (hp : p ∈ (q.takeWhile is_reader).map fun r => (r.tid, r.rw_type)) :
    p.2 = RWLOCK_READ := by
  simp only [List.mem_map] at hp
  obtain ⟨r, hr, rfl⟩ := hp
  have := List.mem_takeWhile_imp hr
  simp [is_reader] at this
  exact this.symm

theorem queue_tags_dropWhile (q : List thr_stack_meta_t)
    (h : ∀ r ∈ q, r.rw_type = RWLOCK_READ ∨ r.rw_type = RWLOCK_WRITE) :
    ∀ r ∈ q.dropWhile is_reader, r.rw_type = RWLOCK_READ ∨ r.rw_type = RWLOCK_WRITE :=
  fun r hr => h r ((List.dropWhile_sublist is_reader).subset hr)

theorem RwSys.calm_lock (env : Int → Nat) (s s1 : RwSys) (self : thr_stack_meta_t)
    (type : Int) (hc : s.Calm) (ho : s.orderly (.lock self type) = true)
    (hs : s.step env (.lock self type) = some s1) : s1.Calm := by
  obtain ⟨hv, hm, htag, hcase⟩ := hc
  have hw : s.woken = [] := by simpa [RwSys.orderly] using ho
  have hfree := mutex_cycled_free _ hm
  simp only [RwSys.step] at hs
  split at hs
  swap
  · simp at hs
  by_cases htr : type = RWLOCK_READ
  · subst htr
    rcases hcase with ⟨_, hmo, hcnt, hq, hh⟩ | ⟨_, hmo, hcnt, hh⟩ | ⟨_, hmo, hcnt, hh⟩ |
        ⟨hne, _⟩ | ⟨t, hwk, _⟩
    · rw [rwlock_lock_read_unlocked s.rw self hv hm hmo] at hs
      simp at hs; subst hs
      refine ⟨hv, hfree, htag, Or.inr (Or.inl ⟨hw, rfl, ?_, ?_⟩)⟩
      · simp [hcnt]
      · simp [hcnt, hh]
    · by_cases hq : s.rw.waiting_rw = []
      · rw [rwlock_lock_read_shared s.rw self hv hm hmo hq] at hs
        simp at hs; subst hs
        refine ⟨hv, hfree, htag, Or.inr (Or.inl ⟨hw, rfl, ?_, ?_⟩)⟩
        · simp; omega
        · simp [hh]
      · rw [rwlock_lock_blocks s.rw self _ hv hm (Or.inl rfl)
          (Or.inr (Or.inr ⟨rfl, hmo, hq⟩))] at hs
        simp at hs; subst hs
        refine ⟨hv, hfree, ?_, Or.inr (Or.inl ⟨hw, hmo, hcnt, hh⟩)⟩
        intro r hr
        simp at hr
        rcases hr with hr | hr
        · exact htag r hr
        · simp [hr]
    · rw [rwlock_lock_blocks s.rw self _ hv hm (Or.inl rfl) (Or.inl hmo)] at hs
      simp at hs; subst hs
      refine ⟨hv, hfree, ?_, Or.inr (Or.inr (Or.inl ⟨hw, hmo, hcnt, hh⟩))⟩
      intro r hr
      simp at hr
      rcases hr with hr | hr
      · exact htag r hr
      · simp [hr]
    · exact absurd hw hne
    · rw [hw] at hwk; simp at hwk
  · by_cases htw : type = RWLOCK_WRITE
    · subst htw
      rcases hcase with ⟨_, hmo, hcnt, hq, hh⟩ | ⟨_, hmo, hcnt, hh⟩ | ⟨_, hmo, hcnt, hh⟩ |
          ⟨hne, _⟩ | ⟨t, hwk, _⟩
      · rw [rwlock_lock_write_unlocked s.rw self hv hm hmo] at hs
        simp at hs; subst hs
        refine ⟨hv, hfree, htag, Or.inr (Or.inr (Or.inl ⟨hw, rfl, hcnt, ?_⟩))⟩
        simp [hh]
      · rw [rwlock_lock_blocks s.rw self _ hv hm (Or.inr rfl)
          (Or.inr (Or.inl ⟨rfl, hmo⟩))] at hs
        simp at hs; subst hs
        refine ⟨hv, hfree, ?_, Or.inr (Or.inl ⟨hw, hmo, hcnt, hh⟩)⟩
        intro r hr
        simp at hr
        rcases hr with hr | hr
        · exact htag r hr
        · simp [hr]
      · rw [rwlock_lock_blocks s.rw self _ hv hm (Or.inr rfl) (Or.inl hmo)] at hs
        simp at hs; subst hs
        refine ⟨hv, hfree, ?_, Or.inr (Or.inr (Or.inl ⟨hw, hmo, hcnt, hh⟩))⟩
        intro r hr
        simp at hr
        rcases hr with hr | hr
        · exact htag r hr
        · simp [hr]
      · exact absurd hw hne
      · rw [hw] at hwk; simp at hwk
    · rw [rwlock_lock_rejects s.rw self type htr htw] at hs
      simp at hs; subst hs
      exact ⟨hv, hm, htag, hcase⟩

theorem RwSys.calm_wake (env : Int → Nat) (s s1 : RwSys) (tid : Int)
    (hc : s.Calm) (hs : s.step env (.wake tid) = some s1) : s1.Calm := by
  obtain ⟨hv, hm, htag, hcase⟩ := hc
  have hfree := mutex_cycled_free _ hm
  simp only [RwSys.step] at hs
  split at hs
  swap
  · simp at hs
  rename_i p hfind
  have hpm : p ∈ s.woken := List.mem_of_find?_eq_some hfind
  have hpt : p.1 = tid := by simpa using List.find?_some hfind
  rcases hcase with ⟨hw, _⟩ | ⟨hw, _⟩ | ⟨hw, _⟩ | ⟨hne, hmo, hall, hh⟩ | ⟨t, hwk, hmo, hcnt, hh⟩
  · rw [hw] at hpm; simp at hpm
  · rw [hw] at hpm; simp at hpm
  · rw [hw] at hpm; simp at hpm
  · rw [hall p hpm, rwlock_lock_wake_read s.rw hm] at hs
    simp at hs; subst hs
    by_cases he : s.woken.erase p = []
    · refine ⟨hv, hfree, htag, Or.inr (Or.inl ⟨he, rfl, ?_, ?_⟩)⟩
      · simp [hh]
      · simp [hh]
    · refine ⟨hv, hfree, htag, Or.inr (Or.inr (Or.inr (Or.inl ⟨he, rfl, ?_, ?_⟩)))⟩
      · intro q hq
        exact hall q (List.mem_of_mem_erase hq)
      · simp [hh]
  · rw [hwk] at hpm
    simp at hpm
    subst hpm
    rw [rwlock_lock_wake_write s.rw hm] at hs
    simp at hs; subst hs
    refine ⟨hv, hfree, htag, Or.inr (Or.inr (Or.inl ⟨?_, rfl, hcnt, ?_⟩))⟩
    · simp [hwk]
    · simp [hh]

theorem RwSys.calm_release (env : Int → Nat) (s s1 : RwSys) (tid : Int)
    (hv : s.rw.valid = true) (hm : mutex_free s.rw.data_mutex)
    (htag : ∀ r ∈ s.rw.waiting_rw, r.rw_type = RWLOCK_READ ∨ r.rw_type = RWLOCK_WRITE)
    (hw : s.woken = []) (hmem : tid ∈ s.holders) (hone : s.holders.length = 1)
    (hlast : s.rw.mode = RW_WRITING ∨ (s.rw.mode = RW_READING ∧ s.rw.reader_count = 1))
    (hcnt : (if s.rw.mode = RW_READING then 0 else s.rw.reader_count) = 0)
    (hs : (match rwlock_unlock env s.rw with
      | some (rw1, _, _, removed) =>
        some { rw := rw1, holders := s.holders.erase tid,
               woken := s.woken ++ woken_of s.rw.waiting_rw removed }
      | none => none) = some s1) : s1.Calm := by
  have hfree := mutex_cycled_free _ hm
  have herase := erase_of_length_one _ _ hmem hone
  rcases hq : s.rw.waiting_rw with _ | ⟨f, rest⟩
  · rw [rwlock_unlock_empty env s.rw hv hm hlast hq] at hs
    simp at hs; subst hs
    refine ⟨hv, hfree, by simp [hq], Or.inl ⟨?_, rfl, hcnt, hq, herase⟩⟩
    simp [hw, woken_of]
  · rcases htag f (by simp [hq]) with hf | hf
    · rw [rwlock_unlock_reader_front env s.rw hv hm hlast f rest hq hf.symm] at hs
      simp only [Option.some.injEq] at hs
      subst hs
      have hfr : is_reader f = true := by simp [is_reader, hf]
      refine ⟨hv, hfree, queue_tags_dropWhile _ htag,
        Or.inr (Or.inr (Or.inr (Or.inl ⟨?_, rfl, ?_, ?_⟩)))⟩
      · simp only [hw, List.nil_append, woken_of_readers]
        simp [hq, List.takeWhile_cons, hfr]
      · intro p hp
        simp only [hw, List.nil_append, woken_of_readers] at hp
        exact woken_of_readers_tag _ p hp
      · simp [hcnt, herase]
    · rw [rwlock_unlock_writer_front env s.rw hv hm hlast f rest hq hf.symm] at hs
      simp only [Option.some.injEq] at hs
      subst hs
      refine ⟨hv, hfree, ?_, Or.inr (Or.inr (Or.inr (Or.inr ⟨f.tid, ?_, rfl, hcnt, herase⟩)))⟩
      · intro r hr
        exact htag r (by rw [hq]; exact List.mem_cons_of_mem _ hr)
      · simp [hw, woken_of, hq, hf]

theorem RwSys.calm_unlock (env : Int → Nat) (s s1 : RwSys) (tid : Int)
    (hc : s.Calm) (ho : s.orderly (.unlock tid) = true)
    (hs : s.step env (.unlock tid) = some s1) : s1.Calm := by
  obtain ⟨hv, hm, htag, hcase⟩ := hc
  simp only [RwSys.orderly, Bool.and_eq_true, List.isEmpty_iff, Bool.not_eq_true',
    decide_eq_false_iff_not] at ho
  obtain ⟨hw, hnot⟩ := ho
  simp only [RwSys.step] at hs
  split at hs
  swap
  · simp at hs
  rename_i hguard
  have hmem := hguard.2
  rcases hcase with ⟨_, _, _, _, hh⟩ | ⟨_, hmo, hcnt, hh⟩ | ⟨_, hmo, hcnt, hh⟩ |
      ⟨hne, _⟩ | ⟨t, hwk, _⟩
  · rw [hh] at hmem; simp at hmem
  · have hc1 : s.rw.reader_count = 1 := by
      have : ¬ s.rw.reader_count > 1 := fun h => hnot ⟨hmo, h⟩
      omega
    apply RwSys.calm_release env s s1 tid hv hm htag hw hmem (by omega) (Or.inr ⟨hmo, hc1⟩)
      (by simp [hmo]) hs
  · apply RwSys.calm_release env s s1 tid hv hm htag hw hmem hh (Or.inl hmo)
      (by simp [hmo, hcnt, RW_WRITING, RW_READING]) hs
  · exact absurd hw hne
  · rw [hw] at hwk; simp at hwk

theorem RwSys.calm_downgrade (env : Int → Nat) (s s1 : RwSys) (tid : Int)
    (hc : s.Calm) (ho : s.orderly (.downgrade tid) = true)
    (hs : s.step env (.downgrade tid) = some s1) : s1.Calm := by
  obtain ⟨hv, hm, htag, hcase⟩ := hc
  have hw : s.woken = [] := by simpa [RwSys.orderly] using ho
  have hfree := mutex_cycled_free _ hm
  simp only [RwSys.step] at hs
  split at hs
  swap
  · simp at hs
  rename_i hguard
  have hmem := hguard.2
  rcases hcase with ⟨_, _, _, _, hh⟩ | ⟨_, hmo, hcnt, hh⟩ | ⟨_, hmo, hcnt, hh⟩ |
      ⟨hne, _⟩ | ⟨t, hwk, _⟩
  · rw [hh] at hmem; simp at hmem
  · rw [rwlock_downgrade_idle env s.rw hv hm (by simp [hmo, RW_READING, RW_WRITING])] at hs
    simp at hs; subst hs
    refine ⟨hv, hfree, htag, Or.inr (Or.inl ⟨?_, hmo, hcnt, hh⟩)⟩
    simp [hw, woken_of]
  · rcases hq : s.rw.waiting_rw with _ | ⟨f, rest⟩
    · rw [rwlock_downgrade_no_reader env s.rw hv hm hmo (Or.inl hq)] at hs
      simp at hs; subst hs
      refine ⟨hv, hfree, htag, Or.inr (Or.inl ⟨?_, rfl, ?_, ?_⟩)⟩
      · simp [hw, woken_of]
      · simp [hcnt]
      · simp [hcnt, hh]
    · by_cases hf : f.rw_type = RWLOCK_READ
      · rw [rwlock_downgrade_reader_front env s.rw hv hm hmo f rest hq hf] at hs
        simp only [Option.some.injEq] at hs
        subst hs
        have hfr : is_reader f = true := by simp [is_reader, hf]
        refine ⟨hv, hfree, queue_tags_dropWhile _ htag,
          Or.inr (Or.inr (Or.inr (Or.inl ⟨?_, rfl, ?_, ?_⟩)))⟩
        · simp only [hw, List.nil_append, woken_of_readers]
          simp [hq, List.takeWhile_cons, hfr]
        · intro p hp
          simp only [hw, List.nil_append, woken_of_readers] at hp
          exact woken_of_readers_tag _ p hp
        · simp [hcnt, hh]
      · rw [rwlock_downgrade_no_reader env s.rw hv hm hmo (Or.inr ⟨f, rest, hq, hf⟩)] at hs
        simp at hs; subst hs
        refine ⟨hv, hfree, htag, Or.inr (Or.inl ⟨?_, rfl, ?_, ?_⟩)⟩
        · simp [hw, woken_of]
        · simp [hcnt]
        · simp [hcnt, hh]
  · exact absurd hw hne
  · rw [hw] at hwk; simp at hwk

theorem RwSys.calm_step (env : Int → Nat) (s s1 : RwSys) (e : RwEvent)
    (hc : s.Calm) (ho : s.orderly e = true) (hs : s.step env e = some s1) : s1.Calm := by
  cases e with
  | lock self type => exact RwSys.calm_lock env s s1 self type hc ho hs
  | wake tid => exact RwSys.calm_wake env s s1 tid hc hs
  | unlock tid => exact RwSys.calm_unlock env s s1 tid hc ho hs
  | downgrade tid => exact RwSys.calm_downgrade env s s1 tid hc ho hs

theorem RwSys.run_orderly_calm (env : Int → Nat) (evs : List RwEvent) (s0 s : RwSys)
    (hc : s0.Calm) (hr : s0.run_orderly env evs = some s) : s.Calm := by
  induction evs generalizing s0 with
  | nil => simp [RwSys.run_orderly] at hr; subst hr; exact hc
  | cons e es ih =>
    simp only [RwSys.run_orderly] at hr
    split at hr
    · rename_i ho
      cases h : s0.step env e with
      | none => simp [h] at hr
      | some s1 =>
        simp only [h] at hr
        exact ih s1 (RwSys.calm_step env s0 s1 e hc ho h) hr
    · simp at hr

/-! ### Claims about the reader/writer lock -/

/-- C4 (the code at the failing input): two readers take a fresh lock, one of
them unlocks, and a writer asks for the lock.  The writer is admitted at once
and the lock is in mode WRITING with `reader_count = 1`, the second reader
still holding it. -/
theorem rwlock_writing_with_reader :
    rwlock_init (some { rwlock_fresh with valid := false }) = (some rwlock_fresh, SUCCESS_RETURN) ∧
    (RwSys.mk rwlock_fresh [] []).run no_retry
        (two_readers_one_leaves ++ [.lock ⟨3, RWLOCK_INVALID⟩ RWLOCK_WRITE])
      = some (RwSys.mk { valid := true, data_mutex := ⟨1, 4, 4⟩, waiting_rw := [],
                         reader_count := 1, mode := RW_WRITING } [2, 3] []) := by
  decide

/-- C5 (the code at the failing input): two readers take a fresh lock and the
first of them unlocks.  The data mutex is free, the second reader still holds
the lock, and the mode is UNLOCKED with `reader_count = 1`, because
`rwlock_unlock` leaves `next_state` at its initial value when
`reader_count > 1`.  With a writer queued behind the two readers the same
unlock leaves the mode UNLOCKED with the writer still in the wait queue.
A second way to the same state has no unlock at `reader_count > 1`: a writer
holds the lock, a reader and a writer queue, the holder downgrades (the
reader is dequeued) and unlocks (the writer is dequeued) before the reader
has continued; both continue, and when the reader unlocks the mode is
UNLOCKED with `reader_count = 1` while the writer holds the lock.  In a third
schedule a dequeued reader continues only after the lock has been released
and taken again by a writer, and the run ends in mode UNLOCKED with
`reader_count = -1`. -/
theorem rwlock_unlocked_with_reader :
    rwlock_init (some { rwlock_fresh with valid := false }) = (some rwlock_fresh, SUCCESS_RETURN) ∧
    (RwSys.mk rwlock_fresh [] []).run no_retry two_readers_one_leaves
      = some (RwSys.mk { valid := true, data_mutex := ⟨1, 3, 3⟩, waiting_rw := [],
                         reader_count := 1, mode := RW_UNLOCKED } [2] []) ∧
    mutex_free ⟨1, 3, 3⟩ ∧ (1 : Int) ≠ 0 ∧
    (RwSys.mk rwlock_fresh [] []).run no_retry writer_behind_two_readers
      = some (RwSys.mk { valid := true, data_mutex := ⟨1, 4, 4⟩,
                         waiting_rw := [⟨4, RWLOCK_WRITE⟩],
                         reader_count := 1, mode := RW_UNLOCKED } [2] []) ∧
    mutex_free ⟨1, 4, 4⟩ ∧
    (RwSys.mk rwlock_fresh [] []).run no_retry handoff_race
      = some (RwSys.mk { valid := true, data_mutex := ⟨1, 8, 8⟩, waiting_rw := [],
                         reader_count := 1, mode := RW_UNLOCKED } [3] []) ∧
    mutex_free ⟨1, 8, 8⟩ ∧
    (RwSys.mk rwlock_fresh [] []).run no_retry handoff_race_negative
      = some (RwSys.mk { valid := true, data_mutex := ⟨1, 9, 9⟩, waiting_rw := [],
                         reader_count := -1, mode := RW_UNLOCKED } [] [(3, RWLOCK_READ)]) ∧
    mutex_free ⟨1, 9, 9⟩ := by
  decide

/-- A writer takes a fresh lock, a reader queues behind it, and the writer
unlocks.  The data mutex is free again, the mode is READING and
`reader_count` is 0: the dequeued reader adds itself only when it continues
its `rwlock_lock`. -/
theorem rwlock_reading_without_reader :
    rwlock_init (some { rwlock_fresh with valid := false }) = (some rwlock_fresh, SUCCESS_RETURN) ∧
    (RwSys.mk rwlock_fresh [] []).run no_retry
        [.lock ⟨1, RWLOCK_INVALID⟩ RWLOCK_WRITE, .lock ⟨2, RWLOCK_INVALID⟩ RWLOCK_READ, .unlock 1]
      = some reader_handoff ∧
    mutex_free reader_handoff.rw.data_mutex ∧
    reader_handoff.rw.mode = RW_READING ∧
    ¬ (1 ≤ reader_handoff.rw.reader_count) := by
  decide

/-- In every state reached from a successful `rwlock_init` by an
orderly schedule (only holders unlock or downgrade, a dequeued thread
continues its `rwlock_lock` before any other call is made, and
`rwlock_unlock` is not called while more than one reader holds the lock), the
data mutex is free, mode UNLOCKED implies `reader_count = 0` and an empty wait
queue, and mode READING implies that `reader_count` plus the number of
dequeued readers that have yet to continue is at least 1; in particular
`reader_count ≥ 1` once they have all continued. -/
theorem rwlock_mode_count_orderly (env : Int → Nat) (rw0 rw1 : rwlock_t)
    (evs : List RwEvent) (s : RwSys)
    (hinit : rwlock_init (some rw0) = (some rw1, SUCCESS_RETURN))
    (hr : (RwSys.mk rw1 [] []).run_orderly env evs = some s) :
    mutex_free s.rw.data_mutex ∧
    (s.rw.mode = RW_UNLOCKED → s.rw.reader_count = 0 ∧ s.rw.waiting_rw = []) ∧
    (s.rw.mode = RW_READING → 1 ≤ s.rw.reader_count + s.woken.length) ∧
    (s.rw.mode = RW_READING → s.woken = [] → 1 ≤ s.rw.reader_count) := by
  have h1 := rwlock_init_success rw0 rw1 hinit
  subst h1
  obtain ⟨_, hm, _, hcase⟩ := RwSys.run_orderly_calm env evs _ s RwSys.calm_init hr
  refine ⟨hm, ?_, ?_, ?_⟩
  · intro hmo
    rcases hcase with ⟨_, _, hcnt, hq, _⟩ | ⟨_, h, _⟩ | ⟨_, h, _⟩ | ⟨_, h, _⟩ | ⟨_, _, h, _⟩
    · exact ⟨hcnt, hq⟩
    all_goals (rw [hmo] at h; simp [RW_UNLOCKED, RW_READING, RW_WRITING] at h)
  · intro hmo
    rcases hcase with ⟨_, h, _⟩ | ⟨_, _, hcnt, _⟩ | ⟨_, h, _⟩ | ⟨hne, _, _, hh⟩ | ⟨_, _, h, _⟩
    · rw [hmo] at h; simp [RW_UNLOCKED, RW_READING] at h
    · omega
    · rw [hmo] at h; simp [RW_WRITING, RW_READING] at h
    · have : 1 ≤ s.woken.length := by
        cases hwk : s.woken with
        | nil => exact absurd hwk hne
        | cons a l => simp
      omega
    · rw [hmo] at h; simp [RW_WRITING, RW_READING] at h
  · intro hmo hw
    rcases hcase with ⟨_, h, _⟩ | ⟨_, _, hcnt, _⟩ | ⟨_, h, _⟩ | ⟨hne, _⟩ | ⟨_, hwk, _⟩
    · rw [hmo] at h; simp [RW_UNLOCKED, RW_READING] at h
    · exact hcnt
    · rw [hmo] at h; simp [RW_WRITING, RW_READING] at h
    · exact absurd hw hne
    · rw [hw] at hwk; simp at hwk

/-- An orderly schedule: a writer takes a fresh lock, a reader queues, the
writer unlocks and the reader continues. -/
theorem rwlock_mode_count_orderly_witness :
    rwlock_init (some { rwlock_fresh with valid := false }) = (some rwlock_fresh, SUCCESS_RETURN) ∧
    (RwSys.mk rwlock_fresh [] []).run_orderly no_retry
        [.lock ⟨1, RWLOCK_INVALID⟩ RWLOCK_WRITE, .lock ⟨2, RWLOCK_INVALID⟩ RWLOCK_READ,
         .unlock 1, .wake 2]
      = some (RwSys.mk { valid := true, data_mutex := ⟨1, 4, 4⟩, waiting_rw := [],
                         reader_count := 1, mode := RW_READING } [2] []) ∧
    (1 : Int) ≤ 1 :=
  ⟨by decide, by decide,
    (rwlock_mode_count_orderly no_retry { rwlock_fresh with valid := false } rwlock_fresh
      [.lock ⟨1, RWLOCK_INVALID⟩ RWLOCK_WRITE, .lock ⟨2, RWLOCK_INVALID⟩ RWLOCK_READ,
       .unlock 1, .wake 2]
      (RwSys.mk { valid := true, data_mutex := ⟨1, 4, 4⟩, waiting_rw := [],
                  reader_count := 1, mode := RW_READING } [2] [])
      (by decide) (by decide)).2.2.2 rfl rfl⟩

/-- C6 (the code at the failing input): after two readers have taken a fresh
lock the mode is READING and `reader_count` is 2; `rwlock_unlock` by one of
them lowers `reader_count` to 1 without consulting the queue, and sets the
mode to UNLOCKED, because `next_state` keeps its initial value in that
branch. -/
theorem rwlock_unlock_resets_mode :
    rwlock_init (some { rwlock_fresh with valid := false }) = (some rwlock_fresh, SUCCESS_RETURN) ∧
    (RwSys.mk rwlock_fresh [] []).run no_retry
        [.lock ⟨1, RWLOCK_INVALID⟩ RWLOCK_READ, .lock ⟨2, RWLOCK_INVALID⟩ RWLOCK_READ]
      = some (RwSys.mk { valid := true, data_mutex := ⟨1, 2, 2⟩, waiting_rw := [],
                         reader_count := 2, mode := RW_READING } [1, 2] []) ∧
    rwlock_unlock no_retry { valid := true, data_mutex := ⟨1, 2, 2⟩, waiting_rw := [],
                             reader_count := 2, mode := RW_READING }
      = some ({ valid := true, data_mutex := ⟨1, 3, 3⟩, waiting_rw := [],
                reader_count := 1, mode := RW_UNLOCKED }, false, [], []) := by
  decide

/-- C7: when `rwlock_unlock` releases the last hold (mode WRITING, or mode
READING with `reader_count = 1`) it consults the wait queue.  An empty queue
gives mode UNLOCKED.  A writer at the front gives WRITING and removes exactly
that record.  A reader at the front gives READING and removes exactly the
maximal leading run of readers.  In every case the queue before is the removed
records followed by the queue after, `make_runnable` succeeds exactly once for
each removed record, in queue order, and is called for no other tid. -/
theorem rwlock_unlock_last_hold (env : Int → Nat) (rw : rwlock_t)
    (hv : rw.valid = true) (hm : mutex_free rw.data_mutex)
    (hlast : rw.mode = RW_WRITING ∨ (rw.mode = RW_READING ∧ rw.reader_count = 1)) :
    ∃ rw1 calls removed,
      rwlock_unlock env rw = some (rw1, true, calls, removed) ∧
      (rw.waiting_rw = [] →
        rw1.mode = RW_UNLOCKED ∧ rw1.waiting_rw = [] ∧ calls = [] ∧ removed = []) ∧
      (∀ w rest, rw.waiting_rw = w :: rest → w.rw_type = RWLOCK_WRITE →
        rw1.mode = RW_WRITING ∧ rw1.waiting_rw = rest ∧ removed = [w] ∧
        calls = wake_loop env w.tid) ∧
      (∀ r rest, rw.waiting_rw = r :: rest → r.rw_type = RWLOCK_READ →
        rw1.mode = RW_READING ∧
        rw1.waiting_rw = rw.waiting_rw.dropWhile is_reader ∧
        removed = (rw.waiting_rw.takeWhile is_reader).map
          (fun x => { x with rw_type := RWLOCK_INVALID }) ∧
        calls = wake_all env (rw.waiting_rw.takeWhile is_reader)) ∧
      rw.waiting_rw = rw.waiting_rw.take removed.length ++ rw1.waiting_rw ∧
      made_runnable calls = (rw.waiting_rw.take removed.length).map (fun x => x.tid) ∧
      (∀ t ∈ make_runnable_targets calls,
        t ∈ (rw.waiting_rw.take removed.length).map (fun x => x.tid)) ∧
      rw1.valid = true ∧ mutex_free rw1.data_mutex ∧
      rw1.reader_count = (if rw.mode = RW_READING then 0 else rw.reader_count) := by
  have hfree := mutex_cycled_free _ hm
  rcases hq : rw.waiting_rw with _ | ⟨f, rest⟩
  · refine ⟨_, _, _, rwlock_unlock_empty env rw hv hm hlast hq, ?_⟩
    simp [hq, hfree, hv, make_runnable_targets, made_runnable]
  · by_cases hr : RWLOCK_READ = f.rw_type
    · refine ⟨_, _, _, rwlock_unlock_reader_front env rw hv hm hlast f rest hq hr, ?_⟩
      rw [hq]
      refine ⟨by simp, ?_, ?_, ?_, ?_, ?_, hv, hfree, rfl⟩
      · intro w rest' hw hwt
        simp at hw
        rw [← hw.1, ← hr] at hwt
        simp [RWLOCK_READ, RWLOCK_WRITE] at hwt
      · intro r rest' _ _
        exact ⟨rfl, rfl, rfl, rfl⟩
      · simp only [List.length_map, take_length_takeWhile]
        exact (List.takeWhile_append_dropWhile is_reader (f :: rest)).symm
      · simp only [List.length_map, take_length_takeWhile]
        exact made_runnable_wake_all env _
      · intro t ht
        simp only [List.length_map, take_length_takeWhile]
        exact make_runnable_targets_wake_all env _ t ht
    · by_cases hw : RWLOCK_WRITE = f.rw_type
      · refine ⟨_, _, _, rwlock_unlock_writer_front env rw hv hm hlast f rest hq hw, ?_⟩
        refine ⟨by simp, ?_, ?_, by simp, ?_, ?_, hv, hfree, rfl⟩
        · intro w rest' hw' _
          simp at hw'
          simp [← hw'.1, ← hw'.2]
        · intro r rest' hr' hrt
          simp at hr'
          rw [← hr'.1] at hrt
          exact absurd hrt.symm hr
        · simp [made_runnable_wake_loop]
        · intro t ht
          rw [make_runnable_targets_wake_loop] at ht
          simp at ht
          simp [ht]
      · refine ⟨_, _, _, rwlock_unlock_other_front env rw hv hm hlast f rest hq hr hw, ?_⟩
        refine ⟨by simp, ?_, ?_, by simp [hq], by simp [made_runnable],
          by simp [make_runnable_targets], hv, hfree, rfl⟩
        · intro w rest' hw' hwt
          simp at hw'
          rw [← hw'.1] at hwt
          exact absurd hwt.symm hw
        · intro r rest' hr' hrt
          simp at hr'
          rw [← hr'.1] at hrt
          exact absurd hrt.symm hr

/-- C7 (witness): the writer holding `rwlock_sample` unlocks; the two leading
readers are removed and woken. -/
theorem rwlock_unlock_last_hold_witness :
    rwlock_sample.valid = true ∧ mutex_free rwlock_sample.data_mutex ∧
    rwlock_sample.mode = RW_WRITING ∧
    ∃ rw1 calls removed,
      rwlock_unlock no_retry rwlock_sample = some (rw1, true, calls, removed) ∧
      rwlock_sample.waiting_rw = rwlock_sample.waiting_rw.take removed.length ++ rw1.waiting_rw :=
  ⟨by decide, by decide, by decide,
    match rwlock_unlock_last_hold no_retry rwlock_sample (by decide) (by decide)
      (Or.inl (by decide)) with
    | ⟨rw1, calls, removed, h1, _, _, _, h5, _⟩ => ⟨rw1, calls, removed, h1, h5⟩⟩

/-- C8 (the code at the failing input): two readers hold the lock and a
writer is queued behind them; the first reader unlocks, which leaves the
writer queued and the mode UNLOCKED.  A new reader request is then admitted at
once: it is not queued, and `reader_count` grows on its behalf while the
writer is still in the wait queue. -/
theorem rwlock_reader_overtakes_writer :
    (RwSys.mk rwlock_fresh [] []).run no_retry writer_behind_two_readers
      = some (RwSys.mk { valid := true, data_mutex := ⟨1, 4, 4⟩,
                         waiting_rw := [⟨4, RWLOCK_WRITE⟩],
                         reader_count := 1, mode := RW_UNLOCKED } [2] []) ∧
    rwlock_lock { valid := true, data_mutex := ⟨1, 4, 4⟩, waiting_rw := [⟨4, RWLOCK_WRITE⟩],
                  reader_count := 1, mode := RW_UNLOCKED } ⟨3, RWLOCK_INVALID⟩ RWLOCK_READ
      = some ({ valid := true, data_mutex := ⟨1, 5, 5⟩, waiting_rw := [⟨4, RWLOCK_WRITE⟩],
                reader_count := 2, mode := RW_READING }, [], .acquired) := by
  decide

/-- What `rwlock_lock` does on a valid lock with a known mode.  It acquires
without queueing or descheduling in exactly three cases: a reader in UNLOCKED
(`reader_count` grows by 1, mode READING), a writer in UNLOCKED (mode
WRITING, `reader_count` as it was), a reader in READING with an empty queue
(`reader_count` grows by 1, mode stays READING).  In every other case with a
READ or WRITE request the caller's record, tagged with the request, goes to
the tail of the wait queue and the caller deschedules.  A request that is
neither READ nor WRITE changes nothing. -/
theorem rwlock_lock_cases (rw : rwlock_t) (self : thr_stack_meta_t) (type : Int)
    (hv : rw.valid = true) (hm : mutex_free rw.data_mutex) (hk : mode_known rw.mode) :
    (type = RWLOCK_READ → rw.mode = RW_UNLOCKED →
      rwlock_lock rw self type =
        some ({ rw with data_mutex := mutex_cycled rw.data_mutex,
                        reader_count := rw.reader_count + 1,
                        mode := RW_READING }, [], .acquired)) ∧
    (type = RWLOCK_WRITE → rw.mode = RW_UNLOCKED →
      rwlock_lock rw self type =
        some ({ rw with data_mutex := mutex_cycled rw.data_mutex,
                        mode := RW_WRITING }, [], .acquired)) ∧
    (type = RWLOCK_READ → rw.mode = RW_READING → rw.waiting_rw = [] →
      rwlock_lock rw self type =
        some ({ rw with data_mutex := mutex_cycled rw.data_mutex,
                        reader_count := rw.reader_count + 1,
                        mode := RW_READING }, [], .acquired)) ∧
    ((type = RWLOCK_READ ∨ type = RWLOCK_WRITE) →
      (rw.mode = RW_WRITING ∨ (type = RWLOCK_WRITE ∧ rw.mode = RW_READING) ∨
        (type = RWLOCK_READ ∧ rw.mode = RW_READING ∧ rw.waiting_rw ≠ [])) →
      rwlock_lock rw self type =
        some ({ rw with data_mutex := mutex_cycled rw.data_mutex,
                        waiting_rw := rw.waiting_rw ++ [{ self with rw_type := type }] },
              [Call.deschedule], .blocked)) ∧
    (type ≠ RWLOCK_READ → type ≠ RWLOCK_WRITE →
      rwlock_lock rw self type = some (rw, [], .rejected)) ∧
    ((∃ rw1 calls, rwlock_lock rw self type = some (rw1, calls, .acquired)) ↔
      ((type = RWLOCK_READ ∧ rw.mode = RW_UNLOCKED) ∨
       (type = RWLOCK_WRITE ∧ rw.mode = RW_UNLOCKED) ∨
       (type = RWLOCK_READ ∧ rw.mode = RW_READING ∧ rw.waiting_rw = []))) := by
  have c1 : type = RWLOCK_READ → rw.mode = RW_UNLOCKED →
      rwlock_lock rw self type =
        some ({ rw with data_mutex := mutex_cycled rw.data_mutex,
                        reader_count := rw.reader_count + 1,
                        mode := RW_READING }, [], .acquired) := by
    intro ht hmo
    rw [ht, rwlock_lock_read_unlocked rw self hv hm hmo]
  have c2 : type = RWLOCK_WRITE → rw.mode = RW_UNLOCKED →
      rwlock_lock rw self type =
        some ({ rw with data_mutex := mutex_cycled rw.data_mutex,
                        mode := RW_WRITING }, [], .acquired) := by
    intro ht hmo
    rw [ht, rwlock_lock_write_unlocked rw self hv hm hmo]
  have c3 : type = RWLOCK_READ → rw.mode = RW_READING → rw.waiting_rw = [] →
      rwlock_lock rw self type =
        some ({ rw with data_mutex := mutex_cycled rw.data_mutex,
                        reader_count := rw.reader_count + 1,
                        mode := RW_READING }, [], .acquired) := by
    intro ht hmo hq
    rw [ht, rwlock_lock_read_shared rw self hv hm hmo hq]
  have c4 := rwlock_lock_blocks rw self type hv hm
  have c5 := rwlock_lock_rejects rw self type
  refine ⟨c1, c2, c3, c4, c5, ?_⟩
  constructor
  · rintro ⟨rw1, calls, h⟩
    by_cases hr : type = RWLOCK_READ
    · rcases hk with hmo | hmo | hmo
      · exact Or.inl ⟨hr, hmo⟩
      · by_cases hq : rw.waiting_rw = []
        · exact Or.inr (Or.inr ⟨hr, hmo, hq⟩)
        · rw [c4 (Or.inl hr) (Or.inr (Or.inr ⟨hr, hmo, hq⟩))] at h
          simp at h
      · rw [c4 (Or.inl hr) (Or.inl hmo)] at h
        simp at h
    · by_cases hw : type = RWLOCK_WRITE
      · rcases hk with hmo | hmo | hmo
        · exact Or.inr (Or.inl ⟨hw, hmo⟩)
        · rw [c4 (Or.inr hw) (Or.inr (Or.inl ⟨hw, hmo⟩))] at h
          simp at h
        · rw [c4 (Or.inr hw) (Or.inl hmo)] at h
          simp at h
      · rw [c5 hr hw] at h
        simp at h
  · rintro (⟨ht, hmo⟩ | ⟨ht, hmo⟩ | ⟨ht, hmo, hq⟩)
    · exact ⟨_, _, c1 ht hmo⟩
    · exact ⟨_, _, c2 ht hmo⟩
    · exact ⟨_, _, c3 ht hmo hq⟩

/-- A reader takes a fresh lock. -/
theorem rwlock_lock_cases_witness :
    rwlock_fresh.valid = true ∧ mutex_free rwlock_fresh.data_mutex ∧
    mode_known rwlock_fresh.mode ∧
    rwlock_lock rwlock_fresh ⟨1, RWLOCK_INVALID⟩ RWLOCK_READ =
      some ({ rwlock_fresh with data_mutex := mutex_cycled rwlock_fresh.data_mutex,
                                reader_count := rwlock_fresh.reader_count + 1,
                                mode := RW_READING }, [], .acquired) :=
  ⟨by decide, by decide, by decide,
    (rwlock_lock_cases rwlock_fresh ⟨1, RWLOCK_INVALID⟩ RWLOCK_READ (by decide) (by decide)
      (by decide)).1 rfl (by decide)⟩

/-- C9 (the code at the failing input): after two readers have taken a fresh
lock and one of them has unlocked, the lock is in mode UNLOCKED with
`reader_count = 1`.  A reader request on it is admitted with `reader_count`
raised to 2, not set to 1, and a writer request is admitted with
`reader_count` left at 1, not at 0: in mode UNLOCKED `rwlock_lock` adds to
the count it finds. -/
theorem rwlock_lock_on_stale_count :
    rwlock_init (some { rwlock_fresh with valid := false }) = (some rwlock_fresh, SUCCESS_RETURN) ∧
    (RwSys.mk rwlock_fresh [] []).run no_retry two_readers_one_leaves
      = some (RwSys.mk { valid := true, data_mutex := ⟨1, 3, 3⟩, waiting_rw := [],
                         reader_count := 1, mode := RW_UNLOCKED } [2] []) ∧
    rwlock_lock { valid := true, data_mutex := ⟨1, 3, 3⟩, waiting_rw := [],
                  reader_count := 1, mode := RW_UNLOCKED } ⟨3, RWLOCK_INVALID⟩ RWLOCK_READ
      = some ({ valid := true, data_mutex := ⟨1, 4, 4⟩, waiting_rw := [],
                reader_count := 2, mode := RW_READING }, [], .acquired) ∧
    rwlock_lock { valid := true, data_mutex := ⟨1, 3, 3⟩, waiting_rw := [],
                  reader_count := 1, mode := RW_UNLOCKED } ⟨3, RWLOCK_INVALID⟩ RWLOCK_WRITE
      = some ({ valid := true, data_mutex := ⟨1, 4, 4⟩, waiting_rw := [],
                reader_count := 1, mode := RW_WRITING }, [], .acquired) ∧
    (2 : Int) ≠ 1 ∧ (1 : Int) ≠ 0 := by
  decide

/-- C10 (the code at the failing input): after two readers took a fresh lock,
one unlocked and a writer was admitted, the lock is in mode WRITING with
`reader_count = 1`; `rwlock_downgrade` by that writer sets the mode to
READING and leaves `reader_count` at 2, not at 1, because it adds 1 to the
count it finds. -/
theorem rwlock_downgrade_count_two :
    rwlock_init (some { rwlock_fresh with valid := false }) = (some rwlock_fresh, SUCCESS_RETURN) ∧
    (RwSys.mk rwlock_fresh [] []).run no_retry
        (two_readers_one_leaves ++ [.lock ⟨3, RWLOCK_INVALID⟩ RWLOCK_WRITE])
      = some (RwSys.mk { valid := true, data_mutex := ⟨1, 4, 4⟩, waiting_rw := [],
                         reader_count := 1, mode := RW_WRITING } [2, 3] []) ∧
    rwlock_downgrade no_retry { valid := true, data_mutex := ⟨1, 4, 4⟩, waiting_rw := [],
                                reader_count := 1, mode := RW_WRITING }
      = some ({ valid := true, data_mutex := ⟨1, 5, 5⟩, waiting_rw := [],
                reader_count := 2, mode := RW_READING }, [], []) ∧
    (RwSys.mk rwlock_fresh [] []).run no_retry
        (two_readers_one_leaves ++ [.lock ⟨3, RWLOCK_INVALID⟩ RWLOCK_WRITE, .downgrade 3])
      = some (RwSys.mk { valid := true, data_mutex := ⟨1, 5, 5⟩, waiting_rw := [],
                         reader_count := 2, mode := RW_READING } [2, 3] []) ∧
    (2 : Int) ≠ 1 := by
  decide

/-- What `rwlock_downgrade` does on a valid lock.  In mode WRITING it adds
exactly 1 to `reader_count` (so that it is 1 when it was 0) and sets the mode
to READING; if the front of the wait queue is a reader it removes exactly the
maximal leading run of readers and wakes each of them in queue order, and if
the queue is empty or its front is not a reader the queue is left unchanged
and nobody is woken.  On a lock that is not in mode WRITING it only takes and
releases the data mutex: valid flag, mode, `reader_count` and wait queue are
unchanged and no call is made. -/
theorem rwlock_downgrade_spec (env : Int → Nat) (rw : rwlock_t)
    (hv : rw.valid = true) (hm : mutex_free rw.data_mutex) :
    (rw.mode = RW_WRITING →
      (∀ r rest, rw.waiting_rw = r :: rest → r.rw_type = RWLOCK_READ →
        rwlock_downgrade env rw =
          some ({ rw with data_mutex := mutex_cycled rw.data_mutex,
                          reader_count := rw.reader_count + 1, mode := RW_READING,
                          waiting_rw := rw.waiting_rw.dropWhile is_reader },
                wake_all env (rw.waiting_rw.takeWhile is_reader),
                (rw.waiting_rw.takeWhile is_reader).map
                  (fun x => { x with rw_type := RWLOCK_INVALID }))) ∧
      ((rw.waiting_rw = [] ∨ ∃ w rest, rw.waiting_rw = w :: rest ∧ w.rw_type ≠ RWLOCK_READ) →
        rwlock_downgrade env rw =
          some ({ rw with data_mutex := mutex_cycled rw.data_mutex,
                          reader_count := rw.reader_count + 1, mode := RW_READING },
                [], []))) ∧
    (rw.mode ≠ RW_WRITING →
      rwlock_downgrade env rw =
        some ({ rw with data_mutex := mutex_cycled rw.data_mutex }, [], [])) :=
  ⟨fun hmo => ⟨rwlock_downgrade_reader_front env rw hv hm hmo,
      rwlock_downgrade_no_reader env rw hv hm hmo⟩,
    rwlock_downgrade_idle env rw hv hm⟩

/-- The writer holding `rwlock_sample` downgrades and the two leading readers
are woken. -/
theorem rwlock_downgrade_spec_witness :
    rwlock_sample.valid = true ∧ mutex_free rwlock_sample.data_mutex ∧
    rwlock_downgrade no_retry rwlock_sample =
      some ({ rwlock_sample with
                data_mutex := mutex_cycled rwlock_sample.data_mutex,
                reader_count := rwlock_sample.reader_count + 1, mode := RW_READING,
                waiting_rw := rwlock_sample.waiting_rw.dropWhile is_reader },
            wake_all no_retry (rwlock_sample.waiting_rw.takeWhile is_reader),
            (rwlock_sample.waiting_rw.takeWhile is_reader).map
              (fun x => { x with rw_type := RWLOCK_INVALID })) :=
  ⟨by decide, by decide,
    ((rwlock_downgrade_spec no_retry rwlock_sample (by decide) (by decide)).1 (by decide)).1
      ⟨5, RWLOCK_READ⟩ [⟨6, RWLOCK_READ⟩, ⟨7, RWLOCK_WRITE⟩, ⟨8, RWLOCK_READ⟩] rfl rfl⟩

/-! ## The condition variable -/

theorem rejected_attempts_made (k : Nat) (tid : Int) :
    made_runnable (rejected_attempts k tid) = [] := by
  induction k with
  | zero => simp [rejected_attempts, made_runnable]
  | succ n ih =>
    simp only [rejected_attempts, List.replicate_succ, List.flatten_cons] at ih ⊢
    rw [made_runnable_append, ih]
    simp [made_runnable]

theorem rejected_attempts_targets (k : Nat) (tid : Int) :
    make_runnable_targets (rejected_attempts k tid) = List.replicate k tid := by
  induction k with
  | zero => simp [rejected_attempts, make_runnable_targets]
  | succ n ih =>
    simp only [rejected_attempts, List.replicate_succ, List.flatten_cons] at ih ⊢
    rw [make_runnable_targets_append, ih]
    simp [make_runnable_targets]

/-- What the calls of the loop of `cond_signal` amount to: `make_runnable` is
called at least once, always for the tid given, and it is accepted once or
not at all. -/
theorem signal_loop_made (kern : Int → Fate) (t : Int) (calls : List Call)
    (h : signal_loop kern t = some calls) :
    (∃ k, make_runnable_targets calls = List.replicate (k + 1) t) ∧
    made_runnable calls = if (kern t).accepts then [t] else [] := by
  unfold signal_loop at h
  split at h
  · rename_i k hk
    simp only [Option.some.injEq] at h
    subst h
    constructor
    · refine ⟨k, ?_⟩
      rw [make_runnable_targets_append, rejected_attempts_targets, List.replicate_succ']
      simp [make_runnable_targets]
    · rw [made_runnable_append, rejected_attempts_made, hk]
      simp [made_runnable, Fate.accepts]
  · rename_i k hk
    simp only [Option.some.injEq] at h
    subst h
    constructor
    · refine ⟨k, ?_⟩
      rw [make_runnable_targets_append, rejected_attempts_targets, List.replicate_succ']
      simp [make_runnable_targets]
    · rw [made_runnable_append, rejected_attempts_made, hk]
      simp [made_runnable, Fate.accepts]
  · simp at h

theorem cond_wait_enqueues (cv : cond_t) (mp : mutex_t) (p : Nat) (q : List Nat)
    (hv : cv.valid ≠ COND_UNINITIALIZED) (hm : mutex_free cv.cond_mutex)
    (hq : cv.cond_queue = some q) :
    cond_wait cv mp (some p) =
      .stopped ({ cv with cond_queue := some (q ++ [p]),
                          cond_mutex := mutex_cycled cv.cond_mutex }, mutex_unlock mp)
        .blocked := by
  simp [cond_wait, mutex_lock_free _ hm, hv, append_thread, hq, mutex_unlock_locked _ hm]

theorem cond_signal_front (kern : Int → Fate) (tid_at : Nat → Int) (cv : cond_t)
    (p : Nat) (rest : List Nat) (hm : mutex_free cv.cond_mutex)
    (hq : cv.cond_queue = some (p :: rest)) :
    cond_signal kern tid_at cv =
      match signal_loop kern (tid_at p) with
      | some calls =>
        .returned { cv with cond_queue := some rest,
                            cond_mutex := mutex_cycled cv.cond_mutex } calls
      | none =>
        .stopped { cv with cond_queue := some rest,
                           cond_mutex := mutex_cycled cv.cond_mutex } .spins := by
  simp only [cond_signal, mutex_lock_free _ hm, hq, mutex_unlock_locked _ hm]

theorem cond_signal_empty (kern : Int → Fate) (tid_at : Nat → Int) (cv : cond_t)
    (hm : mutex_free cv.cond_mutex) (hq : cv.cond_queue = some []) :
    cond_signal kern tid_at cv =
      .returned { cv with cond_mutex := mutex_cycled cv.cond_mutex } [] := by
  simp only [cond_signal, mutex_lock_free _ hm, hq, mutex_unlock_locked _ hm]

/-- Along a schedule of waits and signals the queue stays a queue, the
internal mutex stays free, the arrivals are the dequeued addresses followed
by the queue, and the tids made runnable are those of the dequeued records
whose `make_runnable` the kernel accepts, in the order of dequeueing. -/
theorem cv_run_fifo (kern : Int → Fate) (tid_at : Nat → Int) (evs : List CvEvent)
    (cv cv1 : cond_t) (served served1 : List Nat) (woken woken1 : List Int) (q : List Nat)
    (hv : cv.valid ≠ COND_UNINITIALIZED) (hm : mutex_free cv.cond_mutex)
    (hq : cv.cond_queue = some q)
    (hw : woken = (served.filter fun p => (kern (tid_at p)).accepts).map tid_at)
    (hr : cv_run kern tid_at (cv, served, woken) evs = some (cv1, served1, woken1)) :
    ∃ q1, cv1.cond_queue = some q1 ∧ served ++ q ++ cv_arrivals evs = served1 ++ q1 ∧
      woken1 = (served1.filter fun p => (kern (tid_at p)).accepts).map tid_at := by
  induction evs generalizing cv served woken q with
  | nil =>
    simp only [cv_run, Option.some.injEq, Prod.mk.injEq] at hr
    obtain ⟨rfl, rfl, rfl⟩ := hr
    exact ⟨q, hq, by simp [cv_arrivals], hw⟩
  | cons e es ih =>
    simp only [cv_run] at hr
    cases e with
    | wait self mp =>
      simp only [cv_step, cond_wait_enqueues cv mp self q hv hm hq] at hr
      have := ih { cv with cond_queue := some (q ++ [self]),
                            cond_mutex := mutex_cycled cv.cond_mutex }
        served woken (q ++ [self]) hv (mutex_cycled_free _ hm) rfl hw hr
      obtain ⟨q1, h1, h2, h3⟩ := this
      exact ⟨q1, h1, by simpa [cv_arrivals] using h2, h3⟩
    | signal =>
      cases q with
      | nil =>
        simp only [cv_step, cond_signal_empty kern tid_at cv hm hq, hq] at hr
        have := ih { cv with cond_queue := some [],
                             cond_mutex := mutex_cycled cv.cond_mutex } _ _ [] hv
          (mutex_cycled_free _ hm) rfl (by simpa [made_runnable] using hw) hr
        obtain ⟨q1, h1, h2, h3⟩ := this
        exact ⟨q1, h1, by simpa [cv_arrivals] using h2, h3⟩
      | cons p rest =>
        simp only [cv_step, cond_signal_front kern tid_at cv p rest hm hq, hq] at hr
        cases hl : signal_loop kern (tid_at p) with
        | none => simp [hl] at hr
        | some calls =>
          simp only [hl] at hr
          have hmade := (signal_loop_made kern (tid_at p) calls hl).2
          have hsub : woken ++ made_runnable calls =
              ((served ++ ((some (p :: rest) : Option (List Nat)).getD []).head?.toList).filter
                fun p => (kern (tid_at p)).accepts).map tid_at := by
            simp only [Option.getD_some, List.head?_cons, Option.toList_some, List.filter_append,
              List.map_append]
            rw [hmade, hw]
            congr 1
            cases hacc : (kern (tid_at p)).accepts <;> simp [List.filter, hacc]
          have := ih { cv with cond_queue := some rest,
                               cond_mutex := mutex_cycled cv.cond_mutex }
            _ _ rest hv (mutex_cycled_free _ hm) rfl hsub hr
          obtain ⟨q1, h1, h2, h3⟩ := this
          refine ⟨q1, h1, ?_, h3⟩
          simpa [cv_arrivals] using h2

/-- C11: on a valid condition variable whose internal mutex is free,
`cond_wait` puts the caller's record at the tail of the wait queue and
deschedules the caller.  `cond_signal` on a non-empty queue removes exactly
the front record and leaves the others in their order; it calls
`make_runnable` for that record's tid, again after each rejection while the
tid is known, and for no other tid: when the kernel accepts after `k`
rejections the calls are `k` rejected attempts with their yields and the
accepted one, when the tid becomes unknown after `k + 1` rejections they are
the rejected attempts alone, and when the kernel rejects for ever with the
tid known the call does not return.  So at least one `make_runnable` is
issued and at most one is accepted.  `cond_signal` on an empty queue leaves
valid flag and queue as they are and makes no call.  Along any schedule of
waits and signals, the records enqueued are the records dequeued so far
followed by the queue, and the tids made runnable are exactly those of the
dequeued records that the kernel accepts, in the order of enqueueing. -/
theorem cond_signal_wakes_front (kern : Int → Fate) (tid_at : Nat → Int) (cv : cond_t)
    (q : List Nat) (hv : cv.valid = COND_INITIALIZED) (hm : mutex_free cv.cond_mutex)
    (hq : cv.cond_queue = some q) :
    (∀ mp p, cond_wait cv mp (some p) =
      .stopped ({ cv with cond_queue := some (q ++ [p]),
                          cond_mutex := mutex_cycled cv.cond_mutex }, mutex_unlock mp)
        .blocked) ∧
    (∀ p rest, q = p :: rest →
      (∀ k, kern (tid_at p) = Fate.accepted k →
        cond_signal kern tid_at cv =
          .returned { cv with cond_queue := some rest,
                              cond_mutex := mutex_cycled cv.cond_mutex }
            (rejected_attempts k (tid_at p) ++ [Call.make_runnable (tid_at p) 0])) ∧
      (∀ k, kern (tid_at p) = Fate.abandoned k →
        cond_signal kern tid_at cv =
          .returned { cv with cond_queue := some rest,
                              cond_mutex := mutex_cycled cv.cond_mutex }
            (rejected_attempts k (tid_at p) ++ [Call.make_runnable (tid_at p) (-1)])) ∧
      (kern (tid_at p) = Fate.stuck →
        cond_signal kern tid_at cv =
          .stopped { cv with cond_queue := some rest,
                             cond_mutex := mutex_cycled cv.cond_mutex } .spins) ∧
      (∀ cv1 calls, cond_signal kern tid_at cv = .returned cv1 calls →
        (∃ k, make_runnable_targets calls = List.replicate (k + 1) (tid_at p)) ∧
        made_runnable calls = if (kern (tid_at p)).accepts then [tid_at p] else [])) ∧
    (q = [] →
      cond_signal kern tid_at cv =
        .returned { cv with cond_mutex := mutex_cycled cv.cond_mutex } []) ∧
    (∀ evs cv1 served woken,
      cv_run kern tid_at (cv, [], []) evs = some (cv1, served, woken) →
      ∃ q1, cv1.cond_queue = some q1 ∧ q ++ cv_arrivals evs = served ++ q1 ∧
        woken = (served.filter fun p => (kern (tid_at p)).accepts).map tid_at) := by
  have hv1 : cv.valid ≠ COND_UNINITIALIZED := by
    rw [hv]; simp [COND_INITIALIZED, COND_UNINITIALIZED]
  refine ⟨fun mp p => cond_wait_enqueues cv mp p q hv1 hm hq, ?_, ?_, ?_⟩
  · intro p rest hpq
    subst hpq
    have hs := cond_signal_front kern tid_at cv p rest hm hq
    refine ⟨?_, ?_, ?_, ?_⟩
    · intro k hk
      rw [hs]
      simp [signal_loop, hk]
    · intro k hk
      rw [hs]
      simp [signal_loop, hk]
    · intro hst
      rw [hs]
      simp [signal_loop, hst]
    · intro cv1 calls hret
      rw [hs] at hret
      cases hl : signal_loop kern (tid_at p) with
      | none => simp [hl] at hret
      | some calls1 =>
        simp only [hl, Outcome.returned.injEq] at hret
        rw [← hret.2]
        exact signal_loop_made kern (tid_at p) calls1 hl
  · intro hqe
    subst hqe
    exact cond_signal_empty kern tid_at cv hm hq
  · intro evs cv1 served woken hr
    have := cv_run_fifo kern tid_at evs cv cv1 [] served [] woken q hv1 hm hq rfl hr
    simpa using this

/-- C11 (witness): with the records at 5, 6 and 7 waiting, the thread of 5
gone and the kernel accepting the others at the second attempt.  A signal
removes 5, calls `make_runnable(5)` once and leaves 6 and 7 queued.  After a
further wait by 8 and two more signals the dequeued records are 5, 6, 7 in
that order, 8 is queued, and the threads made runnable are 6 and 7 in that
order. -/
theorem cond_signal_wakes_front_witness :
    cond_sample.valid = COND_INITIALIZED ∧ mutex_free cond_sample.cond_mutex ∧
    cond_sample.cond_queue = some [5, 6, 7] ∧
    cond_signal kern_mixed tid_is_addr cond_sample =
      .returned { cond_sample with cond_queue := some [6, 7],
                                   cond_mutex := mutex_cycled cond_sample.cond_mutex }
        (rejected_attempts 0 (tid_is_addr 5) ++ [Call.make_runnable (tid_is_addr 5) (-1)]) ∧
    cv_run kern_mixed tid_is_addr (cond_sample, [], [])
        [.signal, .wait 8 ⟨1, 1, 0⟩, .signal, .signal] =
      some (⟨1, some [8], ⟨1, 6, 6⟩⟩, [5, 6, 7], [6, 7]) ∧
    ∃ q1, (⟨1, some [8], ⟨1, 6, 6⟩⟩ : cond_t).cond_queue = some q1 ∧
      [5, 6, 7] ++ cv_arrivals [.signal, .wait 8 ⟨1, 1, 0⟩, .signal, .signal] =
        [5, 6, 7] ++ q1 ∧
      ([6, 7] : List Int) =
        (([5, 6, 7] : List Nat).filter fun p => (kern_mixed (tid_is_addr p)).accepts).map
          tid_is_addr :=
  have w := cond_signal_wakes_front kern_mixed tid_is_addr cond_sample [5, 6, 7]
    (by decide) (by decide) rfl
  ⟨by decide, by decide, rfl, (w.2.1 5 [6, 7] rfl).2.1 0 (by decide), by decide,
    w.2.2.2 [.signal, .wait 8 ⟨1, 1, 0⟩, .signal, .signal] ⟨1, some [8], ⟨1, 6, 6⟩⟩
      [5, 6, 7] [6, 7] (by decide)⟩

/-- C12 (the code at the failing input): the record at 5 is queued and its
thread has left the thread table.  `cond_signal` tries `make_runnable` once,
finds the tid unknown and returns with the queue empty.  `cond_broadcast`
removes the record and then repeats `make_runnable` for ever, with the
internal mutex held: it has no look at the thread table. -/
theorem cond_broadcast_never_abandons :
    cond_signal kern_gone tid_is_addr ⟨1, some [5], ⟨1, 0, 0⟩⟩ =
      .returned ⟨1, some [], ⟨1, 1, 1⟩⟩ [Call.make_runnable 5 (-1)] ∧
    cond_broadcast kern_gone tid_is_addr ⟨1, some [5], ⟨1, 0, 0⟩⟩ =
      .stopped ⟨1, some [], ⟨1, 1, 0⟩⟩ .spins := by
  decide

/-! ## The semaphore -/

theorem wrap32_of_range (x : Int) (h1 : -2147483648 ≤ x) (h2 : x ≤ 2147483647) :
    wrap32 x = x := by
  unfold wrap32
  omega

theorem sem_wait_loop_count (sem : sem_t) (self : Option Nat) (s1 : sem_t)
    (h : sem_after (sem_wait_loop sem self) = some s1)
    (h0 : 0 ≤ sem.count ∧ sem.count ≤ 2147483647) :
    0 ≤ s1.count ∧ s1.count ≤ 2147483647 := by
  unfold sem_wait_loop at h
  split at h
  · split at h
    · simp [sem_after] at h
    · rename_i c l why hcw
      cases why <;> simp [sem_after] at h
      subst h
      exact h0
  · rename_i hpos
    simp only [sem_after, Option.some.injEq] at h
    subst h
    simp only
    rw [wrap32_of_range _ (by omega) (by omega)]
    omega

theorem sem_step_count (kern : Int → Fate) (tid_at : Nat → Int) (sem s1 : sem_t)
    (e : SemEvent) (h : sem_step kern tid_at sem e = some s1)
    (hno : e = .signal → sem.count < 2147483647)
    (h0 : 0 ≤ sem.count ∧ sem.count ≤ 2147483647) :
    0 ≤ s1.count ∧ s1.count ≤ 2147483647 := by
  cases e with
  | wait self =>
    simp only [sem_step, sem_wait] at h
    split at h
    · simp [sem_after] at h
    · split at h
      · simp [sem_after] at h
      · exact sem_wait_loop_count _ _ s1 h h0
  | wake self =>
    simp only [sem_step, sem_wait_wake] at h
    split at h
    · simp [sem_after] at h
    · exact sem_wait_loop_count _ _ s1 h h0
  | signal =>
    have hlt := hno rfl
    have hw : wrap32 (sem.count + 1) = sem.count + 1 :=
      wrap32_of_range _ (by omega) (by omega)
    simp only [sem_step, sem_signal] at h
    split at h
    · simp [sem_after] at h
    · split at h
      · simp [sem_after] at h
      · split at h
        · rename_i c why hcs
          cases why <;> simp [sem_after] at h
          subst h
          simp only
          rw [hw]
          omega
        · simp only [sem_after, Option.some.injEq] at h
          subst h
          simp only
          rw [hw]
          omega

theorem sem_run_count (kern : Int → Fate) (tid_at : Nat → Int) (evs : List SemEvent)
    (sem s1 : sem_t) (h : sem_run kern tid_at sem evs = some s1)
    (hno : sem_no_overflow kern tid_at sem evs = true)
    (h0 : 0 ≤ sem.count ∧ sem.count ≤ 2147483647) :
    0 ≤ s1.count ∧ s1.count ≤ 2147483647 := by
  induction evs generalizing sem with
  | nil => simp [sem_run] at h; subst h; exact h0
  | cons e es ih =>
    simp only [sem_run] at h
    simp only [sem_no_overflow, Bool.and_eq_true, decide_eq_true_eq] at hno
    cases hs : sem_step kern tid_at sem e with
    | none => simp [hs] at h
    | some s2 =>
      simp only [hs] at h hno
      exact ih s2 h hno.2 (sem_step_count kern tid_at sem s2 e hs hno.1 h0)

theorem sem_init_count (malloc_ok : Bool) (sem0 sem1 : sem_t) (c : Int)
    (h : sem_init malloc_ok (some sem0) c = .returned (some sem1) SUCCESS_RETURN) :
    sem1.count = c := by
  simp only [sem_init] at h
  split at h
  · simp [ERROR_DOUBLE_INITIALIZATION, SUCCESS_RETURN] at h
  · split at h
    · simp [ERROR_NULL_POINTER, SUCCESS_RETURN] at h
    · split at h
      · rename_i hret
        simp only [Outcome.returned.injEq] at h
        rw [h.2] at hret
        simp [SUCCESS_RETURN] at hret
      · split at h
        · simp [ERROR_NULL_POINTER, SUCCESS_RETURN] at h
        · split at h
          · rename_i hret
            simp only [Outcome.returned.injEq] at h
            rw [h.2] at hret
            simp [SUCCESS_RETURN] at hret
          · split at h
            · simp at h
            · simp only [Outcome.returned.injEq, Option.some.injEq, and_true] at h
              rw [← h]

/-- C13 (counterexample): `sem_init` with count `-1` returns success; on the
semaphore it leaves, `sem_signal` raises `count` to 0 and the `sem_wait` that
follows queues its caller and deschedules with `count` still 0, not `-1`.
And on a semaphore whose `count` is `2^31 - 1`, the largest `int`,
`sem_signal` leaves `count = -2^31`, which is not `count + 1`. -/
theorem sem_signal_wait_not_neutral :
    sem_init true (some sem_zero) (-1) = .returned (some sem_negative) SUCCESS_RETURN ∧
    sem_signal kern_accepts tid_is_addr (some sem_negative) =
      .returned (some { sem_negative with count := 0, lock := ⟨1, 2, 2⟩,
                                          cv := ⟨1, some [], ⟨1, 1, 1⟩⟩ }) [] ∧
    sem_wait (some { sem_negative with count := 0, lock := ⟨1, 2, 2⟩,
                                       cv := ⟨1, some [], ⟨1, 1, 1⟩⟩ }) (some 5) =
      .stopped (some { sem_negative with count := 0, lock := ⟨1, 3, 3⟩,
                                         cv := ⟨1, some [5], ⟨1, 2, 2⟩⟩ }) .blocked ∧
    (0 : Int) ≠ sem_negative.count ∧
    sem_init true (some sem_zero) 2147483647 = .returned (some sem_full) SUCCESS_RETURN ∧
    sem_signal kern_accepts tid_is_addr (some sem_full) =
      .returned (some { sem_full with count := -2147483648, lock := ⟨1, 2, 2⟩,
                                      cv := ⟨1, some [], ⟨1, 1, 1⟩⟩ }) [] ∧
    (-2147483648 : Int) ≠ sem_full.count + 1 := by
  decide

/-- C13 (amended): on a valid semaphore whose mutexes are free and whose
condition variable is valid with wait queue `q`, `count` being an `int`.
`sem_wait` with `count > 0` returns with `count` lowered by exactly 1 and the
condition variable untouched.  `sem_wait` with `count ≤ 0` leaves `count` as
it is, queues the caller on the condition variable and deschedules; when the
caller runs again it decrements only if `count > 0` and otherwise waits
again.  `sem_signal` raises `count` by exactly 1, except that it turns
`2^31 - 1` into `-2^31`, and runs `cond_signal` once on the condition
variable.  Hence, with `0 ≤ count < 2^31 - 1`, a `sem_wait` after a returned
`sem_signal` returns at once and leaves `count` as it was before the
signal. -/
theorem sem_wait_signal_count (kern : Int → Fate) (tid_at : Nat → Int) (sem : sem_t)
    (self : Nat) (q : List Nat)
    (hv : sem.valid ≠ 0) (hl : mutex_free sem.lock)
    (hcv : sem.cv.valid = COND_INITIALIZED) (hcm : mutex_free sem.cv.cond_mutex)
    (hq : sem.cv.cond_queue = some q)
    (hint : -2147483648 ≤ sem.count ∧ sem.count ≤ 2147483647) :
    (0 < sem.count →
      sem_wait (some sem) (some self) =
        .returned (some { sem with count := sem.count - 1,
                                   lock := mutex_cycled sem.lock }) () ∧
      sem_wait_wake sem (some self) =
        .returned (some { sem with count := sem.count - 1,
                                   lock := mutex_cycled sem.lock }) ()) ∧
    (sem.count ≤ 0 →
      sem_wait (some sem) (some self) =
        .stopped (some { sem with
                           cv := { sem.cv with cond_queue := some (q ++ [self]),
                                               cond_mutex := mutex_cycled sem.cv.cond_mutex },
                           lock := mutex_cycled sem.lock }) .blocked ∧
      sem_wait_wake sem (some self) =
        .stopped (some { sem with
                           cv := { sem.cv with cond_queue := some (q ++ [self]),
                                               cond_mutex := mutex_cycled sem.cv.cond_mutex },
                           lock := mutex_cycled sem.lock }) .blocked) ∧
    (sem_signal kern tid_at (some sem) =
      match cond_signal kern tid_at sem.cv with
      | .returned c calls =>
        .returned (some { sem with
                            count := if sem.count = 2147483647 then -2147483648
                                     else sem.count + 1,
                            cv := c, lock := mutex_cycled sem.lock }) calls
      | .stopped c why =>
        .stopped (some { sem with
                           count := if sem.count = 2147483647 then -2147483648
                                    else sem.count + 1,
                           cv := c,
                           lock := { sem.lock with
                                       ticket_num := (sem.lock.ticket_num + 1) % UINT_RANGE } })
          why) ∧
    (0 ≤ sem.count → sem.count < 2147483647 → ∀ s1 calls,
      sem_signal kern tid_at (some sem) = .returned (some s1) calls →
      ∃ s2, sem_wait (some s1) (some self) = .returned (some s2) () ∧
        s2.count = sem.count) := by
  have hcv1 : sem.cv.valid ≠ COND_UNINITIALIZED := by
    rw [hcv]; simp [COND_INITIALIZED, COND_UNINITIALIZED]
  have hul := mutex_unlock_locked _ hl
  have hinc : wrap32 (sem.count + 1) =
      if sem.count = 2147483647 then -2147483648 else sem.count + 1 := by
    split
    · rename_i hmax
      rw [hmax]
      decide
    · exact wrap32_of_range _ (by omega) (by omega)
  have hsig : sem_signal kern tid_at (some sem) =
      match cond_signal kern tid_at sem.cv with
      | .returned c calls =>
        .returned (some { sem with
                            count := if sem.count = 2147483647 then -2147483648
                                     else sem.count + 1,
                            cv := c, lock := mutex_cycled sem.lock }) calls
      | .stopped c why =>
        .stopped (some { sem with
                           count := if sem.count = 2147483647 then -2147483648
                                    else sem.count + 1,
                           cv := c,
                           lock := { sem.lock with
                                       ticket_num := (sem.lock.ticket_num + 1) % UINT_RANGE } })
          why := by
    simp only [sem_signal, hv, if_false, mutex_lock_free _ hl, hinc]
    cases cond_signal kern tid_at sem.cv with
    | returned c calls => simp only [hul]
    | stopped c why => rfl
  refine ⟨?_, ?_, hsig, ?_⟩
  · intro hpos
    have hn : ¬ sem.count ≤ 0 := by omega
    have hdec : wrap32 (sem.count - 1) = sem.count - 1 :=
      wrap32_of_range _ (by omega) (by omega)
    constructor
    · simp [sem_wait, hv, mutex_lock_free _ hl, sem_wait_loop, hn, hul, hdec]
    · simp [sem_wait_wake, cond_wait_wake, mutex_lock_free _ hl, sem_wait_loop, hn, hul, hdec]
  · intro hle
    have hw := cond_wait_enqueues sem.cv
      { sem.lock with ticket_num := (sem.lock.ticket_num + 1) % UINT_RANGE } self q hcv1 hcm hq
    constructor
    · simp only [sem_wait, hv, if_false, mutex_lock_free _ hl, sem_wait_loop, hle, if_true, hw,
        hul]
    · simp only [sem_wait_wake, cond_wait_wake, mutex_lock_free _ hl, sem_wait_loop, hle,
        if_true, hw, hul]
  · intro h0 hlt s1 calls hret
    rw [hsig] at hret
    have hne : ¬ sem.count = 2147483647 := by omega
    cases hc : cond_signal kern tid_at sem.cv with
    | stopped c why => simp [hc] at hret
    | returned c calls1 =>
      simp only [hc, Outcome.returned.injEq, Option.some.injEq, hne, if_false] at hret
      obtain ⟨rfl, _⟩ := hret
      have hfree := mutex_cycled_free _ hl
      have hn : ¬ sem.count + 1 ≤ 0 := by omega
      have hdec : wrap32 sem.count = sem.count := wrap32_of_range _ (by omega) (by omega)
      refine ⟨{ sem with count := sem.count, cv := c,
                         lock := mutex_cycled (mutex_cycled sem.lock) }, ?_, rfl⟩
      simp [sem_wait, hv, mutex_lock_free _ hfree, sem_wait_loop, hn,
        mutex_unlock_locked _ hfree, hdec]

/-- C13 (witness): with count 1 and nobody waiting, `sem_wait` returns at once
with count 0; a `sem_signal` followed by a `sem_wait` leaves the count at
1. -/
theorem sem_wait_signal_count_witness :
    sem_sample.valid ≠ 0 ∧ mutex_free sem_sample.lock ∧
    sem_sample.cv.valid = COND_INITIALIZED ∧ mutex_free sem_sample.cv.cond_mutex ∧
    sem_sample.cv.cond_queue = some [] ∧
    sem_wait (some sem_sample) (some 5) =
      .returned (some { sem_sample with count := sem_sample.count - 1,
                                        lock := mutex_cycled sem_sample.lock }) () ∧
    ∃ s2, sem_wait (some { sem_sample with count := 2, lock := ⟨1, 2, 2⟩,
                                           cv := ⟨1, some [], ⟨1, 1, 1⟩⟩ }) (some 5) =
        .returned (some s2) () ∧ s2.count = sem_sample.count :=
  have w := sem_wait_signal_count kern_accepts tid_is_addr sem_sample 5 [] (by decide)
    (by decide) (by decide) (by decide) rfl (by decide)
  ⟨by decide, by decide, by decide, by decide, rfl, (w.1 (by decide)).1,
    w.2.2.2 (by decide) (by decide) _ [] (by decide)⟩

/-- C14 (counterexample): `sem_init` with count `-1` on a semaphore in zeroed
memory returns success and leaves `count = -1`.  And `sem_init` with count
`2^31 - 1` returns success, after which one completed `sem_signal` leaves
`count = -2^31`. -/
theorem sem_init_negative_count :
    sem_init true (some sem_zero) (-1) = .returned (some sem_negative) SUCCESS_RETURN ∧
    ¬ (0 ≤ sem_negative.count) ∧
    sem_init true (some sem_zero) 2147483647 = .returned (some sem_full) SUCCESS_RETURN ∧
    sem_run kern_accepts tid_is_addr sem_full [.signal] =
      some { sem_full with count := -2147483648, lock := ⟨1, 2, 2⟩,
                           cv := ⟨1, some [], ⟨1, 1, 1⟩⟩ } ∧
    ¬ (0 ≤ (-2147483648 : Int)) := by
  decide

/-- C14 (amended): for every semaphore on which `sem_init(sem, c)` has
returned success with `c ≥ 0` (`c` being an `int`, so at most `2^31 - 1`),
after any sequence of `sem_wait` and `sem_signal` calls, completed or still
descheduled, in which no `sem_signal` finds `count = 2^31 - 1`, `count ≥ 0`
(and `count ≤ 2^31 - 1`). -/
theorem sem_count_nonneg (kern : Int → Fate) (tid_at : Nat → Int) (malloc_ok : Bool)
    (sem0 sem1 s : sem_t) (c : Int) (evs : List SemEvent)
    (hinit : sem_init malloc_ok (some sem0) c = .returned (some sem1) SUCCESS_RETURN)
    (hc : 0 ≤ c) (hmax : c ≤ 2147483647)
    (hno : sem_no_overflow kern tid_at sem1 evs = true)
    (hr : sem_run kern tid_at sem1 evs = some s) :
    0 ≤ s.count ∧ s.count ≤ 2147483647 := by
  have h1 := sem_init_count malloc_ok sem0 sem1 c hinit
  exact sem_run_count kern tid_at evs sem1 s hr hno (by rw [h1]; exact ⟨hc, hmax⟩)

/-- C14 (witness): a semaphore initialized with count 1; one thread takes it,
a second waits, a signal lets the second one in. -/
theorem sem_count_nonneg_witness :
    sem_init true (some sem_zero) 1 = .returned (some sem_sample) SUCCESS_RETURN ∧
    sem_no_overflow kern_accepts tid_is_addr sem_sample [.wait 5, .wait 6, .signal, .wake 6] =
      true ∧
    sem_run kern_accepts tid_is_addr sem_sample [.wait 5, .wait 6, .signal, .wake 6] =
      some { valid := 1, count := 0, lock := ⟨1, 5, 5⟩, cv := ⟨1, some [], ⟨1, 2, 2⟩⟩ } ∧
    (0 : Int) ≤ 0 :=
  ⟨by decide, by decide, by decide,
    (sem_count_nonneg kern_accepts tid_is_addr true sem_zero sem_sample
      { valid := 1, count := 0, lock := ⟨1, 5, 5⟩, cv := ⟨1, some [], ⟨1, 2, 2⟩⟩ } 1
      [.wait 5, .wait 6, .signal, .wake 6] (by decide) (by decide) (by decide) (by decide)
      (by decide)).1⟩

/-- C15 (the code at the failing input): `sem_sample` is the semaphore that
`sem_init` with count 1 produces, valid and with nobody waiting.
`sem_destroy` on it panics and leaves it as it is, because the guard tests
`sem->valid` where the message and the header comment speak of an
uninitialized semaphore.  On a semaphore that was never initialized
`sem_destroy` does not panic. -/
theorem sem_destroy_panics_on_valid :
    sem_init true (some sem_zero) 1 = .returned (some sem_sample) SUCCESS_RETURN ∧
    sem_destroy (some sem_sample) = .stopped (some sem_sample) .panicked ∧
    sem_destroy (some sem_zero) = .returned (some sem_zero) () := by
  decide

/-- C20 (the code at the failing input): on a valid condition variable
`cond_init` leaves the object as it is but returns `ERROR_INIT_ON_USE`, not
`ERROR_DOUBLE_INITIALIZATION`; on a valid semaphore and on a valid
reader/writer lock `sem_init` and `rwlock_init` return
`ERROR_DOUBLE_INITIALIZATION` and leave the object as it is. -/
theorem cond_init_returns_init_on_use :
    cond_init true (some cond_sample) = (some cond_sample, ERROR_INIT_ON_USE) ∧
    ERROR_INIT_ON_USE ≠ ERROR_DOUBLE_INITIALIZATION ∧
    sem_init true (some sem_sample) 3 =
      .returned (some sem_sample) ERROR_DOUBLE_INITIALIZATION ∧
    rwlock_init (some rwlock_sample) = (some rwlock_sample, ERROR_DOUBLE_INITIALIZATION) := by
  decide

/-! ### Thread library: memory and step lemmas -/

theorem Lib.bind_apply {α β : Type} (m : Lib α) (f : α → Lib β) (s : thr_lib) :
    (m >>= f) s = match m s with
      | .returned s1 a => f a s1
      | .stopped s1 why => .stopped s1 why := rfl

theorem Lib.pure_apply {α : Type} (a : α) (s : thr_lib) :
    (pure a : Lib α) s = .returned s a := rfl

theorem read_addr (st : thr_lib) (p : Nat) (r : thr_stack_meta) (h : st.read p = some r) :
    r.addr = p := by
  unfold thr_lib.read at h
  simpa using List.find?_some h

theorem read_update (st : thr_lib) (p q : Nat) (f : thr_stack_meta → thr_stack_meta) :
    (st.update p f).read q =
      (st.read q).map fun r => if r.addr = p then { f r with addr := r.addr } else r := by
  unfold thr_lib.read thr_lib.update
  simp only [List.find?_map]
  congr 1
  congr 1
  funext r
  simp only [Function.comp]
  split <;> rfl

theorem read_update_self (st : thr_lib) (p : Nat) (f : thr_stack_meta → thr_stack_meta)
    (r : thr_stack_meta) (h : st.read p = some r) :
    (st.update p f).read p = some { f r with addr := r.addr } := by
  rw [read_update, h]
  simp [read_addr st p r h]

@[simp] theorem update_g_thr_table (st : thr_lib) (p : Nat) (f : thr_stack_meta → thr_stack_meta) :
    (st.update p f).g_thr_table = st.g_thr_table := rfl

@[simp] theorem update_g_free_stk_table (st : thr_lib) (p : Nat) (f : thr_stack_meta → thr_stack_meta) :
    (st.update p f).g_free_stk_table = st.g_free_stk_table := rfl

@[simp] theorem update_g_thr_table_mutex (st : thr_lib) (p : Nat) (f : thr_stack_meta → thr_stack_meta) :
    (st.update p f).g_thr_table_mutex = st.g_thr_table_mutex := rfl

@[simp] theorem update_g_free_stk_table_mutex (st : thr_lib) (p : Nat)
    (f : thr_stack_meta → thr_stack_meta) :
    (st.update p f).g_free_stk_table_mutex = st.g_free_stk_table_mutex := rfl

@[simp] theorem update_calls (st : thr_lib) (p : Nat) (f : thr_stack_meta → thr_stack_meta) :
    (st.update p f).calls = st.calls := rfl

@[simp] theorem read_log (st : thr_lib) (c : List Call) (p : Nat) :
    (st.log c).read p = st.read p := rfl

@[simp] theorem update_log (st : thr_lib) (c : List Call) (p : Nat)
    (f : thr_stack_meta → thr_stack_meta) :
    (st.log c).update p f = (st.update p f).log c := rfl

theorem update_update (st : thr_lib) (p : Nat) (f g : thr_stack_meta → thr_stack_meta) :
    (st.update p f).update p g = st.update p fun r => g { f r with addr := r.addr } := by
  unfold thr_lib.update
  simp only [List.map_map]
  congr 1
  apply List.map_congr_left
  intro r _
  simp only [Function.comp]
  by_cases h : r.addr = p <;> simp [h]

theorem lock_meta_free (st : thr_lib) (p : Nat) (r : thr_stack_meta) (h : st.read p = some r)
    (hm : mutex_free r.meta_mutex) :
    lock_meta p st = .returned
      (st.update p fun x => { x with meta_mutex :=
        { r.meta_mutex with ticket_num := (r.meta_mutex.ticket_num + 1) % UINT_RANGE } }) () := by
  simp [lock_meta, Lib.bind_apply, Lib.deref, h, mutex_lock_free _ hm, Lib.store, Lib.modify]

theorem unlock_meta_some (st : thr_lib) (p : Nat) (r : thr_stack_meta) (h : st.read p = some r) :
    unlock_meta p st = .returned
      (st.update p fun x => { x with meta_mutex := mutex_unlock x.meta_mutex }) () := by
  simp [unlock_meta, Lib.bind_apply, Lib.deref, h, Lib.store, Lib.modify]

theorem thr_exit_alone (env : Env) (st : thr_lib) (p status ebp : Nat) (r : thr_stack_meta)
    (hcur : find_current_thread_meta st ebp = some p) (h : st.read p = some r)
    (hm : mutex_free r.meta_mutex) (hflag : r.join_flag ≠ JOINING) :
    thr_exit env status ebp st = .stopped
      (st.update p fun x => { x with exit_status := status, thr_state := TERMINATED,
                                     meta_mutex := mutex_cycled r.meta_mutex }) .vanished := by
  simp [thr_exit, Lib.bind_apply, Lib.get, hcur, lock_meta_free st p r h hm, Lib.store,
    Lib.modify, Lib.deref, read_update, h, read_addr st p r h, hflag, Lib.pure_apply,
    unlock_meta, update_update, Lib.stop, mutex_unlock_locked _ hm]

theorem find_current_update (st : thr_lib) (p ebp : Nat) (f : thr_stack_meta → thr_stack_meta)
    (hh : ∀ x, (f x).stack_high = x.stack_high) (hl : ∀ x, (f x).stack_low = x.stack_low) :
    find_current_thread_meta (st.update p f) ebp = find_current_thread_meta st ebp := by
  unfold find_current_thread_meta find_thread_meta_by_ebp
  simp only [update_g_thr_table, read_update]
  congr 1
  congr 1
  funext q
  cases st.read q with
  | none => rfl
  | some x => by_cases hx : x.addr = p <;> simp [hx, hh, hl]

theorem find_tid_update (st : thr_lib) (p : Nat) (tid : Int) (f : thr_stack_meta → thr_stack_meta)
    (ht : ∀ x, (f x).tid = x.tid) :
    find_thread_meta_by_tid (st.update p f) tid = find_thread_meta_by_tid st tid := by
  unfold find_thread_meta_by_tid
  simp only [update_g_thr_table, read_update]
  congr 1
  congr 1
  congr 1
  funext q
  cases st.read q with
  | none => rfl
  | some x => by_cases hx : x.addr = p <;> simp [hx, ht]

theorem tid_at_update (st : thr_lib) (p q : Nat) (f : thr_stack_meta → thr_stack_meta)
    (ht : ∀ x, (f x).tid = x.tid) :
    (st.update p f).tid_at q = st.tid_at q := by
  unfold thr_lib.tid_at
  rw [read_update]
  cases st.read q with
  | none => rfl
  | some x => by_cases hx : x.addr = p <;> simp [hx, ht]

theorem free_thr_stack_spec (st : thr_lib) (p : Nat) (r : thr_stack_meta)
    (h : st.read p = some r) (hroot : r.root ≠ IS_ROOT)
    (htm : mutex_free st.g_thr_table_mutex) (hfm : mutex_free st.g_free_stk_table_mutex) :
    free_thr_stack (some p) st = .returned
      { st with g_thr_table := st.g_thr_table.erase p,
                g_thr_table_mutex := mutex_cycled st.g_thr_table_mutex,
                g_free_stk_table := st.g_free_stk_table ++ [p],
                g_free_stk_table_mutex := mutex_cycled st.g_free_stk_table_mutex } () := by
  simp [free_thr_stack, Lib.bind_apply, Lib.deref, h, hroot, lock_thr_table, Lib.lock,
    mutex_lock_free _ htm, Lib.modify, unlock_thr_table, Lib.unlock, lock_free_stk_table,
    mutex_lock_free _ hfm, unlock_free_stk_table, mutex_unlock_locked _ htm,
    mutex_unlock_locked _ hfm, Lib.pure_apply]

theorem thr_join_invalid (st : thr_lib) (tid : Int) (statusp : Bool) (ebp : Nat)
    (h : find_thread_meta_by_tid st tid = none) :
    thr_join tid statusp ebp st = .returned st (ERROR_INVALID_TID, none) := by
  simp [thr_join, Lib.bind_apply, Lib.get, h, Lib.pure_apply]

theorem thr_join_joining (st : thr_lib) (tid : Int) (statusp : Bool) (ebp p : Nat)
    (r : thr_stack_meta) (hfind : find_thread_meta_by_tid st tid = some p)
    (h : st.read p = some r) (hflag : r.join_flag = JOINING) :
    thr_join tid statusp ebp st = .returned st (ERROR_MULTIPLE_JOINS, none) := by
  simp [thr_join, Lib.bind_apply, Lib.get, hfind, Lib.deref, h, hflag, Lib.pure_apply]

theorem thr_join_terminated (st : thr_lib) (tid : Int) (statusp : Bool) (ebp p : Nat)
    (r : thr_stack_meta) (hfind : find_thread_meta_by_tid st tid = some p)
    (h : st.read p = some r) (htid : r.tid = tid) (hflag : r.join_flag ≠ JOINING)
    (hstate : r.thr_state = TERMINATED) (hroot : r.root ≠ IS_ROOT)
    (hm : mutex_free r.meta_mutex)
    (htm : mutex_free st.g_thr_table_mutex) (hfm : mutex_free st.g_free_stk_table_mutex) :
    thr_join tid statusp ebp st = .returned
      { (st.update p fun x => { x with join_flag := JOINING,
                                       meta_mutex := mutex_cycled r.meta_mutex }) with
        g_thr_table := st.g_thr_table.erase p,
        g_thr_table_mutex := mutex_cycled st.g_thr_table_mutex,
        g_free_stk_table := st.g_free_stk_table ++ [p],
        g_free_stk_table_mutex := mutex_cycled st.g_free_stk_table_mutex }
      (SUCCESS_RETURN, if statusp then some r.exit_status else none) := by
  have ha := read_addr st p r h
  simp only [thr_join, Lib.bind_apply, Lib.get, hfind, Lib.deref, h, hflag, htid,
    lock_meta_free st p r h hm, Lib.store, Lib.modify, read_update, Option.map_some', ha,
    if_true, ne_eq, not_true, or_self, if_false, thr_join_loop, hstate, update_update]
  rw [unlock_meta_some _ p _ (by rw [read_update, h]; simp [ha]; rfl)]
  simp only [update_update]
  rw [free_thr_stack_spec _ p _ (by rw [read_update, h]; simp [ha]; rfl) (by simpa using hroot)
    (by simpa using htm) (by simpa using hfm)]
  simp [Lib.pure_apply, mutex_unlock_locked _ hm]

theorem thr_join_blocks (st : thr_lib) (tid : Int) (statusp : Bool) (ebp p j : Nat)
    (r : thr_stack_meta) (q : List Nat) (hfind : find_thread_meta_by_tid st tid = some p)
    (h : st.read p = some r) (htid : r.tid = tid) (hflag : r.join_flag ≠ JOINING)
    (hstate : r.thr_state ≠ TERMINATED) (hm : mutex_free r.meta_mutex)
    (hv : r.meta_cv.valid = COND_INITIALIZED) (hcm : mutex_free r.meta_cv.cond_mutex)
    (hq : r.meta_cv.cond_queue = some q) (hj : find_current_thread_meta st ebp = some j) :
    thr_join tid statusp ebp st = .stopped
      (st.update p fun x =>
        { x with join_flag := JOINING, meta_mutex := mutex_cycled r.meta_mutex,
                 meta_cv := { r.meta_cv with cond_queue := some (q ++ [j]),
                                             cond_mutex := mutex_cycled r.meta_cv.cond_mutex } })
      .blocked := by
  have ha := read_addr st p r h
  simp [thr_join, Lib.bind_apply, Lib.get, hfind, Lib.deref, h, hflag, htid,
    lock_meta_free st p r h hm, Lib.store, Lib.modify, read_update, ha,
    thr_join_loop, hstate, update_update, cond_wait_meta, find_current_update, hj,
    cond_wait, hv, COND_INITIALIZED, COND_UNINITIALIZED, mutex_lock_free _ hcm, append_thread,
    hq, mutex_unlock_locked _ hcm, mutex_unlock_locked _ hm, Lib.stop]

theorem thr_exit_signals (env : Env) (st : thr_lib) (p status ebp j k : Nat)
    (r : thr_stack_meta) (rest : List Nat)
    (hcur : find_current_thread_meta st ebp = some p) (h : st.read p = some r)
    (hm : mutex_free r.meta_mutex) (hflag : r.join_flag = JOINING)
    (hcm : mutex_free r.meta_cv.cond_mutex) (hq : r.meta_cv.cond_queue = some (j :: rest))
    (hk : env.kern (st.tid_at j) = .accepted k) :
    thr_exit env status ebp st = .stopped
      ((st.update p fun x =>
          { x with exit_status := status, thr_state := TERMINATED,
                   meta_mutex := mutex_cycled r.meta_mutex,
                   meta_cv := { r.meta_cv with cond_queue := some rest,
                                               cond_mutex := mutex_cycled r.meta_cv.cond_mutex } }).log
        (rejected_attempts k (st.tid_at j) ++ [Call.make_runnable (st.tid_at j) 0]))
      .vanished := by
  have ha := read_addr st p r h
  simp [thr_exit, Lib.bind_apply, Lib.get, hcur, lock_meta_free st p r h hm, Lib.store,
    Lib.modify, Lib.deref, read_update, h, ha, hflag, Lib.pure_apply,
    unlock_meta, update_update, Lib.stop, mutex_unlock_locked _ hm, cond_signal_meta,
    cond_signal, mutex_lock_free _ hcm, hq, tid_at_update, signal_loop, hk,
    mutex_unlock_locked _ hcm]

theorem thr_join_wake_terminated (st : thr_lib) (statusp : Bool) (ebp p : Nat)
    (r : thr_stack_meta) (h : st.read p = some r)
    (hstate : r.thr_state = TERMINATED) (hroot : r.root ≠ IS_ROOT)
    (hm : mutex_free r.meta_mutex)
    (htm : mutex_free st.g_thr_table_mutex) (hfm : mutex_free st.g_free_stk_table_mutex) :
    thr_join_wake p statusp ebp st = .returned
      { (st.update p fun x => { x with meta_mutex := mutex_cycled r.meta_mutex }) with
        g_thr_table := st.g_thr_table.erase p,
        g_thr_table_mutex := mutex_cycled st.g_thr_table_mutex,
        g_free_stk_table := st.g_free_stk_table ++ [p],
        g_free_stk_table_mutex := mutex_cycled st.g_free_stk_table_mutex }
      (SUCCESS_RETURN, if statusp then some r.exit_status else none) := by
  have ha := read_addr st p r h
  simp only [thr_join_wake, Lib.bind_apply, lock_meta_free st p r h hm, Lib.deref,
    read_update, Option.map_some', ha, if_true, thr_join_loop, hstate, ne_eq, not_true,
    if_false, h]
  rw [unlock_meta_some _ p _ (by rw [read_update, h]; simp [ha]; rfl)]
  simp only [update_update]
  rw [free_thr_stack_spec _ p _ (by rw [read_update, h]; simp [ha]; rfl) (by simpa using hroot)
    (by simpa using htm) (by simpa using hfm)]
  simp [Lib.pure_apply, mutex_unlock_locked _ hm]

/-! ### Claims about the thread lifecycle -/

/-- C16: let the record at `p` be in the thread table under the tid `tid`,
be that of the running thread T (found from T's frame pointer `ebp`), not the
root, not yet joined, with its mutex free and nobody waiting on its condition
variable; let the table mutexes be free and the joiner's record be `j`.  If T
calls `thr_exit(status)` and the first `thr_join` on `tid` comes after it, the
join returns 0 and hands over `status` exactly when the status pointer is
non-NULL; if the join comes first it blocks, `thr_exit(status)` wakes the
joiner, and the join then returns 0 with `status` in the same way.  In both
orders the record is afterwards not in the thread table and is the last
element of the free-stack list. -/
theorem thr_join_returns_exit_status (env : Env) (st : thr_lib) (tid : Int)
    (status ebp ebpj p j k : Nat) (r : thr_stack_meta)
    (hcur : find_current_thread_meta st ebp = some p)
    (hfind : find_thread_meta_by_tid st tid = some p)
    (h : st.read p = some r) (htid : r.tid = tid)
    (hflag : r.join_flag = NOTJOINING) (hstate : r.thr_state = RUNNABLE)
    (hroot : r.root = IS_NOT_ROOT)
    (hm : mutex_free r.meta_mutex) (hv : r.meta_cv.valid = COND_INITIALIZED)
    (hcm : mutex_free r.meta_cv.cond_mutex) (hq : r.meta_cv.cond_queue = some [])
    (htm : mutex_free st.g_thr_table_mutex) (hfm : mutex_free st.g_free_stk_table_mutex)
    (hnd : st.g_thr_table.Nodup)
    (hj : find_current_thread_meta st ebpj = some j)
    (hk : env.kern (st.tid_at j) = .accepted k) :
    (∃ st1, thr_exit env status ebp st = .stopped st1 .vanished ∧
      ∀ statusp, ∃ st2,
        thr_join tid statusp ebpj st1 =
          .returned st2 (SUCCESS_RETURN, if statusp then some status else none) ∧
        p ∉ st2.g_thr_table ∧ st2.g_free_stk_table.getLast? = some p) ∧
    (∀ statusp, ∃ st1, thr_join tid statusp ebpj st = .stopped st1 .blocked ∧
      ∃ st2, thr_exit env status ebp st1 = .stopped st2 .vanished ∧
        made_runnable st2.calls = made_runnable st.calls ++ [st.tid_at j] ∧
        ∃ st3,
          thr_join_wake p statusp ebpj st2 =
            .returned st3 (SUCCESS_RETURN, if statusp then some status else none) ∧
          p ∉ st3.g_thr_table ∧ st3.g_free_stk_table.getLast? = some p) := by
  have ha := read_addr st p r h
  have hnj : r.join_flag ≠ JOINING := by rw [hflag]; decide
  have hnt : r.thr_state ≠ TERMINATED := by rw [hstate]; decide
  have hnr : r.root ≠ IS_ROOT := by rw [hroot]; decide
  constructor
  · refine ⟨_, thr_exit_alone env st p status ebp r hcur h hm hnj, ?_⟩
    intro statusp
    exact ⟨_, thr_join_terminated _ tid statusp ebpj p
        { r with exit_status := status, thr_state := TERMINATED,
                 meta_mutex := mutex_cycled r.meta_mutex }
        ((find_tid_update _ _ _ _ (by intro x; rfl)).trans hfind)
        (by rw [read_update_self _ _ _ _ h]) htid hnj rfl hnr
        (mutex_cycled_free _ hm) htm hfm,
      by simpa using hnd.not_mem_erase, by simp⟩
  · intro statusp
    refine ⟨_, thr_join_blocks st tid statusp ebpj p j r [] hfind h htid hnj hnt hm hv hcm hq hj,
      ?_⟩
    refine ⟨_, thr_exit_signals env _ p status ebp j k
        { r with join_flag := JOINING, meta_mutex := mutex_cycled r.meta_mutex,
                 meta_cv := { r.meta_cv with cond_queue := some ([] ++ [j]),
                                             cond_mutex := mutex_cycled r.meta_cv.cond_mutex } }
        []
        ((find_current_update _ _ _ _ (by intro x; rfl) (by intro x; rfl)).trans hcur)
        (by rw [read_update_self _ _ _ _ h]) (mutex_cycled_free _ hm) rfl
        (mutex_cycled_free _ hcm) rfl
        ((congrArg env.kern (tid_at_update _ _ _ _ (by intro x; rfl))).trans hk), ?_, ?_⟩
    · simp [thr_lib.log, tid_at_update, made_runnable_append, rejected_attempts_made,
        made_runnable]
    · exact ⟨_, thr_join_wake_terminated _ statusp ebpj p
          { r with join_flag := JOINING, exit_status := status, thr_state := TERMINATED,
                   meta_mutex := mutex_cycled (mutex_cycled r.meta_mutex),
                   meta_cv := { r.meta_cv with
                     cond_queue := some [],
                     cond_mutex := mutex_cycled (mutex_cycled r.meta_cv.cond_mutex) } }
          (by rw [read_log, update_update, read_update_self _ _ _ _ h]) rfl hnr
          (mutex_cycled_free _ (mutex_cycled_free _ hm)) htm hfm,
        by simpa [thr_lib.log] using hnd.not_mem_erase, by simp [thr_lib.log]⟩

/-- C16 (witness): after `thr_init(4096)` and `thr_create(f, 7)` the new
thread, tid 5, runs on the stack below `0xFFFFE000`, and the root thread
joins it.  In both orders of `thr_exit(7)` and `thr_join(5, &s)` the join
returns 0 with `s = 7`. -/
theorem thr_join_returns_exit_status_witness :
    find_thread_meta_by_tid lib_running 5 = some 4294958976 ∧
    find_current_thread_meta lib_running 4294959000 = some 4294958976 ∧
    find_current_thread_meta lib_running 4294967000 = some 16777216 ∧
    (∃ st1, thr_exit env_sample 7 4294959000 lib_running = .stopped st1 .vanished ∧
      ∃ st2, thr_join 5 true 4294967000 st1 = .returned st2 (SUCCESS_RETURN, some 7) ∧
        4294958976 ∉ st2.g_thr_table ∧ st2.g_free_stk_table.getLast? = some 4294958976) ∧
    (∃ st1, thr_join 5 true 4294967000 lib_running = .stopped st1 .blocked ∧
      ∃ st2, thr_exit env_sample 7 4294959000 st1 = .stopped st2 .vanished ∧
        ∃ st3, thr_join_wake 4294958976 true 4294967000 st2 =
            .returned st3 (SUCCESS_RETURN, some 7) ∧
          4294958976 ∉ st3.g_thr_table ∧
          st3.g_free_stk_table.getLast? = some 4294958976) := by
  have w := thr_join_returns_exit_status env_sample lib_running 5 7 4294959000 4294967000
    4294958976 16777216 0
    { addr := 4294958976, func := 77, arg := 7, thr_state := 1, root := 0, tid := 5,
      rw_type := -1, join_flag := 0, exit_status := 0, meta_mutex := ⟨1, 2, 2⟩,
      meta_cv := ⟨1, some [], ⟨1, 1, 1⟩⟩, stack_high := 4294959104, stack_low := 4294950912 }
    (by decide) (by decide) (by decide) (by decide) (by decide) (by decide) (by decide)
    (by decide) (by decide) (by decide) (by decide) (by decide) (by decide) (by decide)
    (by decide) (by decide)
  refine ⟨by decide, by decide, by decide, ?_, ?_⟩
  · obtain ⟨st1, h1, h2⟩ := w.1
    exact ⟨st1, h1, h2 true⟩
  · obtain ⟨st1, h1, st2, h2, _, h3⟩ := w.2 true
    exact ⟨st1, h1, st2, h2, h3⟩

theorem read_with_tables (st : thr_lib) (q : Nat) (t f : List Nat) (tm fm : mutex_t) :
    ({ st with g_thr_table := t, g_thr_table_mutex := tm, g_free_stk_table := f,
               g_free_stk_table_mutex := fm } : thr_lib).read q = st.read q := rfl

theorem find_tid_erased (st st2 : thr_lib) (p : Nat) (tid : Int)
    (hmem : ∀ q, (st2.read q).map (fun x => x.tid) = (st.read q).map (fun x => x.tid))
    (htab : st2.g_thr_table = st.g_thr_table.erase p) (hnd : st.g_thr_table.Nodup)
    (huniq : ∀ q ∈ st.g_thr_table, q ≠ p → st.tid_at q ≠ tid) :
    find_thread_meta_by_tid st2 tid = none := by
  unfold find_thread_meta_by_tid
  split
  · rfl
  · split
    · rfl
    · rw [List.find?_eq_none]
      intro q hq
      rw [htab, hnd.mem_erase_iff] at hq
      have hm := hmem q
      cases h2 : st2.read q with
      | none => simp
      | some x =>
        rw [h2] at hm
        cases h1 : st.read q with
        | none => rw [h1] at hm; simp at hm
        | some y =>
          rw [h1] at hm
          simp at hm
          have := huniq q hq.2 hq.1
          simp only [thr_lib.tid_at, h1] at this
          simp [hm, this]

theorem tid_read_update (st : thr_lib) (p q : Nat) (f : thr_stack_meta → thr_stack_meta)
    (ht : ∀ x, (f x).tid = x.tid) :
    ((st.update p f).read q).map (fun x => x.tid) = (st.read q).map (fun x => x.tid) := by
  rw [read_update]
  cases st.read q with
  | none => rfl
  | some x => by_cases hx : x.addr = p <;> simp [hx, ht]

/-- C17 (counterexample to the claim as stated): after `thr_init(4096)`,
`thr_create(f, 7)`, `thr_exit(7)` in the new thread and a first
`thr_join(5, &s)` that returned 0, a second `thr_join(5, &s)` returns
`ERROR_INVALID_TID`, which is not `ERROR_MULTIPLE_JOINS`. -/
theorem thr_join_again_invalid_tid :
    thr_exit env_sample 7 4294959000 lib_running = .stopped lib_exited .vanished ∧
    thr_join 5 true 4294967000 lib_exited = .returned lib_joined (SUCCESS_RETURN, some 7) ∧
    thr_join 5 true 4294967000 lib_joined = .returned lib_joined (ERROR_INVALID_TID, none) ∧
    ERROR_INVALID_TID ≠ ERROR_MULTIPLE_JOINS := by
  decide

/-- C17 (amended): let the record at `p` be the only one in the thread table
with the tid `tid`, not the root and not yet joined, with its mutex and the
table mutexes free.  While the target has not terminated, the first
`thr_join` blocks and every further `thr_join` on `tid` returns
`ERROR_MULTIPLE_JOINS`.  Once the target has terminated, the first `thr_join`
(or its continuation after waking) returns 0, and every further `thr_join` on
`tid` returns `ERROR_INVALID_TID`, because the record has left the thread
table.  No further join returns 0. -/
theorem thr_join_succeeds_once (st : thr_lib) (tid : Int) (statusp : Bool) (ebp p : Nat)
    (r : thr_stack_meta)
    (hfind : find_thread_meta_by_tid st tid = some p)
    (h : st.read p = some r) (htid : r.tid = tid)
    (hflag : r.join_flag = NOTJOINING) (hroot : r.root = IS_NOT_ROOT)
    (hm : mutex_free r.meta_mutex)
    (htm : mutex_free st.g_thr_table_mutex) (hfm : mutex_free st.g_free_stk_table_mutex)
    (hnd : st.g_thr_table.Nodup)
    (huniq : ∀ q ∈ st.g_thr_table, q ≠ p → st.tid_at q ≠ tid) :
    (r.thr_state ≠ TERMINATED → r.meta_cv.valid = COND_INITIALIZED →
      mutex_free r.meta_cv.cond_mutex → (∃ q, r.meta_cv.cond_queue = some q) →
      (∃ j, find_current_thread_meta st ebp = some j) →
      ∃ st1, thr_join tid statusp ebp st = .stopped st1 .blocked ∧
        ∀ statusp2 ebp2, thr_join tid statusp2 ebp2 st1 =
          .returned st1 (ERROR_MULTIPLE_JOINS, none)) ∧
    (r.thr_state = TERMINATED →
      (∃ st2 v, thr_join tid statusp ebp st = .returned st2 (SUCCESS_RETURN, v) ∧
        ∀ statusp2 ebp2, thr_join tid statusp2 ebp2 st2 =
          .returned st2 (ERROR_INVALID_TID, none)) ∧
      (∃ st2 v, thr_join_wake p statusp ebp st = .returned st2 (SUCCESS_RETURN, v) ∧
        ∀ statusp2 ebp2, thr_join tid statusp2 ebp2 st2 =
          .returned st2 (ERROR_INVALID_TID, none))) ∧
    ERROR_MULTIPLE_JOINS ≠ SUCCESS_RETURN ∧ ERROR_INVALID_TID ≠ SUCCESS_RETURN := by
  have hnj : r.join_flag ≠ JOINING := by rw [hflag]; decide
  have hnr : r.root ≠ IS_ROOT := by rw [hroot]; decide
  refine ⟨?_, ?_, by decide, by decide⟩
  · intro hnt hv hcm ⟨q, hq⟩ ⟨j, hj⟩
    refine ⟨_, thr_join_blocks st tid statusp ebp p j r q hfind h htid hnj hnt hm hv hcm hq hj,
      ?_⟩
    intro statusp2 ebp2
    exact thr_join_joining _ tid statusp2 ebp2 p
      { r with join_flag := JOINING, meta_mutex := mutex_cycled r.meta_mutex,
               meta_cv := { r.meta_cv with cond_queue := some (q ++ [j]),
                                           cond_mutex := mutex_cycled r.meta_cv.cond_mutex } }
      ((find_tid_update _ _ _ _ (by intro x; rfl)).trans hfind)
      (by rw [read_update_self _ _ _ _ h]) rfl
  · intro hterm
    constructor
    · refine ⟨_, _, thr_join_terminated st tid statusp ebp p r hfind h htid hnj hterm hnr hm
        htm hfm, ?_⟩
      intro statusp2 ebp2
      exact thr_join_invalid _ tid statusp2 ebp2
        (find_tid_erased st _ p tid
          (fun q => (congrArg _ (read_with_tables _ q _ _ _ _)).trans
            (tid_read_update st p q _ (by intro x; rfl)))
          rfl hnd huniq)
    · refine ⟨_, _, thr_join_wake_terminated st statusp ebp p r h hterm hnr hm htm hfm, ?_⟩
      intro statusp2 ebp2
      exact thr_join_invalid _ tid statusp2 ebp2
        (find_tid_erased st _ p tid
          (fun q => (congrArg _ (read_with_tables _ q _ _ _ _)).trans
            (tid_read_update st p q _ (by intro x; rfl)))
          rfl hnd huniq)

/-- C17 (witness): in `lib_running` the thread with tid 5 is alive, the root
thread's join blocks and a second join returns `ERROR_MULTIPLE_JOINS`; in
`lib_exited` the thread has terminated, the join returns 0 and a second join
returns `ERROR_INVALID_TID`. -/
theorem thr_join_succeeds_once_witness :
    find_thread_meta_by_tid lib_running 5 = some 4294958976 ∧
    find_thread_meta_by_tid lib_exited 5 = some 4294958976 ∧
    (∃ st1, thr_join 5 true 4294967000 lib_running = .stopped st1 .blocked ∧
      thr_join 5 true 4294967000 st1 = .returned st1 (ERROR_MULTIPLE_JOINS, none)) ∧
    (∃ st2 v, thr_join 5 true 4294967000 lib_exited = .returned st2 (SUCCESS_RETURN, v) ∧
      thr_join 5 true 4294967000 st2 = .returned st2 (ERROR_INVALID_TID, none)) := by
  have w1 := (thr_join_succeeds_once lib_running 5 true 4294967000 4294958976
    { addr := 4294958976, func := 77, arg := 7, thr_state := 1, root := 0, tid := 5,
      rw_type := -1, join_flag := 0, exit_status := 0, meta_mutex := ⟨1, 2, 2⟩,
      meta_cv := ⟨1, some [], ⟨1, 1, 1⟩⟩, stack_high := 4294959104, stack_low := 4294950912 }
    (by decide) (by decide) (by decide) (by decide) (by decide) (by decide) (by decide)
    (by decide) (by decide) (by decide)).1
    (by decide) (by decide) (by decide) ⟨[], rfl⟩ ⟨16777216, by decide⟩
  have w2 := ((thr_join_succeeds_once lib_exited 5 true 4294967000 4294958976
    { addr := 4294958976, func := 77, arg := 7, thr_state := 4, root := 0, tid := 5,
      rw_type := -1, join_flag := 0, exit_status := 7, meta_mutex := ⟨1, 3, 3⟩,
      meta_cv := ⟨1, some [], ⟨1, 1, 1⟩⟩, stack_high := 4294959104, stack_low := 4294950912 }
    (by decide) (by decide) (by decide) (by decide) (by decide) (by decide) (by decide)
    (by decide) (by decide) (by decide)).2.1 (by decide)).1
  refine ⟨by decide, by decide, ?_, ?_⟩
  · obtain ⟨st1, h1, h2⟩ := w1
    exact ⟨st1, h1, h2 true 4294967000⟩
  · obtain ⟨st2, v, h1, h2⟩ := w2
    exact ⟨st2, v, h1, h2 true 4294967000⟩

theorem malloc_init_done (ms : malloc_state) (h : ms.mutex_initialized = true) :
    malloc_init ms = (ms, ERROR_DOUBLE_INITIALIZATION) := by
  simp [malloc_init, h]

theorem mutex_init_at_ret (mp : mutex_t) :
    (mutex_init_at mp).2 = SUCCESS_RETURN ∨ (mutex_init_at mp).2 < 0 := by
  by_cases hc : mp.valid = LOCK_INITIALIZED ∧ mp.ticket_num ≠ 0
  · right
    simp [mutex_init_at, mutex_init, hc, ERROR_INIT_ON_USE]
  · left
    simp only [mutex_init_at, mutex_init, hc, if_false]

theorem malloc_init_flag (ms : malloc_state) (h : ¬ (malloc_init ms).2 < 0) :
    (malloc_init ms).1.mutex_initialized = true := by
  unfold malloc_init at h ⊢
  by_cases hi : ms.mutex_initialized = true
  · simp [hi]
  · simp only [hi, Bool.not_eq_true] at h ⊢
    simp only [Bool.not_false, if_true] at h ⊢
    rcases mutex_init_at_ret ms.heap_mutex with ha | ha
    · simp [ha]
    · exfalso
      have hne : (mutex_init_at ms.heap_mutex).2 ≠ SUCCESS_RETURN := by
        intro he
        rw [he] at ha
        exact absurd ha (by decide)
      simp only [hne, if_false] at h
      exact h ha

/-- C19: once a call of `thr_init` has returned success, `malloc.c` holds
`mutex_initialized = true`, which only `malloc_init` writes.  From then on
every call of `thr_init`, whatever its argument and whatever the state of the
thread library, ends in `panic` and does not return; the thread table, the
free-stack list and every record are as they were before the call (the call
has at most overwritten the per-thread stack size). -/
theorem thr_init_twice_panics (env env2 : Env) (size size2 : Nat)
    (g g1 : malloc_state × thr_lib) (ms2 : malloc_state) (st2 : thr_lib)
    (hfirst : thr_init env size g = .returned g1 SUCCESS_RETURN)
    (hms : ms2.mutex_initialized = g1.1.mutex_initialized) :
    ∃ s, thr_init env2 size2 (ms2, st2) = .stopped s .panicked ∧
      s.1 = ms2 ∧ s.2.g_thr_table = st2.g_thr_table ∧
      s.2.g_free_stk_table = st2.g_free_stk_table ∧ s.2.mem = st2.mem := by
  have hflag : g1.1.mutex_initialized = true := by
    unfold thr_init at hfirst
    split at hfirst
    · simp at hfirst
    · simp only at hfirst
      split at hfirst
      · simp at hfirst
      · rename_i hneg
        split at hfirst
        · simp only [Outcome.returned.injEq] at hfirst
          rw [← hfirst.1]
          exact malloc_init_flag _ hneg
        · simp at hfirst
  have h2 : ms2.mutex_initialized = true := hms.trans hflag
  unfold thr_init install_swexn
  by_cases hs : env2.swexn_ok = true
  · refine ⟨(ms2, { st2 with
        g_thr_stack_size := round_up_stack_size (add32 size2 env2.meta_size) }),
      ?_, rfl, rfl, rfl, rfl⟩
    simp only [hs, if_true, Lib.pure_apply, malloc_init_done ms2 h2]
    rw [if_pos (by decide)]
  · refine ⟨(ms2, st2), ?_, rfl, rfl, rfl, rfl⟩
    simp [hs, Lib.stop]

/-- C19 (witness): `thr_init(4096)` on the program's initial state returns
success; a second `thr_init(4096)` after `thr_create(f, 7)` panics with the
root record and the new record still in the thread table. -/
theorem thr_init_twice_panics_witness :
    thr_init env_sample 4096 (malloc_boot, lib_boot) =
      .returned (⟨⟨1, 0, 0⟩, true⟩, lib_ready) SUCCESS_RETURN ∧
    ∃ s, thr_init env_sample 4096 (⟨⟨1, 0, 0⟩, true⟩, lib_running) = .stopped s .panicked ∧
      s.2.g_thr_table = [16777216, 4294958976] := by
  have w := thr_init_twice_panics env_sample env_sample 4096 4096 (malloc_boot, lib_boot)
    (⟨⟨1, 0, 0⟩, true⟩, lib_ready) ⟨⟨1, 0, 0⟩, true⟩ lib_running (by decide) rfl
  obtain ⟨s, h1, _, h2, _, _⟩ := w
  exact ⟨by decide, s, h1, h2.trans (by decide)⟩

/-- C18 (the code at the failing input): after `thr_init(4096)`, the call
`thr_create(NULL, 7)` returns `ERROR_THR_CREATE_FAILED` and leaves the record
it had mapped at `0xFFFFDF80` on the free-stack list, outside the thread
table, with its mutex and condition variable never initialized
(`initialize_stack_meta` returns on `func == NULL` before it reaches
`mutex_init` and `cond_init`).  A following `thr_create(f, 7)` takes that
record from the free-stack list with `first_init = false`; the fork returns
the tid 5, and the call stores the tid and RUNNABLE in the record and then
dereferences the NULL `cond_queue` in `cond_signal`: it does not return 5. -/
theorem thr_create_reuses_uninitialized_record :
    thr_create env_sample 0 7 lib_ready =
      .returned lib_null_create ERROR_THR_CREATE_FAILED ∧
    lib_null_create.g_thr_table = [16777216] ∧
    lib_null_create.g_free_stk_table = [4294958976] ∧
    lib_null_create.read 4294958976 = some (meta_zero 4294958976) ∧
    env_sample.fork_ret = 5 ∧
    thr_create env_sample 77 7 lib_null_create =
      .stopped (thr_create env_sample 77 7 lib_null_create).state .faulted ∧
    (thr_create env_sample 77 7 lib_null_create).state.g_thr_table =
      [16777216, 4294958976] ∧
    ((thr_create env_sample 77 7 lib_null_create).state.read 4294958976).map
      (fun x => (x.tid, x.thr_state, x.meta_cv)) = some (5, RUNNABLE, ⟨0, none, ⟨0, 0, 0⟩⟩) := by
  decide

/-- The same reuse after a failed `malloc`: when `cond_init` fails in the
first `thr_create(f, 7)`, the record goes to the free-stack list with an
initialized mutex and a condition variable that has no queue; the next
`thr_create(f, 7)`, whose fork returns 5, faults in `cond_signal`. -/
theorem thr_create_after_malloc_failure :
    thr_create env_no_malloc 77 7 lib_ready =
      .returned (thr_create env_no_malloc 77 7 lib_ready).state
        ERROR_THR_CREATE_FAILED ∧
    (thr_create env_no_malloc 77 7 lib_ready).state.g_free_stk_table =
      [4294958976] ∧
    thr_create env_sample 77 7
        (thr_create env_no_malloc 77 7 lib_ready).state =
      .stopped
        (thr_create env_sample 77 7
          (thr_create env_no_malloc 77 7 lib_ready).state).state
        .faulted := by
  decide

/-- The other paths of `thr_create` on the state after `thr_init(4096)`.
When everything succeeds the call returns the tid 5 and the new record, in
the thread table, has tid 5 and state RUNNABLE.  When the fork fails the call
returns `ERROR_THR_CREATE_FAILED` with the record on the free-stack list and
not in the thread table; when `new_pages` fails it returns
`ERROR_THR_CREATE_FAILED` and there is no record.  In both failures a lookup
of tid 5 finds nothing. -/
theorem thr_create_sample_paths :
    thr_create env_sample 77 7 lib_ready = .returned lib_running 5 ∧
    lib_running.g_thr_table = [16777216, 4294958976] ∧
    (lib_running.read 4294958976).map (fun x => (x.tid, x.thr_state)) = some (5, RUNNABLE) ∧
    thr_create env_no_fork 77 7 lib_ready =
      .returned (thr_create env_no_fork 77 7 lib_ready).state ERROR_THR_CREATE_FAILED ∧
    (thr_create env_no_fork 77 7 lib_ready).state.g_thr_table = [16777216] ∧
    (thr_create env_no_fork 77 7 lib_ready).state.g_free_stk_table = [4294958976] ∧
    find_thread_meta_by_tid (thr_create env_no_fork 77 7 lib_ready).state 5 = none ∧
    thr_create env_no_pages 77 7 lib_ready =
      .returned (thr_create env_no_pages 77 7 lib_ready).state ERROR_THR_CREATE_FAILED ∧
    (thr_create env_no_pages 77 7 lib_ready).state.g_thr_table = [16777216] ∧
    (thr_create env_no_pages 77 7 lib_ready).state.g_free_stk_table = [] ∧
    find_thread_meta_by_tid (thr_create env_no_pages 77 7 lib_ready).state 5 = none := by
  decide

/-! ## Round trips -/

theorem write_downgrade_unlock_idle (env : Int → Nat) (self : thr_stack_meta_t) (rw : rwlock_t)
    (hv : rw.valid = true) (hm : mutex_free rw.data_mutex) (hmo : rw.mode = RW_UNLOCKED)
    (hc : rw.reader_count = 0) (hq : rw.waiting_rw = []) :
    write_downgrade_unlock env self rw =
      some { rw with data_mutex := mutex_cycled (mutex_cycled (mutex_cycled rw.data_mutex)) } := by
  have h1 := rwlock_lock_write_unlocked rw self hv hm hmo
  have h2 := rwlock_downgrade_no_reader env
    { rw with data_mutex := mutex_cycled rw.data_mutex, mode := RW_WRITING }
    hv (mutex_cycled_free _ hm) rfl (Or.inl hq)
  have h3 := rwlock_unlock_empty env
    { rw with data_mutex := mutex_cycled (mutex_cycled rw.data_mutex),
              reader_count := rw.reader_count + 1, mode := RW_READING }
    hv (mutex_cycled_free _ (mutex_cycled_free _ hm)) (Or.inr ⟨rfl, by simp [hc]⟩) hq
  simp only [write_downgrade_unlock, h1, h2, h3]
  cases rw
  simp_all [RW_READING]

theorem write_downgrade_unlock_times_idle (env : Int → Nat) (self : thr_stack_meta_t) (n : Nat)
    (rw : rwlock_t)
    (hv : rw.valid = true) (hm : mutex_free rw.data_mutex) (hmo : rw.mode = RW_UNLOCKED)
    (hc : rw.reader_count = 0) (hq : rw.waiting_rw = []) :
    ∃ rw1, write_downgrade_unlock_times env self n rw = some rw1 ∧ rw1.valid = true ∧
      mutex_free rw1.data_mutex ∧ rw1.mode = RW_UNLOCKED ∧ rw1.reader_count = 0 ∧
      rw1.waiting_rw = [] := by
  induction n generalizing rw with
  | zero => exact ⟨rw, rfl, hv, hm, hmo, hc, hq⟩
  | succ k ih =>
    simp only [write_downgrade_unlock_times,
      write_downgrade_unlock_idle env self rw hv hm hmo hc hq]
    exact ih _ hv (mutex_cycled_free _ (mutex_cycled_free _ (mutex_cycled_free _ hm))) hmo hc hq

/-- C23: on a valid reader/writer lock in mode UNLOCKED with `reader_count`
0, an empty wait queue and a free data mutex, which is what a successful
`rwlock_init` leaves, `rwlock_lock(WRITE)` returns at once with the lock in
mode WRITING, `rwlock_downgrade` makes it READING with `reader_count` 1 and
wakes nobody, and `rwlock_unlock` leaves mode UNLOCKED, `reader_count` 0 and
an empty queue: the lock is as before but for the tickets of its data mutex.
No call deschedules or waits, and the sequence can be repeated any number of
times with the same result. -/
theorem rwlock_write_downgrade_unlock (env : Int → Nat) (self : thr_stack_meta_t)
    (rw : rwlock_t)
    (hv : rw.valid = true) (hm : mutex_free rw.data_mutex) (hmo : rw.mode = RW_UNLOCKED)
    (hc : rw.reader_count = 0) (hq : rw.waiting_rw = []) :
    rwlock_lock rw self RWLOCK_WRITE =
      some ({ rw with data_mutex := mutex_cycled rw.data_mutex, mode := RW_WRITING },
            [], .acquired) ∧
    rwlock_downgrade env { rw with data_mutex := mutex_cycled rw.data_mutex, mode := RW_WRITING } =
      some ({ rw with data_mutex := mutex_cycled (mutex_cycled rw.data_mutex),
                      reader_count := 1, mode := RW_READING }, [], []) ∧
    rwlock_unlock env { rw with data_mutex := mutex_cycled (mutex_cycled rw.data_mutex),
                                reader_count := 1, mode := RW_READING } =
      some ({ rw with data_mutex := mutex_cycled (mutex_cycled (mutex_cycled rw.data_mutex)) },
            true, [], []) ∧
    (∀ n, ∃ rw1, write_downgrade_unlock_times env self n rw = some rw1 ∧
      rw1.mode = RW_UNLOCKED ∧ rw1.reader_count = 0 ∧ rw1.waiting_rw = []) := by
  have h2 := rwlock_downgrade_no_reader env
    { rw with data_mutex := mutex_cycled rw.data_mutex, mode := RW_WRITING }
    hv (mutex_cycled_free _ hm) rfl (Or.inl hq)
  have h3 := rwlock_unlock_empty env
    { rw with data_mutex := mutex_cycled (mutex_cycled rw.data_mutex),
              reader_count := 1, mode := RW_READING }
    hv (mutex_cycled_free _ (mutex_cycled_free _ hm)) (Or.inr ⟨rfl, rfl⟩) hq
  refine ⟨rwlock_lock_write_unlocked rw self hv hm hmo, ?_, ?_, ?_⟩
  · rw [h2]
    simp [hc]
  · rw [h3]
    cases rw
    simp_all [RW_READING]
  · intro n
    obtain ⟨rw1, h1, _, _, h2, h3, h4⟩ :=
      write_downgrade_unlock_times_idle env self n rw hv hm hmo hc hq
    exact ⟨rw1, h1, h2, h3, h4⟩

/-- C23 (witness): the lock left by `rwlock_init`, taken for writing,
downgraded and released by thread 1, twice over. -/
theorem rwlock_write_downgrade_unlock_witness :
    rwlock_init (some ⟨false, ⟨0, 0, 0⟩, [], 0, 0⟩) = (some rwlock_fresh, SUCCESS_RETURN) ∧
    write_downgrade_unlock no_retry ⟨1, RWLOCK_INVALID⟩ rwlock_fresh =
      some { rwlock_fresh with data_mutex := ⟨1, 3, 3⟩ } ∧
    ∃ rw1, write_downgrade_unlock_times no_retry ⟨1, RWLOCK_INVALID⟩ 2 rwlock_fresh = some rw1 ∧
      rw1.mode = RW_UNLOCKED ∧ rw1.reader_count = 0 ∧ rw1.waiting_rw = [] :=
  ⟨by decide, by decide,
    (rwlock_write_downgrade_unlock no_retry ⟨1, RWLOCK_INVALID⟩ rwlock_fresh rfl (by decide)
      rfl rfl rfl).2.2.2 2⟩

/-! ## Autostack handler -/

theorem autostack_handler_decline (np sw : Int) (arg : Nat) (ureg : ureg_t) (s : autostack_t)
    (h : ¬ in_frame ureg) : autostack_handler np sw arg ureg s = .returned s () := by
  unfold autostack_handler
  by_cases hc : ureg.cause = SWEXN_CAUSE_PAGEFAULT
  · rw [if_pos hc]
    have hn : ¬ (ureg.cr2 ≤ ureg.ebp ∧ add32 ureg.cr2 POINTER32 ≥ ureg.esp) := by
      intro ⟨h1, h2⟩
      apply h
      refine ⟨hc, ?_, h1⟩
      have h3 : add32 ureg.cr2 POINTER32 ≤ ureg.cr2 + 4 := by
        unfold add32 POINTER32
        exact Nat.mod_le _ _
      omega
    rw [if_neg hn]
  · rw [if_neg hc]

theorem autostack_handler_grow (np sw : Int) (arg : Nat) (ureg : ureg_t) (s : autostack_t)
    (h : in_frame ureg) (hcr2 : ureg.cr2 + POINTER32 < UINT_RANGE) :
    (autostack_handler np sw arg ureg s).state.g_root_stk_low =
      sub32 s.g_root_stk_low s.g_stack_grow_size ∧
    (autostack_handler np sw arg ureg s).state.g_root_stk_high = s.g_root_stk_high ∧
    (autostack_handler np sw arg ureg s).state.g_stack_grow_size = s.g_stack_grow_size ∧
    (autostack_handler np sw arg ureg s).state.calls =
      s.calls ++
        (SysCall.new_pages (sub32 s.g_root_stk_low s.g_stack_grow_size) s.g_stack_grow_size np ::
          (if np < 0 then [] else [SysCall.swexn s.esp3 arg (some ureg) sw])) := by
  obtain ⟨hc, h1, h2⟩ := h
  have hin : ureg.cr2 ≤ ureg.ebp ∧ add32 ureg.cr2 POINTER32 ≥ ureg.esp := by
    refine ⟨h2, ?_⟩
    unfold add32
    rw [Nat.mod_eq_of_lt hcr2]
    unfold POINTER32
    omega
  unfold autostack_handler
  rw [if_pos hc, if_pos hin]
  by_cases hnp : np < 0
  · simp [hnp, Outcome.state]
  · by_cases hsw : sw < 0
    · simp [hnp, hsw, Outcome.state]
    · simp [hnp, hsw, Outcome.state]

theorem sub32_add_mod (a b : Nat) : (sub32 a b + b) % UINT_RANGE = a % UINT_RANGE := by
  unfold sub32
  rw [UINT_RANGE_eq]
  omega

theorem sub32_of_le (a b : Nat) (ha : a < UINT_RANGE) (hb : b ≤ a) : sub32 a b = a - b := by
  unfold sub32
  rw [UINT_RANGE_eq] at *
  omega

theorem autostack_run_grows (us : List ureg_t) (s : autostack_t)
    (h : ∀ u ∈ us, in_frame u ∧ u.cr2 + POINTER32 < UINT_RANGE) :
    (autostack_run s us).g_root_stk_high = s.g_root_stk_high ∧
    (autostack_run s us).g_stack_grow_size = s.g_stack_grow_size ∧
    ((autostack_run s us).g_root_stk_low + us.length * s.g_stack_grow_size) % UINT_RANGE =
      s.g_root_stk_low % UINT_RANGE ∧
    (s.g_root_stk_low < UINT_RANGE → (autostack_run s us).g_root_stk_low < UINT_RANGE) := by
  induction us generalizing s with
  | nil => simp [autostack_run]
  | cons u rest ih =>
    have hu := h u (List.mem_cons_self _ _)
    have hg := autostack_handler_grow 0 0 0 u s hu.1 hu.2
    have hrest : ∀ v ∈ rest, in_frame v ∧ v.cr2 + POINTER32 < UINT_RANGE :=
      fun v hv => h v (List.mem_cons_of_mem _ hv)
    unfold autostack_run
    cases hr : autostack_handler 0 0 0 u s with
    | returned s1 x =>
      rw [hr] at hg
      simp only [Outcome.state] at hg
      obtain ⟨i1, i2, i3, i4⟩ := ih s1 hrest
      have hlt1 : s1.g_root_stk_low < UINT_RANGE := by
        rw [hg.1]
        unfold sub32
        exact Nat.mod_lt _ (by decide)
      refine ⟨i1.trans hg.2.1, i2.trans hg.2.2.1, ?_, fun _ => i4 hlt1⟩
      rw [hg.2.2.1] at i3
      have e := sub32_add_mod s.g_root_stk_low s.g_stack_grow_size
      rw [← hg.1] at e
      simp only [List.length_cons, Nat.succ_mul]
      generalize rest.length * s.g_stack_grow_size = x at i3 ⊢
      rw [UINT_RANGE_eq] at *
      omega
    | stopped s1 w =>
      exfalso
      unfold autostack_handler at hr
      obtain ⟨⟨hc, h1, h2⟩, hcr2⟩ := hu
      have hin : u.cr2 ≤ u.ebp ∧ add32 u.cr2 POINTER32 ≥ u.esp := by
        refine ⟨h2, ?_⟩
        unfold add32
        rw [Nat.mod_eq_of_lt hcr2]
        unfold POINTER32
        omega
      simp [hc, hin] at hr

/-- C21 (counterexample to the claim as stated): a page fault at the address
`0xFFFFFFFF` with the frame pointer there and the stack pointer at
`0xFFFFFFF8` lies between `esp - 4` and `ebp`, yet the handler leaves the
stack as it is, because `cr2 + 4` is computed modulo `2^32`.  And with the
low bound at 4096 and a grow size of 8192 an in-range fault moves the low
bound to `4096 - 8192` modulo `2^32`, which is `0xFFFFF000`. -/
theorem autostack_top_of_memory :
    in_frame ⟨14, 4294967295, 4294967295, 4294967288⟩ ∧
    autostack_handler 0 0 0 ⟨14, 4294967295, 4294967295, 4294967288⟩ autostack_sample =
      .returned autostack_sample () ∧
    in_frame ⟨14, 4090, 4100, 4092⟩ ∧
    (autostack_handler 0 0 0 ⟨14, 4090, 4100, 4092⟩
      { autostack_sample with g_root_stk_low := 4096 }).state.g_root_stk_low = 4294963200 ∧
    ((4294963200 : Nat) : Int) ≠ 4096 - 1 * 8192 := by
  decide

/-- C21 (amended): for a fault whose address is at most `2^32 - 5`, the
handler lowers the low bound of the root stack exactly when the fault is a
page fault with `esp - 4 ≤ cr2 ≤ ebp`.  It then lowers the bound by the grow
size, modulo `2^32`, and asks `new_pages` for that many bytes at the new
bound, once; otherwise it changes nothing and asks for nothing.  After `n`
such faults, all system calls succeeding, the low bound is the initial one
minus `n` times the grow size modulo `2^32` (exactly that difference while it
is not negative), and the high bound is the initial one. -/
theorem autostack_grows_in_frame (np sw : Int) (arg : Nat) (ureg : ureg_t) (s : autostack_t)
    (hcr2 : ureg.cr2 + POINTER32 < UINT_RANGE) :
    (in_frame ureg →
      (autostack_handler np sw arg ureg s).state.g_root_stk_low =
        sub32 s.g_root_stk_low s.g_stack_grow_size ∧
      (autostack_handler np sw arg ureg s).state.g_root_stk_high = s.g_root_stk_high ∧
      (autostack_handler np sw arg ureg s).state.calls =
        s.calls ++
          (SysCall.new_pages (sub32 s.g_root_stk_low s.g_stack_grow_size) s.g_stack_grow_size np ::
            (if np < 0 then [] else [SysCall.swexn s.esp3 arg (some ureg) sw]))) ∧
    (¬ in_frame ureg → autostack_handler np sw arg ureg s = .returned s ()) ∧
    (∀ us : List ureg_t, (∀ u ∈ us, in_frame u ∧ u.cr2 + POINTER32 < UINT_RANGE) →
      (autostack_run s us).g_root_stk_high = s.g_root_stk_high ∧
      ((autostack_run s us).g_root_stk_low + us.length * s.g_stack_grow_size) % UINT_RANGE =
        s.g_root_stk_low % UINT_RANGE ∧
      (s.g_root_stk_low < UINT_RANGE → us.length * s.g_stack_grow_size ≤ s.g_root_stk_low →
        (autostack_run s us).g_root_stk_low =
          s.g_root_stk_low - us.length * s.g_stack_grow_size)) := by
  refine ⟨fun h => ?_, fun h => autostack_handler_decline np sw arg ureg s h, fun us hus => ?_⟩
  · have hg := autostack_handler_grow np sw arg ureg s h hcr2
    exact ⟨hg.1, hg.2.1, hg.2.2.2⟩
  · obtain ⟨h1, _, h3, h4⟩ := autostack_run_grows us s hus
    refine ⟨h1, h3, ?_⟩
    intro hlow hle
    have hlt := h4 hlow
    generalize us.length * s.g_stack_grow_size = x at h3 hle
    rw [UINT_RANGE_eq] at *
    omega

/-- C21 (witness): with the root stack at `0xFFFFE000 .. 0xFFFFFFF0` and a
grow size of 8192, a page fault just below the stack lowers the low bound to
`0xFFFFC000`, and three such faults lower it by `3 * 8192`. -/
theorem autostack_grows_in_frame_witness :
    in_frame ⟨14, 4294959100, 4294959200, 4294959104⟩ ∧
    (autostack_handler 0 0 0 ⟨14, 4294959100, 4294959200, 4294959104⟩
      autostack_sample).state.g_root_stk_low = 4294950912 ∧
    (autostack_run autostack_sample
      [⟨14, 4294959100, 4294959200, 4294959104⟩, ⟨14, 4294950910, 4294951000, 4294950912⟩,
       ⟨14, 4294942716, 4294942800, 4294942720⟩]).g_root_stk_low = 4294959104 - 3 * 8192 := by
  have w := autostack_grows_in_frame 0 0 0 ⟨14, 4294959100, 4294959200, 4294959104⟩
    autostack_sample (by decide)
  refine ⟨by decide, (w.1 (by decide)).1.trans (by decide), ?_⟩
  exact (w.2.2 [⟨14, 4294959100, 4294959200, 4294959104⟩,
      ⟨14, 4294950910, 4294951000, 4294950912⟩, ⟨14, 4294942716, 4294942800, 4294942720⟩]
    (by decide)).2.2 (by decide) (by decide)

/-- C27 (counterexample to the claim as stated): on a divide error the
handler returns with the statics and the log of system calls as they were;
the only `swexn` call in the log is the one `install_autostack` made, so the
handler has not registered itself again. -/
theorem autostack_decline_no_swexn :
    ¬ in_frame ⟨0, 4294959100, 4294959200, 4294959104⟩ ∧
    autostack_handler 0 0 0 ⟨0, 4294959100, 4294959200, 4294959104⟩ autostack_sample =
      .returned autostack_sample () ∧
    autostack_sample.calls = [SysCall.swexn 17829888 0 none 0] := by
  decide

/-- C27 (amended): for every fault that is not a page fault with
`esp - 4 ≤ cr2 ≤ ebp`, the handler returns with the bounds of the root stack
unchanged and without any system call: it asks for no pages and does not
register itself again. -/
theorem autostack_declines (np sw : Int) (arg : Nat) (ureg : ureg_t) (s : autostack_t)
    (h : ¬ in_frame ureg) :
    autostack_handler np sw arg ureg s = .returned s () ∧
    (autostack_handler np sw arg ureg s).state.g_root_stk_low = s.g_root_stk_low ∧
    (autostack_handler np sw arg ureg s).state.g_root_stk_high = s.g_root_stk_high ∧
    (autostack_handler np sw arg ureg s).state.calls = s.calls := by
  rw [autostack_handler_decline np sw arg ureg s h]
  exact ⟨rfl, rfl, rfl, rfl⟩

/-- C27 (witness): a page fault far above the frame pointer is declined. -/
theorem autostack_declines_witness :
    ¬ in_frame ⟨14, 4294963200, 4294959200, 4294959104⟩ ∧
    autostack_handler 0 0 0 ⟨14, 4294963200, 4294959200, 4294959104⟩ autostack_sample =
      .returned autostack_sample () :=
  ⟨by decide, (autostack_declines 0 0 0 ⟨14, 4294963200, 4294959200, 4294959104⟩
    autostack_sample (by decide)).1⟩

/-! ## Timer driver and stack-size rounding -/

theorem callback_args_append (a b : List TimerOut) :
    callback_args (a ++ b) = callback_args a ++ callback_args b := by
  induction a with
  | nil => rfl
  | cons x xs ih => cases x <;> simp [callback_args, ih]

theorem timer_handler_counts (s : timer_t) (k : Nat) (hk : s.num_ticks = (k : Int))
    (h1 : k < 14551) (hcb : s.tick_callback = true) :
    (timer_int_handler s).num_ticks = ((k + 1 : Nat) : Int) ∧
    (timer_int_handler s).tick_callback = true ∧
    callback_args (timer_int_handler s).out = callback_args s.out ++ [k + 1] := by
  have hmod : ¬ (s.num_ticks ≠ 0 ∧ Int.tmod s.num_ticks TIMER_TICK_CALIBRATE_NUM = 0) := by
    intro ⟨hne, hm⟩
    unfold TIMER_TICK_CALIBRATE_NUM at hm
    rw [Int.tmod_eq_emod (by omega) (by decide)] at hm
    omega
  have hw : wrap32 (s.num_ticks + 1) = ((k + 1 : Nat) : Int) := by
    unfold wrap32
    omega
  have hu : to_u32 ((k + 1 : Nat) : Int) = k + 1 := by
    unfold to_u32
    omega
  unfold timer_int_handler
  simp only [hmod, if_false, hw, hcb, if_true, callback_args_append, callback_args, hu,
    List.append_nil]
  exact ⟨trivial, trivial, trivial⟩

theorem timer_handler_stalls (s : timer_t) (hk : s.num_ticks = 14551) :
    (timer_int_handler s).num_ticks = 14551 ∧
    (timer_int_handler s).tick_callback = s.tick_callback ∧
    callback_args (timer_int_handler s).out = callback_args s.out := by
  have hmod : s.num_ticks ≠ 0 ∧ Int.tmod s.num_ticks TIMER_TICK_CALIBRATE_NUM = 0 := by
    rw [hk]
    decide
  unfold timer_int_handler
  rw [if_pos hmod]
  simp only [callback_args_append, callback_args, List.append_nil]
  exact ⟨hk, trivial, trivial⟩

theorem timer_run_spec (n : Nat) (s : timer_t) (k : Nat) (hk : s.num_ticks = (k : Int))
    (h1 : k ≤ 14551) (hcb : s.tick_callback = true) :
    (timer_run n s).num_ticks = ((min (k + n) 14551 : Nat) : Int) ∧
    callback_args (timer_run n s).out =
      callback_args s.out ++ List.range' (k + 1) (min (k + n) 14551 - k) := by
  induction n generalizing s k with
  | zero =>
    simp only [timer_run, Nat.add_zero, Nat.min_eq_left h1, Nat.sub_self, List.range'_zero,
      List.append_nil]
    exact ⟨hk, trivial⟩
  | succ m ih =>
    unfold timer_run
    by_cases hlt : k < 14551
    · obtain ⟨a1, a2, a3⟩ := timer_handler_counts s k hk hlt hcb
      obtain ⟨b1, b2⟩ := ih (timer_int_handler s) (k + 1) a1 hlt a2
      have e1 : k + 1 + m = k + (m + 1) := by omega
      rw [e1] at b1 b2
      refine ⟨b1, ?_⟩
      rw [b2, a3, List.append_assoc]
      congr 1
      have e2 : min (k + (m + 1)) 14551 - k = (min (k + (m + 1)) 14551 - (k + 1)) + 1 := by
        omega
      rw [e2, List.range'_succ]
      rfl
    · have hk2 : k = 14551 := by omega
      subst hk2
      obtain ⟨a1, a2, a3⟩ := timer_handler_stalls s hk
      obtain ⟨b1, b2⟩ := ih (timer_int_handler s) 14551 a1 (Nat.le_refl _) (a2.trans hcb)
      have e1 : min (14551 + (m + 1)) 14551 = min (14551 + m) 14551 := by omega
      rw [e1]
      exact ⟨b1, by rw [b2, a3]⟩

/-- C29 (the code on every input): after `n` timer interrupts the tick count
is `n` as long as `n ≤ 14551` and stays at 14551 from then on, and the
callback has been called with 1, 2, ..., `min n 14551`.  When the count has
reached 14551 the handler takes the branch that ignores the interrupt, which
leaves the count at 14551, so every later interrupt is ignored as well: after
14553 interrupts the count is 14551, not 14552. -/
theorem timer_ticks_stall (n : Nat) :
    (timer_run n timer_boot).num_ticks = ((min n 14551 : Nat) : Int) ∧
    callback_args (timer_run n timer_boot).out = List.range' 1 (min n 14551) ∧
    (timer_run 14553 timer_boot).num_ticks = 14551 ∧
    (timer_run (14553 + n) timer_boot).num_ticks = 14551 := by
  have h := timer_run_spec n timer_boot 0 rfl (by decide) rfl
  have h2 := timer_run_spec 14553 timer_boot 0 rfl (by decide) rfl
  have h3 := timer_run_spec (14553 + n) timer_boot 0 rfl (by decide) rfl
  simp only [Nat.zero_add, Nat.sub_zero] at h h2 h3
  refine ⟨h.1, ?_, ?_, ?_⟩
  · rw [h.2]
    rfl
  · rw [h2.1]
    rfl
  · rw [h3.1]
    have : min (14553 + n) 14551 = 14551 := by omega
    rw [this]
    rfl

/-- C28 (the code at the failing input): for a size that is a multiple of
the page size `round_up_stack_size` returns the size plus one page: 4096
gives 8192 and 0 gives 4096.  For sizes that are not a multiple it returns
the next multiple. -/
theorem round_up_adds_page :
    PAGE_SIZE = 4096 ∧ round_up_stack_size 4096 = 8192 ∧ round_up_stack_size 0 = 4096 ∧
    round_up_stack_size 8192 = 12288 ∧ round_up_stack_size 4095 = 4096 ∧
    round_up_stack_size 4097 = 8192 := by
  decide

/-- What `round_up_stack_size` computes for every 32-bit size: a multiple of
the page size, namely the least multiple that is greater than the size
whenever that multiple is below `2^32`. -/
theorem round_up_stack_size_spec (size : Nat) (h : size < UINT_RANGE) :
    round_up_stack_size size % PAGE_SIZE = 0 ∧
    ((size / PAGE_SIZE + 1) * PAGE_SIZE < UINT_RANGE →
      round_up_stack_size size = (size / PAGE_SIZE + 1) * PAGE_SIZE) := by
  unfold round_up_stack_size add32 sub32 PAGE_SIZE
  rw [UINT_RANGE_eq] at *
  omega

/-! ## Thread table: stack ranges and free-stack records -/

/-- C24 (the code at the failing input): after `thr_init(4096)` and two
successful `thr_create` calls the thread table holds the root and two
records.  The stack of the first new record is `0xFFFFC000 .. 0xFFFFE000` and
that of the second is `0xFFFFA000 .. 0xFFFFC000`: `stack_high` is the first
address above the region, and the test includes it.  The address
`0xFFFFC000` is in the range of both records, and `0xFFFFE000` is in the
range of the first record and of the root; lookup by such a frame pointer
returns whichever record comes first in the table. -/
theorem stack_ranges_share_boundary :
    lib_two_threads.g_thr_table = [16777216, 4294958976, 4294950784] ∧
    (lib_two_threads.read 16777216).map (fun r => (r.stack_low, r.stack_high)) =
      some (4294959104, 4294967280) ∧
    (lib_two_threads.read 4294958976).map (fun r => (r.stack_low, r.stack_high)) =
      some (4294950912, 4294959104) ∧
    (lib_two_threads.read 4294950784).map (fun r => (r.stack_low, r.stack_high)) =
      some (4294942720, 4294950912) ∧
    stack_holds lib_two_threads 4294958976 4294950912 ∧
    stack_holds lib_two_threads 4294950784 4294950912 ∧
    stack_holds lib_two_threads 16777216 4294959104 ∧
    stack_holds lib_two_threads 4294958976 4294959104 ∧
    find_thread_meta_by_ebp lib_two_threads 4294950912 = some 4294958976 ∧
    find_thread_meta_by_ebp lib_two_threads 4294959104 = some 16777216 := by
  refine ⟨by decide, by decide, by decide, by decide, ⟨by decide, _, rfl, by decide, by decide⟩,
    ⟨by decide, _, rfl, by decide, by decide⟩, ⟨by decide, _, rfl, by decide, by decide⟩,
    ⟨by decide, _, rfl, by decide, by decide⟩, by decide, by decide⟩

/-- C30 (the code at the failing input): after `thr_init(4096)` and
`thr_create(NULL, 7)` the free-stack list holds the record at `0xFFFFDF80`,
and neither its mutex nor its condition variable is initialized.
`allocate_init_thr_stack` then hands out that record with
`first_init = false`, still without an initialized mutex or condition
variable, and the `thr_create` that receives it faults when it signals. -/
theorem free_list_record_not_initialized :
    lib_null_create.g_free_stk_table = [4294958976] ∧
    ¬ record_initialized lib_null_create 4294958976 ∧
    (lib_null_create.read 4294958976).map
        (fun r => (r.meta_mutex.valid, r.meta_cv.valid, r.meta_cv.cond_queue)) =
      some (LOCK_UNINITIALIZED, COND_UNINITIALIZED, none) ∧
    allocate_init_thr_stack env_sample 8192 77 7 lib_null_create =
      .returned (allocate_init_thr_stack env_sample 8192 77 7 lib_null_create).state
        (some 4294958976) ∧
    ¬ record_initialized (allocate_init_thr_stack env_sample 8192 77 7 lib_null_create).state
        4294958976 ∧
    thr_create env_sample 77 7 lib_null_create =
      .stopped (thr_create env_sample 77 7 lib_null_create).state .faulted := by
  refine ⟨by decide, ?_, by decide, by decide, ?_, by decide⟩
  · rintro ⟨r, hr, hm, _⟩
    have : lib_null_create.read 4294958976 = some (meta_zero 4294958976) := by decide
    rw [this] at hr
    cases hr
    exact absurd hm (by decide)
  · rintro ⟨r, hr, hm, _⟩
    have : ((allocate_init_thr_stack env_sample 8192 77 7 lib_null_create).state.read
        4294958976).map (fun r => r.meta_mutex.valid) = some 0 := by decide
    rw [hr] at this
    simp only [Option.map_some', Option.some.injEq] at this
    rw [this] at hm
    exact absurd hm (by decide)

/-! ## `allocate_init_thr_stack` -/

@[simp] theorem update_g_stacks_brk (st : thr_lib) (p : Nat)
    (f : thr_stack_meta → thr_stack_meta) :
    (st.update p f).g_stacks_brk = st.g_stacks_brk := rfl

@[simp] theorem update_g_thr_stack_size (st : thr_lib) (p : Nat)
    (f : thr_stack_meta → thr_stack_meta) :
    (st.update p f).g_thr_stack_size = st.g_thr_stack_size := rfl

@[simp] theorem update_g_root_thr_meta (st : thr_lib) (p : Nat)
    (f : thr_stack_meta → thr_stack_meta) :
    (st.update p f).g_root_thr_meta = st.g_root_thr_meta := rfl

@[simp] theorem update_g_stack_mutex (st : thr_lib) (p : Nat)
    (f : thr_stack_meta → thr_stack_meta) :
    (st.update p f).g_stack_mutex = st.g_stack_mutex := rfl

theorem read_mk_proj (s : thr_lib) (a : Nat) (t f : List Nat) (sz brk : Nat)
    (m1 m2 m3 : mutex_t) (c : List Call) (q : Nat) :
    (thr_lib.mk s.mem a t f sz brk m1 m2 m3 c).read q = s.read q := rfl

theorem update_mk_proj (s : thr_lib) (a : Nat) (t f : List Nat) (sz brk : Nat)
    (m1 m2 m3 : mutex_t) (c : List Call) (p : Nat) (g : thr_stack_meta → thr_stack_meta) :
    (thr_lib.mk s.mem a t f sz brk m1 m2 m3 c).update p g =
      thr_lib.mk (s.update p g).mem a t f sz brk m1 m2 m3 c := rfl

theorem find_free_spot_reuse (env : Env) (st : thr_lib) (size p : Nat) (rest : List Nat)
    (hfree : st.g_free_stk_table = p :: rest) (hfm : mutex_free st.g_free_stk_table_mutex) :
    find_free_spot env size st = .returned
      { st with g_free_stk_table := rest,
                g_free_stk_table_mutex := mutex_cycled st.g_free_stk_table_mutex }
      (some (some p, false)) := by
  simp [find_free_spot, Lib.bind_apply, lock_free_stk_table, Lib.lock, mutex_lock_free _ hfm,
    Lib.get, hfree, Lib.modify, unlock_free_stk_table, Lib.unlock, Lib.pure_apply,
    mutex_unlock_locked _ hfm]

theorem find_free_spot_no_pages (env : Env) (st : thr_lib) (size : Nat)
    (hfree : st.g_free_stk_table = []) (hfm : mutex_free st.g_free_stk_table_mutex)
    (hsm : mutex_free st.g_stack_mutex) (hnp : env.new_pages_ok = false) :
    find_free_spot env size st = .returned
      { st with g_free_stk_table_mutex := mutex_cycled st.g_free_stk_table_mutex,
                g_stack_mutex := mutex_cycled st.g_stack_mutex,
                g_stacks_brk := sub32 (st.g_stacks_brk - st.g_stacks_brk % PAGE_SIZE) size,
                calls := st.calls ++
                  [Call.new_pages (sub32 (st.g_stacks_brk - st.g_stacks_brk % PAGE_SIZE) size)
                    size (-1)] }
      none := by
  simp [thr_lib.log, find_free_spot, Lib.bind_apply, lock_free_stk_table, Lib.lock, mutex_lock_free _ hfm,
    Lib.get, hfree, Lib.modify, unlock_free_stk_table, Lib.unlock, Lib.pure_apply,
    mutex_unlock_locked _ hfm, lock_stack, unlock_stack, mutex_lock_free _ hsm,
    mutex_unlock_locked _ hsm, hnp]

theorem find_free_spot_fresh (env : Env) (st : thr_lib) (size : Nat)
    (hfree : st.g_free_stk_table = []) (hfm : mutex_free st.g_free_stk_table_mutex)
    (hsm : mutex_free st.g_stack_mutex) (hnp : env.new_pages_ok = true) :
    find_free_spot env size st = .returned
      { st with g_free_stk_table_mutex := mutex_cycled st.g_free_stk_table_mutex,
                g_stack_mutex := mutex_cycled st.g_stack_mutex,
                g_stacks_brk := sub32 (st.g_stacks_brk - st.g_stacks_brk % PAGE_SIZE) size,
                calls := st.calls ++
                  [Call.new_pages (sub32 (st.g_stacks_brk - st.g_stacks_brk % PAGE_SIZE) size)
                    size 0],
                mem := (st.mem.filter fun r =>
                    r.addr ≠ sub32 (add32 (sub32 (st.g_stacks_brk - st.g_stacks_brk % PAGE_SIZE)
                      size) size) env.meta_size) ++
                  [{ env.fresh with
                     addr := sub32 (add32 (sub32 (st.g_stacks_brk - st.g_stacks_brk % PAGE_SIZE)
                       size) size) env.meta_size }] }
      (some (ptr (sub32 (add32 (sub32 (st.g_stacks_brk - st.g_stacks_brk % PAGE_SIZE) size)
        size) env.meta_size), true)) := by
  simp [thr_lib.log, find_free_spot, Lib.bind_apply, lock_free_stk_table, Lib.lock, mutex_lock_free _ hfm,
    Lib.get, hfree, Lib.modify, unlock_free_stk_table, Lib.unlock, Lib.pure_apply,
    mutex_unlock_locked _ hfm, lock_stack, unlock_stack, mutex_lock_free _ hsm,
    mutex_unlock_locked _ hsm, hnp]

theorem initialize_stack_meta_null (env : Env) (s : thr_lib) (ptr : Option Nat)
    (first_init : Bool) (arg : Nat) :
    initialize_stack_meta env ptr first_init 0 arg s =
      .returned s ERROR_INIT_STACK_META_FAILED := by
  cases ptr <;> simp [initialize_stack_meta, Lib.pure_apply]

theorem initialize_stack_meta_reuse (env : Env) (s : thr_lib) (p func arg : Nat)
    (r : thr_stack_meta) (m1 : mutex_t) (hfunc : func ≠ 0) (halign : p % ESP_ALIGNMENT = 0)
    (hread : s.read p = some r) (hlock : mutex_lock r.meta_mutex = some m1) :
    initialize_stack_meta env (some p) false func arg s = .returned
      (s.update p fun x =>
        { x with func := func, arg := arg, thr_state := UNSTARTED, join_flag := NOTJOINING,
                 rw_type := RWLOCK_INVALID, exit_status := 0, root := IS_NOT_ROOT,
                 tid := UNSIGNED_TID, stack_high := add32 p env.meta_size,
                 stack_low := sub32 (add32 p env.meta_size) s.g_thr_stack_size,
                 meta_mutex := mutex_unlock m1 })
      SUCCESS_RETURN := by
  have ha := read_addr s p r hread
  simp [initialize_stack_meta, hfunc, halign, Lib.bind_apply, Lib.get, Lib.pure_apply, lock_meta,
    Lib.deref, hread, hlock, Lib.store, Lib.modify, read_update, ha, unlock_meta, update_update]

theorem initialize_stack_meta_first (env : Env) (s : thr_lib) (p func arg : Nat)
    (r : thr_stack_meta) (hfunc : func ≠ 0) (halign : p % ESP_ALIGNMENT = 0)
    (hread : s.read p = some r) (hmv : r.meta_mutex.valid = LOCK_UNINITIALIZED)
    (hcv : r.meta_cv.valid = COND_UNINITIALIZED)
    (hcm : r.meta_cv.cond_mutex.valid = LOCK_UNINITIALIZED) (hmalloc : env.malloc_ok = true) :
    initialize_stack_meta env (some p) true func arg s = .returned
      (s.update p fun x =>
        { x with func := func, arg := arg, thr_state := UNSTARTED, join_flag := NOTJOINING,
                 rw_type := RWLOCK_INVALID, exit_status := 0, root := IS_NOT_ROOT,
                 tid := UNSIGNED_TID, stack_high := add32 p env.meta_size,
                 stack_low := sub32 (add32 p env.meta_size) s.g_thr_stack_size,
                 meta_mutex := ⟨LOCK_INITIALIZED, 1, 1⟩,
                 meta_cv := ⟨COND_INITIALIZED, some [], ⟨LOCK_INITIALIZED, 0, 0⟩⟩ })
      SUCCESS_RETURN := by
  have ha := read_addr s p r hread
  have e1 : mutex_init_at r.meta_mutex = (⟨LOCK_INITIALIZED, 0, 0⟩, SUCCESS_RETURN) := by
    simp [mutex_init_at, mutex_init, hmv, LOCK_UNINITIALIZED, LOCK_INITIALIZED]
  have e2 : cond_init_at env.malloc_ok r.meta_cv =
      (⟨COND_INITIALIZED, some [], ⟨LOCK_INITIALIZED, 0, 0⟩⟩, SUCCESS_RETURN) := by
    simp [cond_init_at, cond_init, hcv, hcm, hmalloc, mutex_init, COND_UNINITIALIZED,
      COND_INITIALIZED, LOCK_UNINITIALIZED, LOCK_INITIALIZED, SUCCESS_RETURN]
  have e3 : or32 (or32 0 SUCCESS_RETURN) SUCCESS_RETURN = 0 := by decide
  have e4 : mutex_lock ⟨LOCK_INITIALIZED, 0, 0⟩ = some ⟨LOCK_INITIALIZED, 1, 0⟩ := by decide
  have e5 : mutex_unlock ⟨LOCK_INITIALIZED, 1, 0⟩ = ⟨LOCK_INITIALIZED, 1, 1⟩ := by decide
  simp [initialize_stack_meta, hfunc, halign, Lib.bind_apply, Lib.get, Lib.pure_apply, lock_meta,
    Lib.deref, hread, Lib.store, Lib.modify, read_update, ha, unlock_meta, update_update,
    init_meta_locks, e1, e2, e3, e4, e5]

theorem read_appended (m : List thr_stack_meta) (x : thr_stack_meta) (a : Nat) (t f : List Nat)
    (sz brk : Nat) (m1 m2 m3 : mutex_t) (c : List Call) :
    (thr_lib.mk ((m.filter fun r => r.addr ≠ x.addr) ++ [x]) a t f sz brk m1 m2 m3 c).read x.addr =
      some x := by
  unfold thr_lib.read
  simp only [List.find?_append]
  have h : (m.filter fun r => r.addr ≠ x.addr).find? (fun r => decide (r.addr = x.addr)) = none := by
    rw [List.find?_eq_none]
    intro y hy
    have := (List.mem_filter.mp hy).2
    simpa using this
  simp [h]

theorem allocate_reuse (env : Env) (st : thr_lib) (size func arg p : Nat) (rest : List Nat)
    (r : thr_stack_meta) (m1 : mutex_t)
    (hsize : size % PAGE_SIZE = 0) (hfunc : func ≠ 0) (halign : p % ESP_ALIGNMENT = 0)
    (hfree : st.g_free_stk_table = p :: rest) (hread : st.read p = some r)
    (hlock : mutex_lock r.meta_mutex = some m1)
    (hfm : mutex_free st.g_free_stk_table_mutex) (htm : mutex_free st.g_thr_table_mutex) :
    allocate_init_thr_stack env size func arg st = .returned
      { (st.update p fun x =>
          { x with func := func, arg := arg, thr_state := UNSTARTED, join_flag := NOTJOINING,
                   rw_type := RWLOCK_INVALID, exit_status := 0, root := IS_NOT_ROOT,
                   tid := UNSIGNED_TID, stack_high := add32 p env.meta_size,
                   stack_low := sub32 (add32 p env.meta_size) st.g_thr_stack_size,
                   meta_mutex := mutex_unlock m1 }) with
        g_thr_table := st.g_thr_table ++ [p],
        g_free_stk_table := rest,
        g_thr_table_mutex := mutex_cycled st.g_thr_table_mutex,
        g_free_stk_table_mutex := mutex_cycled st.g_free_stk_table_mutex }
      (some p) := by
  have hi := initialize_stack_meta_reuse env
    { st with g_free_stk_table := rest,
              g_free_stk_table_mutex := mutex_cycled st.g_free_stk_table_mutex }
    p func arg r m1 hfunc halign hread hlock
  simp [allocate_init_thr_stack, hsize, Lib.bind_apply, find_free_spot_reuse env st size p rest
    hfree hfm, hi, Lib.pure_apply, lock_thr_table, Lib.lock, mutex_lock_free _ htm, Lib.modify,
    unlock_thr_table, Lib.unlock, mutex_unlock_locked _ htm, update_mk_proj,
    ERROR_INIT_STACK_META_FAILED, SUCCESS_RETURN]

theorem allocate_reuse_null (env : Env) (st : thr_lib) (size arg p : Nat) (rest : List Nat)
    (hsize : size % PAGE_SIZE = 0)
    (hfree : st.g_free_stk_table = p :: rest)
    (hfm : mutex_free st.g_free_stk_table_mutex) :
    allocate_init_thr_stack env size 0 arg st = .returned
      { st with g_free_stk_table := rest ++ [p],
                g_free_stk_table_mutex := mutex_cycled (mutex_cycled st.g_free_stk_table_mutex) }
      none := by
  simp [allocate_init_thr_stack, hsize, Lib.bind_apply, find_free_spot_reuse env st size p rest
    hfree hfm, initialize_stack_meta_null, Lib.pure_apply, lock_free_stk_table, Lib.lock,
    mutex_lock_free _ (mutex_cycled_free _ hfm), Lib.modify, unlock_free_stk_table, Lib.unlock,
    mutex_unlock_locked _ (mutex_cycled_free _ hfm)]

theorem allocate_no_pages (env : Env) (st : thr_lib) (size func arg : Nat)
    (hsize : size % PAGE_SIZE = 0)
    (hfree : st.g_free_stk_table = []) (hfm : mutex_free st.g_free_stk_table_mutex)
    (hsm : mutex_free st.g_stack_mutex) (hnp : env.new_pages_ok = false) :
    allocate_init_thr_stack env size func arg st = .returned
      { st with g_free_stk_table_mutex := mutex_cycled st.g_free_stk_table_mutex,
                g_stack_mutex := mutex_cycled st.g_stack_mutex,
                g_stacks_brk := sub32 (st.g_stacks_brk - st.g_stacks_brk % PAGE_SIZE) size,
                calls := st.calls ++ [Call.new_pages (sub32 (st.g_stacks_brk - st.g_stacks_brk % PAGE_SIZE) size) size (-1)] }
      none := by
  simp [allocate_init_thr_stack, hsize, Lib.bind_apply,
    find_free_spot_no_pages env st size hfree hfm hsm hnp, Lib.pure_apply]

theorem allocate_fresh (env : Env) (st : thr_lib) (size func arg spot : Nat)
    (hsize : size % PAGE_SIZE = 0) (hfunc : func ≠ 0)
    (hfree : st.g_free_stk_table = []) (hfm : mutex_free st.g_free_stk_table_mutex)
    (hsm : mutex_free st.g_stack_mutex) (htm : mutex_free st.g_thr_table_mutex)
    (hnp : env.new_pages_ok = true)
    (hspot : spot = sub32 (add32 (sub32 (st.g_stacks_brk - st.g_stacks_brk % PAGE_SIZE) size)
      size) env.meta_size)
    (hnz : spot ≠ 0) (halign : spot % ESP_ALIGNMENT = 0)
    (hmv : env.fresh.meta_mutex.valid = LOCK_UNINITIALIZED)
    (hcv : env.fresh.meta_cv.valid = COND_UNINITIALIZED)
    (hcm : env.fresh.meta_cv.cond_mutex.valid = LOCK_UNINITIALIZED)
    (hmalloc : env.malloc_ok = true) :
    ∃ st1, allocate_init_thr_stack env size func arg st = .returned st1 (some spot) ∧
      st1.g_stacks_brk = sub32 (st.g_stacks_brk - st.g_stacks_brk % PAGE_SIZE) size ∧
      st1.g_thr_table = st.g_thr_table ++ [spot] ∧ st1.g_free_stk_table = [] ∧
      st1.calls = st.calls ++ [Call.new_pages (sub32 (st.g_stacks_brk - st.g_stacks_brk % PAGE_SIZE) size) size 0] ∧
      ∃ r1, st1.read spot = some r1 ∧ r1.thr_state = UNSTARTED ∧ r1.tid = UNSIGNED_TID ∧
        r1.join_flag = NOTJOINING ∧ r1.stack_high = add32 spot env.meta_size ∧
        r1.stack_low = sub32 r1.stack_high st.g_thr_stack_size ∧
        r1.meta_mutex.valid = LOCK_INITIALIZED ∧ r1.meta_cv.valid = COND_INITIALIZED := by
  have hf := find_free_spot_fresh env st size hfree hfm hsm hnp
  rw [← hspot] at hf
  have hr := read_appended st.mem { env.fresh with addr := spot } st.g_root_thr_meta
    st.g_thr_table st.g_free_stk_table st.g_thr_stack_size
    (sub32 (st.g_stacks_brk - st.g_stacks_brk % PAGE_SIZE) size)
    (mutex_cycled st.g_stack_mutex) st.g_thr_table_mutex
    (mutex_cycled st.g_free_stk_table_mutex) (st.calls ++ [Call.new_pages (sub32 (st.g_stacks_brk - st.g_stacks_brk % PAGE_SIZE) size) size 0])
  obtain ⟨s1, hf1, hr1, h1a, h1b, h1c, h1d, h1e, h1f⟩ : ∃ s1 : thr_lib,
      find_free_spot env size st = .returned s1 (some (ptr spot, true)) ∧
      s1.read spot = some { env.fresh with addr := spot } ∧
      s1.g_thr_table = st.g_thr_table ∧ s1.g_thr_table_mutex = st.g_thr_table_mutex ∧
      s1.g_stacks_brk = sub32 (st.g_stacks_brk - st.g_stacks_brk % PAGE_SIZE) size ∧
      s1.g_free_stk_table = [] ∧ s1.g_thr_stack_size = st.g_thr_stack_size ∧
      s1.calls = st.calls ++ [Call.new_pages (sub32 (st.g_stacks_brk - st.g_stacks_brk % PAGE_SIZE) size) size 0] :=
    ⟨_, hf, hr, rfl, rfl, rfl, hfree, rfl, rfl⟩
  have hi := initialize_stack_meta_first env s1 spot func arg _ hfunc halign hr1 hmv hcv hcm
    hmalloc
  have hp : ptr spot = some spot := by simp [ptr, hnz]
  have htm1 : mutex_free s1.g_thr_table_mutex := by rw [h1b]; exact htm
  clear hf hr
  simp [allocate_init_thr_stack, hsize, hf1, hp, hi,
    Lib.pure_apply, lock_thr_table, Lib.lock, mutex_lock_free _ htm1, Lib.modify,
    unlock_thr_table, Lib.unlock, Lib.bind_apply, read_mk_proj, read_update, hr1,
    h1a, h1c, h1d, h1e, h1f, ERROR_INIT_STACK_META_FAILED, SUCCESS_RETURN]

theorem sub32_le_of_le (a b c : Nat) (hc : c < UINT_RANGE) (ha : a ≤ c) (hb : b ≤ a) :
    sub32 a b ≤ c := by
  unfold sub32
  rw [UINT_RANGE_eq] at *
  omega

/-- C25 (counterexample to the claim as stated): in `lib_joined` the
free-stack list holds the record at `0xFFFFDF80`; called with a NULL function
`allocate_init_thr_stack` returns no record and leaves that record on the
list.  And with the stacks-break at 4096 a call for 8192 bytes on an empty
list moves the break to `4096 - 8192` modulo `2^32`, which is higher. -/
theorem allocate_null_func_and_wrap :
    lib_joined.g_free_stk_table = [4294958976] ∧
    allocate_init_thr_stack env_sample 8192 0 7 lib_joined =
      .returned (allocate_init_thr_stack env_sample 8192 0 7 lib_joined).state none ∧
    (allocate_init_thr_stack env_sample 8192 0 7 lib_joined).state.g_free_stk_table =
      [4294958976] ∧
    ({ lib_ready with g_stacks_brk := 4096 } : thr_lib).g_free_stk_table = [] ∧
    (allocate_init_thr_stack env_no_pages 8192 77 7
      { lib_ready with g_stacks_brk := 4096 }).state.g_stacks_brk = 4294963200 ∧
    (4096 : Nat) < 4294963200 := by
  decide

/-- C25 (amended): let the requested size be a multiple of the page size and
the three table mutexes be free.  With a non-NULL function and a non-empty
free-stack list whose front record is aligned and whose mutex can be taken,
`allocate_init_thr_stack` returns that front record, removes it from the
list and leaves the stacks-break as it is; with a NULL function it returns no
record and moves the front record to the tail of the list.  With an empty
list it sets the stacks-break to the break aligned down to a page minus the
size, modulo `2^32`, and calls `new_pages` once, for the size at the new
break (with a non-empty list it does not call `new_pages`); when `new_pages`
fails it returns no record; when `new_pages` succeeds on memory that holds no
initialized mutex or condition variable and `malloc` succeeds, it returns the
record that lies `sizeof(thr_stack_meta_t)` below the top of the new region.  A returned
record is at the tail of the thread table, with state UNSTARTED, tid
`UNSIGNED_TID`, join flag NOTJOINING, and `stack_low` equal to `stack_high`
minus the per-thread stack size modulo `2^32`.  The stacks-break does not
increase as long as the aligned break is at least the size. -/
theorem allocate_init_thr_stack_spec (env : Env) (st : thr_lib) (size func arg : Nat)
    (hsize : size % PAGE_SIZE = 0)
    (hfm : mutex_free st.g_free_stk_table_mutex) (hsm : mutex_free st.g_stack_mutex)
    (htm : mutex_free st.g_thr_table_mutex) :
    (∀ p rest r m1, func ≠ 0 → st.g_free_stk_table = p :: rest → st.read p = some r →
      p % ESP_ALIGNMENT = 0 → mutex_lock r.meta_mutex = some m1 →
      ∃ st1, allocate_init_thr_stack env size func arg st = .returned st1 (some p) ∧
        st1.g_free_stk_table = rest ∧ st1.g_stacks_brk = st.g_stacks_brk ∧
        st1.g_thr_table = st.g_thr_table ++ [p] ∧ st1.calls = st.calls ∧
        ∃ r1, st1.read p = some r1 ∧ r1.thr_state = UNSTARTED ∧ r1.tid = UNSIGNED_TID ∧
          r1.join_flag = NOTJOINING ∧
          r1.stack_low = sub32 r1.stack_high st.g_thr_stack_size) ∧
    (∀ p rest, func = 0 → st.g_free_stk_table = p :: rest →
      ∃ st1, allocate_init_thr_stack env size func arg st = .returned st1 none ∧
        st1.g_free_stk_table = rest ++ [p] ∧ st1.g_stacks_brk = st.g_stacks_brk ∧
        st1.g_thr_table = st.g_thr_table ∧ st1.calls = st.calls) ∧
    (st.g_free_stk_table = [] → env.new_pages_ok = false →
      ∃ st1, allocate_init_thr_stack env size func arg st = .returned st1 none ∧
        st1.g_stacks_brk = sub32 (st.g_stacks_brk - st.g_stacks_brk % PAGE_SIZE) size ∧
        st1.calls = st.calls ++ [Call.new_pages (sub32 (st.g_stacks_brk - st.g_stacks_brk % PAGE_SIZE) size) size (-1)] ∧
        st1.g_free_stk_table = [] ∧ st1.g_thr_table = st.g_thr_table) ∧
    (∀ spot, func ≠ 0 → st.g_free_stk_table = [] → env.new_pages_ok = true →
      spot = sub32 (add32 (sub32 (st.g_stacks_brk - st.g_stacks_brk % PAGE_SIZE) size) size)
        env.meta_size →
      spot ≠ 0 → spot % ESP_ALIGNMENT = 0 →
      env.fresh.meta_mutex.valid = LOCK_UNINITIALIZED →
      env.fresh.meta_cv.valid = COND_UNINITIALIZED →
      env.fresh.meta_cv.cond_mutex.valid = LOCK_UNINITIALIZED → env.malloc_ok = true →
      ∃ st1, allocate_init_thr_stack env size func arg st = .returned st1 (some spot) ∧
        st1.g_stacks_brk = sub32 (st.g_stacks_brk - st.g_stacks_brk % PAGE_SIZE) size ∧
        st1.calls = st.calls ++ [Call.new_pages (sub32 (st.g_stacks_brk - st.g_stacks_brk % PAGE_SIZE) size) size 0] ∧
        st1.g_thr_table = st.g_thr_table ++ [spot] ∧ st1.g_free_stk_table = [] ∧
        ∃ r1, st1.read spot = some r1 ∧ r1.thr_state = UNSTARTED ∧ r1.tid = UNSIGNED_TID ∧
          r1.join_flag = NOTJOINING ∧
          r1.stack_low = sub32 r1.stack_high st.g_thr_stack_size) ∧
    (∀ high low, low = sub32 high st.g_thr_stack_size → high < UINT_RANGE →
      st.g_thr_stack_size ≤ high → high - low = st.g_thr_stack_size) ∧
    (st.g_stacks_brk < UINT_RANGE → size ≤ st.g_stacks_brk - st.g_stacks_brk % PAGE_SIZE →
      sub32 (st.g_stacks_brk - st.g_stacks_brk % PAGE_SIZE) size ≤ st.g_stacks_brk) := by
  refine ⟨?_, ?_, ?_, ?_, ?_, ?_⟩
  · intro p rest r m1 hfunc hfree hread halign hlock
    have ha := read_addr st p r hread
    refine ⟨_, allocate_reuse env st size func arg p rest r m1 hsize hfunc halign hfree hread
      hlock hfm htm, rfl, rfl, rfl, rfl, ?_⟩
    simp [read_mk_proj, read_update, hread, ha]
  · intro p rest hfunc hfree
    subst hfunc
    exact ⟨_, allocate_reuse_null env st size arg p rest hsize hfree hfm, rfl, rfl, rfl, rfl⟩
  · intro hfree hnp
    exact ⟨_, allocate_no_pages env st size func arg hsize hfree hfm hsm hnp, rfl, rfl, hfree,
      rfl⟩
  · intro spot hfunc hfree hnp hspot hnz halign hmv hcv hcm hmalloc
    obtain ⟨st1, h1, h2, h3, h4, hc, r1, h5, h6, h7, h8, h9, h10, _⟩ :=
      allocate_fresh env st size func arg spot hsize hfunc hfree hfm hsm htm hnp hspot hnz
        halign hmv hcv hcm hmalloc
    exact ⟨st1, h1, h2, hc, h3, h4, r1, h5, h6, h7, h8, h10⟩
  · intro high low hlow hh hle
    rw [hlow, sub32_of_le high _ hh hle]
    omega
  · intro hb hs
    exact sub32_le_of_le _ _ _ hb (Nat.sub_le _ _) hs

/-- C25 (witness): in `lib_joined` a call with the function at 77 takes the
record at `0xFFFFDF80` from the free-stack list and puts it at the tail of
the thread table; in `lib_ready`, whose free-stack list is empty, the break
goes down from `0xFFFFE000` to `0xFFFFC000`, `new_pages(0xFFFFC000, 8192)` is
called and the new record lies at `0xFFFFDF80`. -/
theorem allocate_init_thr_stack_spec_witness :
    (∃ st1, allocate_init_thr_stack env_sample 8192 77 7 lib_joined =
        .returned st1 (some 4294958976) ∧
      st1.g_free_stk_table = [] ∧ st1.g_thr_table = [16777216, 4294958976]) ∧
    (∃ st1, allocate_init_thr_stack env_sample 8192 77 7 lib_ready =
        .returned st1 (some 4294958976) ∧
      st1.g_stacks_brk = 4294950912 ∧
      st1.calls = lib_ready.calls ++ [Call.new_pages 4294950912 8192 0] ∧
      st1.g_thr_table = [16777216, 4294958976]) := by
  have w1 := (allocate_init_thr_stack_spec env_sample lib_joined 8192 77 7 (by decide)
    (by decide) (by decide) (by decide)).1 4294958976 []
    { addr := 4294958976, func := 77, arg := 7, thr_state := 4, root := 0, tid := 5,
      rw_type := -1, join_flag := 1, exit_status := 7, meta_mutex := ⟨1, 4, 4⟩,
      meta_cv := ⟨1, some [], ⟨1, 1, 1⟩⟩, stack_high := 4294959104, stack_low := 4294950912 }
    ⟨1, 5, 4⟩ (by decide) (by decide) (by decide) (by decide) (by decide)
  have w2 := (allocate_init_thr_stack_spec env_sample lib_ready 8192 77 7 (by decide)
    (by decide) (by decide) (by decide)).2.2.2.1 4294958976 (by decide) (by decide) (by decide)
    (by decide) (by decide) (by decide) (by decide) (by decide) (by decide) (by decide)
  constructor
  · obtain ⟨st1, h1, h2, _, h4, _⟩ := w1
    exact ⟨st1, h1, h2, h4.trans (by decide)⟩
  · obtain ⟨st1, h1, h2, hc, h3, _⟩ := w2
    exact ⟨st1, h1, h2.trans (by decide), hc.trans (by decide), h3.trans (by decide)⟩

/-! ## The two lists along any schedule -/

theorem Lib.wp_bind {α β : Type} (m : Lib α) (f : α → Lib β) (Q : β → thr_lib → Prop)
    (E : Stop → thr_lib → Prop) (s : thr_lib)
    (h : Lib.wp m (fun a s1 => Lib.wp (f a) Q E s1) E s) : Lib.wp (m >>= f) Q E s := by
  unfold Lib.wp at h ⊢
  rw [Lib.bind_apply]
  cases hm : m s with
  | returned s1 a => rw [hm] at h; exact h
  | stopped s1 w => rw [hm] at h; exact h

theorem Lib.wp_mono {α : Type} (m : Lib α) (Q Q1 : α → thr_lib → Prop)
    (E E1 : Stop → thr_lib → Prop) (s : thr_lib) (h : Lib.wp m Q E s)
    (hq : ∀ a s1, Q a s1 → Q1 a s1) (he : ∀ w s1, E w s1 → E1 w s1) : Lib.wp m Q1 E1 s := by
  unfold Lib.wp at h ⊢
  cases hm : m s with
  | returned s1 a => rw [hm] at h; exact hq a s1 h
  | stopped s1 w => rw [hm] at h; exact he w s1 h

theorem Lib.wp_state {α : Type} (m : Lib α) (P : thr_lib → Prop) (s : thr_lib)
    (h : Lib.wp m (fun _ s1 => P s1) (fun _ s1 => P s1) s) : P (m s).state := by
  unfold Lib.wp at h
  cases hm : m s with
  | returned s1 a => rw [hm] at h; exact h
  | stopped s1 w => rw [hm] at h; exact h

theorem Lib.wp_pure {α : Type} (a : α) (Q : α → thr_lib → Prop) (E : Stop → thr_lib → Prop)
    (s : thr_lib) (h : Q a s) : Lib.wp (pure a) Q E s := h

theorem Lib.wp_get (Q : thr_lib → thr_lib → Prop) (E : Stop → thr_lib → Prop) (s : thr_lib)
    (h : Q s s) : Lib.wp Lib.get Q E s := h

theorem Lib.wp_modify (g : thr_lib → thr_lib) (Q : Unit → thr_lib → Prop)
    (E : Stop → thr_lib → Prop) (s : thr_lib) (h : Q () (g s)) : Lib.wp (Lib.modify g) Q E s := h

theorem Lib.wp_store (p : Nat) (g : thr_stack_meta → thr_stack_meta) (Q : Unit → thr_lib → Prop)
    (E : Stop → thr_lib → Prop) (s : thr_lib) (h : Q () (s.update p g)) :
    Lib.wp (Lib.store p g) Q E s := h

theorem Lib.wp_stop {α : Type} (w : Stop) (Q : α → thr_lib → Prop) (E : Stop → thr_lib → Prop)
    (s : thr_lib) (h : E w s) : Lib.wp (Lib.stop w : Lib α) Q E s := h

theorem Lib.wp_deref (p : Nat) (Q : thr_stack_meta → thr_lib → Prop)
    (E : Stop → thr_lib → Prop) (s : thr_lib)
    (hq : ∀ r, s.read p = some r → Q r s) (he : s.read p = none → E .faulted s) :
    Lib.wp (Lib.deref p) Q E s := by
  unfold Lib.wp Lib.deref
  cases hr : s.read p with
  | none => exact he hr
  | some r => exact hq r hr

theorem Lib.wp_lock (get : thr_lib → mutex_t) (set : thr_lib → mutex_t → thr_lib)
    (Q : Unit → thr_lib → Prop) (E : Stop → thr_lib → Prop) (s : thr_lib)
    (hq : ∀ m, Q () (set s m)) (he : E .spins s) : Lib.wp (Lib.lock get set) Q E s := by
  unfold Lib.wp Lib.lock
  cases hm : mutex_lock (get s) with
  | none => exact he
  | some m => exact hq m

/-! ### Calls that leave the lists and the flags alone -/

theorem quiet_refl (s : thr_lib) : quiet s s := ⟨rfl, rfl, rfl, fun _ => rfl⟩

theorem quiet_trans (s s1 s2 : thr_lib) (h1 : quiet s s1) (h2 : quiet s1 s2) : quiet s s2 :=
  ⟨h2.1.trans h1.1, h2.2.1.trans h1.2.1, h2.2.2.1.trans h1.2.2.1,
    fun q => (h2.2.2.2 q).trans (h1.2.2.2 q)⟩

theorem quiet_update (s : thr_lib) (p : Nat) (g : thr_stack_meta → thr_stack_meta)
    (hg : ∀ r, (g r).root = r.root ∧ (g r).join_flag = r.join_flag) : quiet s (s.update p g) := by
  refine ⟨rfl, rfl, rfl, fun q => ?_⟩
  unfold rec_flags
  rw [read_update]
  cases s.read q with
  | none => rfl
  | some x => by_cases hx : x.addr = p <;> simp [hx, hg]

theorem lib_inv_quiet (L : List Nat) (s s1 : thr_lib) (hq : quiet s s1) (h : lib_inv L s) :
    lib_inv L s1 := by
  obtain ⟨h1, h2, h3, h4⟩ := hq
  unfold lib_inv lists_ok at h ⊢
  rw [h1, h2, h3, h4]
  simp only [h4]
  exact h

theorem Lib.is_quiet_bind {α β : Type} (m : Lib α) (f : α → Lib β) (hm : Lib.is_quiet m)
    (hf : ∀ a, Lib.is_quiet (f a)) : Lib.is_quiet (m >>= f) := by
  intro s
  rw [Lib.bind_apply]
  have h1 := hm s
  cases hms : m s with
  | returned s1 a =>
    rw [hms] at h1
    exact quiet_trans s s1 _ h1 (hf a s1)
  | stopped s1 w =>
    rw [hms] at h1
    exact h1

theorem Lib.is_quiet_pure {α : Type} (a : α) : Lib.is_quiet (pure a : Lib α) :=
  fun s => quiet_refl s

theorem Lib.is_quiet_get : Lib.is_quiet Lib.get := fun s => quiet_refl s

theorem Lib.is_quiet_stop {α : Type} (w : Stop) : Lib.is_quiet (Lib.stop w : Lib α) :=
  fun s => quiet_refl s

theorem Lib.is_quiet_deref (p : Nat) : Lib.is_quiet (Lib.deref p) := by
  intro s
  unfold Lib.deref
  cases s.read p <;> exact quiet_refl s

theorem Lib.is_quiet_store (p : Nat) (g : thr_stack_meta → thr_stack_meta)
    (hg : ∀ r, (g r).root = r.root ∧ (g r).join_flag = r.join_flag) :
    Lib.is_quiet (Lib.store p g) :=
  fun s => quiet_update s p g hg

theorem Lib.is_quiet_modify (g : thr_lib → thr_lib) (hg : ∀ s, quiet s (g s)) :
    Lib.is_quiet (Lib.modify g) :=
  fun s => hg s

theorem Lib.is_quiet_lock (get : thr_lib → mutex_t) (set : thr_lib → mutex_t → thr_lib)
    (hs : ∀ s m, quiet s (set s m)) : Lib.is_quiet (Lib.lock get set) := by
  intro s
  unfold Lib.lock
  cases mutex_lock (get s) with
  | none => exact quiet_refl s
  | some m => exact hs s m

theorem Lib.wp_quiet {α : Type} (m : Lib α) (Q : α → thr_lib → Prop)
    (E : Stop → thr_lib → Prop) (s : thr_lib) (hm : Lib.is_quiet m)
    (hq : ∀ a s1, quiet s s1 → Q a s1) (he : ∀ w s1, quiet s s1 → E w s1) :
    Lib.wp m Q E s := by
  have h := hm s
  unfold Lib.wp
  cases hms : m s with
  | returned s1 a => rw [hms] at h; exact hq a s1 h
  | stopped s1 w => rw [hms] at h; exact he w s1 h

theorem lock_thr_table_quiet : Lib.is_quiet lock_thr_table :=
  Lib.is_quiet_lock _ _ fun _ _ => ⟨rfl, rfl, rfl, fun _ => rfl⟩

theorem unlock_thr_table_quiet : Lib.is_quiet unlock_thr_table :=
  Lib.is_quiet_modify _ fun _ => ⟨rfl, rfl, rfl, fun _ => rfl⟩

theorem lock_free_stk_table_quiet : Lib.is_quiet lock_free_stk_table :=
  Lib.is_quiet_lock _ _ fun _ _ => ⟨rfl, rfl, rfl, fun _ => rfl⟩

theorem unlock_free_stk_table_quiet : Lib.is_quiet unlock_free_stk_table :=
  Lib.is_quiet_modify _ fun _ => ⟨rfl, rfl, rfl, fun _ => rfl⟩

theorem lock_stack_quiet : Lib.is_quiet lock_stack :=
  Lib.is_quiet_lock _ _ fun _ _ => ⟨rfl, rfl, rfl, fun _ => rfl⟩

theorem unlock_stack_quiet : Lib.is_quiet unlock_stack :=
  Lib.is_quiet_modify _ fun _ => ⟨rfl, rfl, rfl, fun _ => rfl⟩

theorem lock_meta_quiet (p : Nat) : Lib.is_quiet (lock_meta p) := by
  unfold lock_meta
  refine Lib.is_quiet_bind _ _ (Lib.is_quiet_deref p) ?_
  intro r
  split
  · exact Lib.is_quiet_store _ _ (fun _ => ⟨rfl, rfl⟩)
  · exact Lib.is_quiet_stop _

theorem unlock_meta_quiet (p : Nat) : Lib.is_quiet (unlock_meta p) := by
  unfold unlock_meta
  refine Lib.is_quiet_bind _ _ (Lib.is_quiet_deref p) ?_
  intro _
  exact Lib.is_quiet_store _ _ (fun _ => ⟨rfl, rfl⟩)

theorem cond_signal_meta_quiet (kern : Int → Fate) (p : Nat) :
    Lib.is_quiet (cond_signal_meta kern p) := by
  unfold cond_signal_meta
  refine Lib.is_quiet_bind _ _ (Lib.is_quiet_deref p) ?_
  intro r
  refine Lib.is_quiet_bind _ _ Lib.is_quiet_get ?_
  intro st
  split
  · refine Lib.is_quiet_bind _ _ ?_ ?_
    · exact Lib.is_quiet_store _ _ (fun _ => ⟨rfl, rfl⟩)
    · intro _
      exact Lib.is_quiet_modify _ (fun _ => ⟨rfl, rfl, rfl, fun _ => rfl⟩)
  · refine Lib.is_quiet_bind _ _ ?_ ?_
    · exact Lib.is_quiet_store _ _ (fun _ => ⟨rfl, rfl⟩)
    · intro _
      exact Lib.is_quiet_stop _

theorem cond_wait_meta_quiet (p ebp : Nat) : Lib.is_quiet (cond_wait_meta p ebp) := by
  unfold cond_wait_meta
  refine Lib.is_quiet_bind _ _ (Lib.is_quiet_deref p) ?_
  intro r
  refine Lib.is_quiet_bind _ _ Lib.is_quiet_get ?_
  intro st
  split
  · exact Lib.is_quiet_store _ _ (fun _ => ⟨rfl, rfl⟩)
  · refine Lib.is_quiet_bind _ _ ?_ ?_
    · exact Lib.is_quiet_store _ _ (fun _ => ⟨rfl, rfl⟩)
    · intro _
      exact Lib.is_quiet_stop _

theorem thr_exit_quiet (env : Env) (status ebp : Nat) :
    Lib.is_quiet (thr_exit env status ebp) := by
  unfold thr_exit
  refine Lib.is_quiet_bind _ _ Lib.is_quiet_get ?_
  intro st
  split
  · exact Lib.is_quiet_stop _
  · rename_i x p hp
    refine Lib.is_quiet_bind _ _ (lock_meta_quiet _) ?_
    intro _
    refine Lib.is_quiet_bind _ _ ?_ ?_
    · exact Lib.is_quiet_store _ _ (fun _ => ⟨rfl, rfl⟩)
    · intro _
      refine Lib.is_quiet_bind _ _ (Lib.is_quiet_deref _) ?_
      intro r
      have hjp : Lib.is_quiet (do unlock_meta p; (Lib.stop Stop.vanished : Lib Unit)) :=
        Lib.is_quiet_bind _ _ (unlock_meta_quiet _) (fun _ => Lib.is_quiet_stop _)
      split
      · exact Lib.is_quiet_bind _ _ (cond_signal_meta_quiet _ _) (fun _ => hjp)
      · exact Lib.is_quiet_bind _ _ (Lib.is_quiet_pure _) (fun _ => hjp)

/-! ### `free_thr_stack` -/

theorem lib_inv_erase (L : List Nat) (p : Nat) (s : thr_lib) (h : lib_inv L s) :
    lib_inv (L.erase p) s := by
  obtain ⟨h1, h2, h3, h4, h5, h6⟩ := h
  exact ⟨h1, h2, h3, h4, fun q hq => h5 q (List.mem_of_mem_erase hq), h6.erase p⟩

theorem lib_inv_root_ne (L : List Nat) (p : Nat) (s : thr_lib) (r : thr_stack_meta)
    (h : lib_inv L s) (hr : s.read p = some r) (hroot : r.root ≠ IS_ROOT) :
    p ≠ s.g_root_thr_meta := by
  intro e
  obtain ⟨_, _, _, h4, _, _⟩ := h
  rw [← e] at h4
  unfold rec_flags at h4
  rw [hr] at h4
  simp at h4
  exact hroot h4

/-- The record `p` has left the thread table and is not yet on the
free-stack list. -/
theorem erase_step (L : List Nat) (p : Nat) (s s1 : thr_lib) (h : lib_inv L s)
    (hne : p ≠ s.g_root_thr_meta)
    (ht : s1.g_thr_table = s.g_thr_table.erase p) (hf : s1.g_free_stk_table = s.g_free_stk_table)
    (hr : s1.g_root_thr_meta = s.g_root_thr_meta) (hfl : ∀ q, rec_flags s1 q = rec_flags s q) :
    lib_inv (L.erase p) s1 ∧ p ∉ s1.g_thr_table ∧
      (p ∈ s.g_thr_table → p ∉ s1.g_free_stk_table) ∧ p ≠ s1.g_root_thr_meta := by
  obtain ⟨⟨a1, a2, a3⟩, h2, h3, h4, h5, h6⟩ := h
  refine ⟨⟨⟨?_, ?_, ?_⟩, ?_, ?_, ?_, ?_, h6.erase p⟩, ?_, ?_, ?_⟩
  · rw [ht, hr]
    exact (List.mem_erase_of_ne (Ne.symm hne)).mpr a1
  · rw [hf, hr]
    exact a2
  · intro q hq
    rw [hf] at hq
    rw [ht]
    exact fun hm => a3 q hq (List.mem_of_mem_erase hm)
  · rw [ht]
    exact h2.erase p
  · rw [hf]
    exact h3
  · rw [hr, hfl]
    exact h4
  · intro q hq
    have hq1 := List.mem_of_mem_erase hq
    have hqp : q ≠ p := fun e => by
      rw [e] at hq
      exact (List.Nodup.not_mem_erase h6) hq
    rw [ht, hfl]
    exact ⟨(List.mem_erase_of_ne hqp).mpr (h5 q hq1).1, (h5 q hq1).2⟩
  · rw [ht]
    exact List.Nodup.not_mem_erase h2
  · intro hp
    rw [hf]
    exact fun hm => a3 p hm hp
  · rw [hr]
    exact hne

theorem append_step (L : List Nat) (p : Nat) (s s1 : thr_lib) (h : lib_inv L s)
    (hpt : p ∉ s.g_thr_table) (hpf : p ∉ s.g_free_stk_table) (hne : p ≠ s.g_root_thr_meta)
    (ht : s1.g_thr_table = s.g_thr_table) (hf : s1.g_free_stk_table = s.g_free_stk_table ++ [p])
    (hr : s1.g_root_thr_meta = s.g_root_thr_meta) (hfl : ∀ q, rec_flags s1 q = rec_flags s q) :
    lib_inv L s1 := by
  obtain ⟨⟨a1, a2, a3⟩, h2, h3, h4, h5, h6⟩ := h
  refine ⟨⟨?_, ?_, ?_⟩, ?_, ?_, ?_, ?_, h6⟩
  · rw [ht, hr]
    exact a1
  · rw [hf, hr]
    simp only [List.mem_append, List.mem_singleton, not_or]
    exact ⟨a2, Ne.symm hne⟩
  · intro q hq
    rw [hf] at hq
    rw [ht]
    simp only [List.mem_append, List.mem_singleton] at hq
    rcases hq with hq | hq
    · exact a3 q hq
    · rw [hq]
      exact hpt
  · rw [ht]
    exact h2
  · rw [hf]
    refine List.Nodup.append h3 (List.nodup_singleton p) ?_
    intro x hx1 hx2
    simp only [List.mem_singleton] at hx2
    rw [hx2] at hx1
    exact hpf hx1
  · rw [hr, hfl]
    exact h4
  · intro q hq
    rw [ht, hfl]
    exact h5 q hq

theorem free_thr_stack_inv (L : List Nat) (p : Nat) (s : thr_lib) (h : lib_inv L s)
    (hp : p ∈ s.g_thr_table) :
    Lib.wp (free_thr_stack (some p)) (fun _ s1 => lib_inv (L.erase p) s1)
      (fun _ s1 => lib_inv (L.erase p) s1) s := by
  unfold free_thr_stack
  apply Lib.wp_bind
  apply Lib.wp_deref
  · intro r hr
    split
    · exact Lib.wp_pure _ _ _ _ (lib_inv_erase L p s h)
    · rename_i hroot
      have hne := lib_inv_root_ne L p s r h hr hroot
      apply Lib.wp_bind
      apply Lib.wp_quiet _ _ _ _ lock_thr_table_quiet
      · intro _ s1 q1
        have i1 := lib_inv_quiet L s s1 q1 h
        have hp1 : p ∈ s1.g_thr_table := by rw [q1.1]; exact hp
        have hne1 : p ≠ s1.g_root_thr_meta := by rw [q1.2.2.1]; exact hne
        apply Lib.wp_bind
        apply Lib.wp_modify
        have e := erase_step L p s1 { s1 with g_thr_table := s1.g_thr_table.erase p } i1 hne1
          rfl rfl rfl (fun _ => rfl)
        apply Lib.wp_bind
        apply Lib.wp_quiet _ _ _ _ unlock_thr_table_quiet
        · intro _ s2 q2
          have i2 := lib_inv_quiet _ _ s2 q2 e.1
          have hpt2 : p ∉ s2.g_thr_table := by rw [q2.1]; exact e.2.1
          have hpf2 : p ∉ s2.g_free_stk_table := by rw [q2.2.1]; exact e.2.2.1 hp1
          have hne2 : p ≠ s2.g_root_thr_meta := by rw [q2.2.2.1]; exact e.2.2.2
          apply Lib.wp_bind
          apply Lib.wp_quiet _ _ _ _ lock_free_stk_table_quiet
          · intro _ s3 q3
            have i3 := lib_inv_quiet _ _ s3 q3 i2
            have hpt3 : p ∉ s3.g_thr_table := by rw [q3.1]; exact hpt2
            have hpf3 : p ∉ s3.g_free_stk_table := by rw [q3.2.1]; exact hpf2
            have hne3 : p ≠ s3.g_root_thr_meta := by rw [q3.2.2.1]; exact hne2
            apply Lib.wp_bind
            apply Lib.wp_modify
            have a := append_step (L.erase p) p s3
              { s3 with g_free_stk_table := s3.g_free_stk_table ++ [p] } i3 hpt3 hpf3 hne3
              rfl rfl rfl (fun _ => rfl)
            apply Lib.wp_quiet _ _ _ _ unlock_free_stk_table_quiet
            · intro _ s4 q4
              exact lib_inv_quiet _ _ s4 q4 a
            · intro _ s4 q4
              exact lib_inv_quiet _ _ s4 q4 a
          · intro _ s3 q3
            exact lib_inv_quiet _ _ s3 q3 i2
        · intro _ s2 q2
          exact lib_inv_quiet _ _ s2 q2 e.1
      · intro _ s1 q1
        exact lib_inv_erase L p s1 (lib_inv_quiet L s s1 q1 h)
  · intro _
    exact lib_inv_erase L p s h

theorem Lib.wp_and {α : Type} (m : Lib α) (Q1 Q2 : α → thr_lib → Prop)
    (E1 E2 : Stop → thr_lib → Prop) (s : thr_lib) (h1 : Lib.wp m Q1 E1 s)
    (h2 : Lib.wp m Q2 E2 s) :
    Lib.wp m (fun a s1 => Q1 a s1 ∧ Q2 a s1) (fun w s1 => E1 w s1 ∧ E2 w s1) s := by
  unfold Lib.wp at h1 h2 ⊢
  cases hm : m s with
  | returned s1 a => rw [hm] at h1 h2; exact ⟨h1, h2⟩
  | stopped s1 w => rw [hm] at h1 h2; exact ⟨h1, h2⟩

theorem free_thr_stack_no_block (p : Nat) (s : thr_lib) :
    Lib.wp (free_thr_stack (some p)) (fun _ _ => True) (fun w _ => w ≠ Stop.blocked) s := by
  unfold free_thr_stack
  apply Lib.wp_bind
  apply Lib.wp_deref
  · intro r _
    split
    · exact Lib.wp_pure _ _ _ _ trivial
    · apply Lib.wp_bind
      apply Lib.wp_lock
      · intro _
        apply Lib.wp_bind
        apply Lib.wp_modify
        apply Lib.wp_bind
        apply Lib.wp_modify
        apply Lib.wp_bind
        apply Lib.wp_lock
        · intro _
          apply Lib.wp_bind
          apply Lib.wp_modify
          apply Lib.wp_modify
          trivial
        · exact fun e => Stop.noConfusion e
      · exact fun e => Stop.noConfusion e
  · intro _
    exact fun e => Stop.noConfusion e

theorem thr_join_loop_inv (L : List Nat) (p : Nat) (statusp : Bool) (ebp : Nat) (s : thr_lib)
    (h : lib_inv L s) (hp : p ∈ s.g_thr_table) :
    Lib.wp (thr_join_loop p statusp ebp) (fun _ s1 => lib_inv (L.erase p) s1)
      (fun w s1 => (w = Stop.blocked → quiet s s1) ∧ (w ≠ Stop.blocked → lib_inv (L.erase p) s1))
      s := by
  unfold thr_join_loop
  apply Lib.wp_bind
  apply Lib.wp_deref
  · intro r _
    split
    · apply Lib.wp_bind
      apply Lib.wp_quiet _ _ _ _ (cond_wait_meta_quiet p ebp)
      · intro _ s1 q1
        apply Lib.wp_stop
        exact ⟨fun _ => q1, fun _ => lib_inv_erase L p s1 (lib_inv_quiet L s s1 q1 h)⟩
      · intro w s1 q1
        exact ⟨fun _ => q1, fun _ => lib_inv_erase L p s1 (lib_inv_quiet L s s1 q1 h)⟩
    · apply Lib.wp_bind
      apply Lib.wp_quiet _ _ _ _ (unlock_meta_quiet p)
      · intro _ s1 q1
        have i1 := lib_inv_quiet L s s1 q1 h
        have hp1 : p ∈ s1.g_thr_table := by rw [q1.1]; exact hp
        apply Lib.wp_bind
        apply Lib.wp_mono _ _ _ _ _ _
          (Lib.wp_and _ _ _ _ _ _ (free_thr_stack_inv L p s1 i1 hp1) (free_thr_stack_no_block p s1))
        · intro _ s2 h2
          exact Lib.wp_pure _ _ _ _ h2.1
        · intro w s2 h2
          exact ⟨fun e => absurd e h2.2, fun _ => h2.1⟩
      · intro w s1 q1
        exact ⟨fun _ => q1, fun _ => lib_inv_erase L p s1 (lib_inv_quiet L s s1 q1 h)⟩
  · intro _
    exact ⟨fun e => Stop.noConfusion e, fun _ => lib_inv_erase L p s h⟩

theorem thr_join_wake_inv (L : List Nat) (p : Nat) (statusp : Bool) (ebp : Nat) (s : thr_lib)
    (h : lib_inv L s) (hp : p ∈ L) :
    Lib.wp (thr_join_wake p statusp ebp) (fun _ s1 => lib_inv (L.erase p) s1)
      (fun w s1 => (w = Stop.blocked → lib_inv L s1) ∧
        (w ≠ Stop.blocked → lib_inv (L.erase p) s1)) s := by
  have hpt : p ∈ s.g_thr_table := (h.2.2.2.2.1 p hp).1
  unfold thr_join_wake
  apply Lib.wp_bind
  apply Lib.wp_quiet _ _ _ _ (lock_meta_quiet p)
  · intro _ s1 q1
    have i1 := lib_inv_quiet L s s1 q1 h
    have hp1 : p ∈ s1.g_thr_table := by rw [q1.1]; exact hpt
    apply Lib.wp_mono _ _ _ _ _ _ (thr_join_loop_inv L p statusp ebp s1 i1 hp1)
    · intro _ s2 h2
      exact h2
    · intro w s2 h2
      exact ⟨fun e => lib_inv_quiet L s1 s2 (h2.1 e) i1, h2.2⟩
  · intro w s1 q1
    have i1 := lib_inv_quiet L s s1 q1 h
    exact ⟨fun _ => i1, fun _ => lib_inv_erase L p s1 i1⟩

theorem find_tid_mem (st : thr_lib) (tid : Int) (p : Nat)
    (h : find_thread_meta_by_tid st tid = some p) : p ∈ st.g_thr_table := by
  unfold find_thread_meta_by_tid at h
  split at h
  · simp at h
  · split at h
    · simp at h
    · exact List.mem_of_find?_eq_some h

/-- Setting the join flag of a record of the thread table that nobody is
joining yet. -/
theorem join_flag_step (L : List Nat) (p : Nat) (s : thr_lib) (r : thr_stack_meta)
    (h : lib_inv L s) (hp : p ∈ s.g_thr_table) (hr : s.read p = some r) (hpl : p ∉ L) :
    lib_inv (L ++ [p]) (s.update p fun x => { x with join_flag := JOINING }) := by
  obtain ⟨h1, h2, h3, h4, h5, h6⟩ := h
  have ha := read_addr s p r hr
  have hfl : ∀ q, (rec_flags (s.update p fun x => { x with join_flag := JOINING }) q).map Prod.fst
      = (rec_flags s q).map Prod.fst := by
    intro q
    unfold rec_flags
    rw [read_update]
    cases s.read q with
    | none => rfl
    | some x => by_cases hx : x.addr = p <;> simp [hx]
  have hfo : ∀ q, q ≠ p →
      rec_flags (s.update p fun x => { x with join_flag := JOINING }) q = rec_flags s q := by
    intro q hq
    unfold rec_flags
    rw [read_update]
    cases hrq : s.read q with
    | none => rfl
    | some x =>
      have : x.addr ≠ p := by
        rw [read_addr s q x hrq]
        exact hq
      simp [this]
  refine ⟨h1, h2, h3, ?_, ?_, ?_⟩
  · exact (hfl _).trans h4
  · intro q hq
    simp only [List.mem_append, List.mem_singleton] at hq
    rcases hq with hq | hq
    · have hqp : q ≠ p := fun e => hpl (e ▸ hq)
      rw [hfo q hqp]
      exact h5 q hq
    · rw [hq]
      refine ⟨hp, ?_⟩
      unfold rec_flags
      rw [read_update_self s p _ r hr]
      rfl
  · refine List.Nodup.append h6 (List.nodup_singleton p) ?_
    intro x hx1 hx2
    simp only [List.mem_singleton] at hx2
    rw [hx2] at hx1
    exact hpl hx1

theorem erase_append_self (L : List Nat) (p : Nat) (h : p ∉ L) : (L ++ [p]).erase p = L := by
  rw [List.erase_append_right _ h]
  simp

theorem lock_meta_no_block (p : Nat) (s : thr_lib) :
    Lib.wp (lock_meta p) (fun _ _ => True) (fun w _ => w ≠ Stop.blocked) s := by
  unfold lock_meta
  apply Lib.wp_bind
  apply Lib.wp_deref
  · intro r _
    split
    · apply Lib.wp_store
      trivial
    · apply Lib.wp_stop
      exact fun e => Stop.noConfusion e
  · intro _
    exact fun e => Stop.noConfusion e

theorem unlock_meta_no_block (p : Nat) (s : thr_lib) :
    Lib.wp (unlock_meta p) (fun _ _ => True) (fun w _ => w ≠ Stop.blocked) s := by
  unfold unlock_meta
  apply Lib.wp_bind
  apply Lib.wp_deref
  · intro r _
    apply Lib.wp_store
    trivial
  · intro _
    exact fun e => Stop.noConfusion e

theorem thr_join_inv (L : List Nat) (tid : Int) (statusp : Bool) (ebp : Nat) (s : thr_lib)
    (h : lib_inv L s) :
    Lib.wp (thr_join tid statusp ebp) (fun _ s1 => lib_inv L s1)
      (fun w s1 => (w = Stop.blocked →
          ∃ p, find_thread_meta_by_tid s tid = some p ∧ lib_inv (L ++ [p]) s1) ∧
        (w ≠ Stop.blocked → lib_inv L s1)) s := by
  unfold thr_join
  apply Lib.wp_bind
  apply Lib.wp_get
  split
  · exact Lib.wp_pure _ _ _ _ h
  · rename_i p hfind
    have hp := find_tid_mem s tid p hfind
    apply Lib.wp_bind
    apply Lib.wp_deref
    · intro r hr
      split
      · exact Lib.wp_pure _ _ _ _ h
      · rename_i hchk
        have hnj : r.join_flag ≠ JOINING := fun e => hchk (Or.inl e)
        have hpl : p ∉ L := by
          intro hm
          have := (h.2.2.2.2.1 p hm).2
          unfold rec_flags at this
          rw [hr] at this
          simp at this
          exact hnj this
        apply Lib.wp_bind
        apply Lib.wp_mono _ _ _ _ _ _ (Lib.wp_and _ _ _ _ _ _
          (Lib.wp_quiet _ (fun _ s1 => quiet s s1) (fun _ s1 => quiet s s1) s
            (lock_meta_quiet p) (fun _ _ q => q) (fun _ _ q => q))
          (lock_meta_no_block p s))
        · intro _ s1 q1
          have q1 := q1.1
          have i1 := lib_inv_quiet L s s1 q1 h
          have hp1 : p ∈ s1.g_thr_table := by rw [q1.1]; exact hp
          apply Lib.wp_bind
          apply Lib.wp_deref
          · intro r1 hr1
            split
            · apply Lib.wp_bind
              apply Lib.wp_mono _ _ _ _ _ _ (Lib.wp_and _ _ _ _ _ _
                (Lib.wp_quiet _ (fun _ s2 => quiet s1 s2) (fun _ s2 => quiet s1 s2) s1
                  (unlock_meta_quiet p) (fun _ _ q => q) (fun _ _ q => q))
                (unlock_meta_no_block p s1))
              · intro _ s2 q2
                exact Lib.wp_pure _ _ _ _ (lib_inv_quiet L s1 s2 q2.1 i1)
              · intro w s2 q2
                exact ⟨fun e => absurd e q2.2, fun _ => lib_inv_quiet L s1 s2 q2.1 i1⟩
            · apply Lib.wp_bind
              apply Lib.wp_store
              have i2 := join_flag_step L p s1 r1 i1 hp1 hr1 hpl
              apply Lib.wp_mono _ _ _ _ _ _
                (thr_join_loop_inv (L ++ [p]) p statusp ebp _ i2 hp1)
              · intro _ s3 h3
                rw [erase_append_self L p hpl] at h3
                exact h3
              · intro w s3 h3
                refine ⟨fun e => ⟨p, hfind, lib_inv_quiet _ _ s3 (h3.1 e) i2⟩, fun e => ?_⟩
                have := h3.2 e
                rw [erase_append_self L p hpl] at this
                exact this
          · intro _
            exact ⟨fun e => Stop.noConfusion e, fun _ => i1⟩
        · intro w s1 q1
          exact ⟨fun e => absurd e q1.2, fun _ => lib_inv_quiet L s s1 q1.1 h⟩
    · intro _
      exact ⟨fun e => Stop.noConfusion e, fun _ => h⟩

/-! ### `allocate_init_thr_stack` and `thr_create` -/

theorem detached_quiet (L : List Nat) (p : Nat) (s s1 : thr_lib) (hq : quiet s s1)
    (h : detached L p s) : detached L p s1 := by
  obtain ⟨h1, h2, h3, h4⟩ := h
  refine ⟨lib_inv_quiet L s s1 hq h1, ?_, ?_, ?_⟩
  · rw [hq.1]
    exact h2
  · rw [hq.2.1]
    exact h3
  · rw [hq.2.2.1]
    exact h4

/-- The head of the free-stack list has been taken off. -/
theorem pop_step (L : List Nat) (p : Nat) (rest : List Nat) (s s1 : thr_lib) (h : lib_inv L s)
    (hfree : s.g_free_stk_table = p :: rest)
    (ht : s1.g_thr_table = s.g_thr_table) (hf : s1.g_free_stk_table = rest)
    (hr : s1.g_root_thr_meta = s.g_root_thr_meta) (hfl : ∀ q, rec_flags s1 q = rec_flags s q) :
    detached L p s1 := by
  obtain ⟨⟨a1, a2, a3⟩, h2, h3, h4, h5, h6⟩ := h
  rw [hfree] at a2 a3 h3
  have hn := List.nodup_cons.mp h3
  refine ⟨⟨⟨?_, ?_, ?_⟩, ?_, ?_, ?_, ?_, h6⟩, ?_, ?_, ?_⟩
  · rw [ht, hr]
    exact a1
  · rw [hf, hr]
    exact fun hm => a2 (List.mem_cons_of_mem p hm)
  · intro q hq
    rw [hf] at hq
    rw [ht]
    exact a3 q (List.mem_cons_of_mem p hq)
  · rw [ht]
    exact h2
  · rw [hf]
    exact hn.2
  · rw [hr, hfl]
    exact h4
  · intro q hq
    rw [ht, hfl]
    exact h5 q hq
  · rw [ht]
    exact a3 p (List.mem_cons_self p rest)
  · rw [hf]
    exact hn.1
  · rw [hr]
    exact fun e => a2 (e ▸ List.mem_cons_self p rest)

/-- Writing to a record that is between the lists. -/
theorem detached_store (L : List Nat) (p : Nat) (s : thr_lib)
    (g : thr_stack_meta → thr_stack_meta) (h : detached L p s) : detached L p (s.update p g) := by
  obtain ⟨⟨h1, h2, h3, h4, h5, h6⟩, d1, d2, d3⟩ := h
  have hfo : ∀ q, q ≠ p → rec_flags (s.update p g) q = rec_flags s q := by
    intro q hq
    unfold rec_flags
    rw [read_update]
    cases hrq : s.read q with
    | none => rfl
    | some x =>
      have : x.addr ≠ p := by
        rw [read_addr s q x hrq]
        exact hq
      simp [this]
  refine ⟨⟨h1, h2, h3, ?_, ?_, h6⟩, d1, d2, d3⟩
  · show Option.map Prod.fst (rec_flags (s.update p g) s.g_root_thr_meta) = some IS_ROOT
    rw [hfo _ (Ne.symm d3)]
    exact h4
  · intro q hq
    have hqp : q ≠ p := fun e => d1 (e ▸ (h5 q hq).1)
    rw [hfo q hqp]
    exact h5 q hq

/-- The record between the lists goes to the tail of the thread table. -/
theorem push_table_step (L : List Nat) (p : Nat) (s s1 : thr_lib) (h : detached L p s)
    (ht : s1.g_thr_table = s.g_thr_table ++ [p]) (hf : s1.g_free_stk_table = s.g_free_stk_table)
    (hr : s1.g_root_thr_meta = s.g_root_thr_meta) (hfl : ∀ q, rec_flags s1 q = rec_flags s q) :
    lib_inv L s1 ∧ p ∈ s1.g_thr_table ∧ p ∉ L := by
  obtain ⟨⟨⟨a1, a2, a3⟩, h2, h3, h4, h5, h6⟩, d1, d2, d3⟩ := h
  refine ⟨⟨⟨?_, ?_, ?_⟩, ?_, ?_, ?_, ?_, h6⟩, ?_, ?_⟩
  · rw [ht, hr]
    exact List.mem_append_left _ a1
  · rw [hf, hr]
    exact a2
  · intro q hq
    rw [hf] at hq
    rw [ht]
    simp only [List.mem_append, List.mem_singleton, not_or]
    exact ⟨a3 q hq, fun e => d2 (e ▸ hq)⟩
  · rw [ht]
    refine List.Nodup.append h2 (List.nodup_singleton p) ?_
    intro x hx1 hx2
    simp only [List.mem_singleton] at hx2
    rw [hx2] at hx1
    exact d1 hx1
  · rw [hf]
    exact h3
  · rw [hr, hfl]
    exact h4
  · intro q hq
    rw [ht, hfl]
    exact ⟨List.mem_append_left _ (h5 q hq).1, (h5 q hq).2⟩
  · rw [ht]
    simp
  · exact fun hm => d1 (h5 p hm).1

theorem find_filter_other (m : List thr_stack_meta) (x : thr_stack_meta) (q : Nat)
    (hq : q ≠ x.addr) :
    ((m.filter fun r => r.addr ≠ x.addr) ++ [x]).find? (fun r => r.addr = q) =
      m.find? fun r => r.addr = q := by
  have h1 : ∀ m : List thr_stack_meta,
      (m.filter fun r => r.addr ≠ x.addr).find? (fun r => r.addr = q) =
        m.find? fun r => r.addr = q := by
    intro m
    induction m with
    | nil => rfl
    | cons y ys ih =>
      by_cases hy : y.addr = x.addr
      · have hyq : ¬ y.addr = q := fun e => hq (e ▸ hy)
        rw [List.filter_cons_of_neg (by simpa using hy),
          List.find?_cons_of_neg _ (by simpa using hyq)]
        exact ih
      · rw [List.filter_cons_of_pos (by simpa using hy)]
        by_cases hyq : y.addr = q
        · rw [List.find?_cons_of_pos _ (by simpa using hyq),
            List.find?_cons_of_pos _ (by simpa using hyq)]
        · rw [List.find?_cons_of_neg _ (by simpa using hyq),
            List.find?_cons_of_neg _ (by simpa using hyq)]
          exact ih
  rw [List.find?_append, h1]
  simp [List.find?, Ne.symm hq]

/-- Newly mapped memory at an address where no record of the lists lies. -/
theorem fresh_step (L : List Nat) (spot : Nat) (x : thr_stack_meta) (s s1 : thr_lib)
    (h : lib_inv L s) (hs : spot ∉ s.g_thr_table) (hfree : s.g_free_stk_table = [])
    (hm : s1.mem = (s.mem.filter fun r => r.addr ≠ spot) ++ [{ x with addr := spot }])
    (ht : s1.g_thr_table = s.g_thr_table) (hf : s1.g_free_stk_table = s.g_free_stk_table)
    (hr : s1.g_root_thr_meta = s.g_root_thr_meta) : detached L spot s1 := by
  obtain ⟨⟨a1, a2, a3⟩, h2, h3, h4, h5, h6⟩ := h
  have hfo : ∀ q, q ≠ spot → rec_flags s1 q = rec_flags s q := by
    intro q hq
    unfold rec_flags thr_lib.read
    rw [hm]
    have := find_filter_other s.mem { x with addr := spot } q hq
    simp only at this
    rw [this]
  have hroot : s.g_root_thr_meta ≠ spot := fun e => hs (e ▸ a1)
  refine ⟨⟨⟨?_, ?_, ?_⟩, ?_, ?_, ?_, ?_, h6⟩, ?_, ?_, ?_⟩
  · rw [ht, hr]
    exact a1
  · rw [hf, hr]
    exact a2
  · intro q hq
    rw [hf, hfree] at hq
    simp at hq
  · rw [ht]
    exact h2
  · rw [hf]
    exact h3
  · rw [hr, hfo _ hroot]
    exact h4
  · intro q hq
    have hqs : q ≠ spot := fun e => hs (e ▸ (h5 q hq).1)
    rw [ht, hfo q hqs]
    exact h5 q hq
  · rw [ht]
    exact hs
  · rw [hf, hfree]
    simp
  · rw [hr]
    exact Ne.symm hroot

theorem find_free_spot_inv (L : List Nat) (env : Env) (s : thr_lib) (h : lib_inv L s)
    (hfresh : ¬ (s.g_free_stk_table = [] ∧ env.new_pages_ok = true ∧
      fresh_spot s env ∈ s.g_thr_table)) :
    Lib.wp (find_free_spot env s.g_thr_stack_size)
      (fun r s1 => lib_inv L s1 ∧ ∀ p fi, r = some (some p, fi) → detached L p s1)
      (fun _ s1 => lib_inv L s1) s := by
  unfold find_free_spot lock_free_stk_table unlock_free_stk_table lock_stack unlock_stack
    Lib.unlock
  apply Lib.wp_bind
  apply Lib.wp_lock
  · intro m
    apply Lib.wp_bind
    apply Lib.wp_get
    split
    · rename_i p rest hfree
      have hfree1 : s.g_free_stk_table = p :: rest := hfree
      apply Lib.wp_bind
      apply Lib.wp_modify
      apply Lib.wp_bind
      apply Lib.wp_modify
      apply Lib.wp_pure
      have d := pop_step L p rest s
        { s with g_free_stk_table := rest,
                 g_free_stk_table_mutex := mutex_unlock m } h hfree1 rfl rfl rfl (fun _ => rfl)
      refine ⟨d.1, ?_⟩
      intro p1 fi e
      simp only [Option.some.injEq, Prod.mk.injEq] at e
      rw [← e.1]
      exact d
    · rename_i hfree
      have hfree1 : s.g_free_stk_table = [] := hfree
      apply Lib.wp_bind
      apply Lib.wp_modify
      apply Lib.wp_bind
      apply Lib.wp_lock
      · intro m2
        apply Lib.wp_bind
        apply Lib.wp_modify
        apply Lib.wp_bind
        apply Lib.wp_modify
        apply Lib.wp_bind
        apply Lib.wp_get
        apply Lib.wp_bind
        apply Lib.wp_modify
        apply Lib.wp_bind
        apply Lib.wp_modify
        split
        · rename_i hnp
          apply Lib.wp_bind
          apply Lib.wp_modify
          apply Lib.wp_pure
          have hs : fresh_spot s env ∉ s.g_thr_table := fun hm => hfresh ⟨hfree1, hnp, hm⟩
          have d := fresh_step L (fresh_spot s env) env.fresh s
            { s with mem := (s.mem.filter fun r => r.addr ≠ fresh_spot s env) ++
                       [{ env.fresh with addr := fresh_spot s env }],
                     g_stacks_brk := sub32 (s.g_stacks_brk - s.g_stacks_brk % PAGE_SIZE)
                       s.g_thr_stack_size,
                     g_stack_mutex := mutex_unlock m2,
                     g_free_stk_table_mutex := mutex_unlock m,
                     calls := s.calls ++
                       [Call.new_pages (sub32 (s.g_stacks_brk - s.g_stacks_brk % PAGE_SIZE)
                         s.g_thr_stack_size) s.g_thr_stack_size
                         (if env.new_pages_ok = true then 0 else -1)] }
            h hs hfree1 rfl rfl rfl rfl
          refine ⟨d.1, ?_⟩
          intro p1 fi e
          simp only [Option.some.injEq, Prod.mk.injEq] at e
          have e1 : fresh_spot s env = p1 := by
            have := e.1
            unfold ptr at this
            split at this
            · exact absurd this (by simp)
            · exact Option.some.inj this
          rw [← e1]
          exact d
        · apply Lib.wp_pure
          exact ⟨lib_inv_quiet L s _ ⟨rfl, rfl, rfl, fun _ => rfl⟩ h, fun _ _ e => by simp at e⟩
      · exact lib_inv_quiet L s _ ⟨rfl, rfl, rfl, fun _ => rfl⟩ h
  · exact h

theorem init_meta_locks_quiet (env : Env) (p : Nat) : Lib.is_quiet (init_meta_locks env p) := by
  unfold init_meta_locks
  refine Lib.is_quiet_bind _ _ (Lib.is_quiet_deref p) ?_
  intro r
  refine Lib.is_quiet_bind _ _ ?_ ?_
  · exact Lib.is_quiet_store _ _ (fun _ => ⟨rfl, rfl⟩)
  · intro _
    exact Lib.is_quiet_pure _

theorem initialize_stack_meta_inv (L : List Nat) (env : Env) (p : Nat) (first_init : Bool)
    (func arg : Nat) (s : thr_lib) (h : detached L p s) :
    Lib.wp (initialize_stack_meta env (some p) first_init func arg)
      (fun _ s1 => detached L p s1) (fun _ s1 => detached L p s1) s := by
  unfold initialize_stack_meta
  simp only
  split
  · exact Lib.wp_pure _ _ _ _ h
  · split
    · exact Lib.wp_stop _ _ _ _ h
    · apply Lib.wp_bind
      apply Lib.wp_get
      apply Lib.wp_bind
      have hq : Lib.is_quiet (if first_init then init_meta_locks env p else pure 0) := by
        split
        · exact init_meta_locks_quiet env p
        · exact Lib.is_quiet_pure _
      apply Lib.wp_quiet _ _ _ _ hq
      · intro ret s1 q1
        have d1 := detached_quiet L p s s1 q1 h
        split
        · exact Lib.wp_pure _ _ _ _ d1
        · apply Lib.wp_bind
          apply Lib.wp_quiet _ _ _ _ (lock_meta_quiet p)
          · intro _ s2 q2
            have d2 := detached_quiet L p s1 s2 q2 d1
            apply Lib.wp_bind
            apply Lib.wp_store
            have d3 := detached_store L p s2 (fun r =>
              { r with func := func, arg := arg, thr_state := UNSTARTED, join_flag := NOTJOINING,
                       rw_type := RWLOCK_INVALID, exit_status := 0, root := IS_NOT_ROOT,
                       tid := UNSIGNED_TID, stack_high := add32 p env.meta_size,
                       stack_low := sub32 (add32 p env.meta_size) s.g_thr_stack_size }) d2
            apply Lib.wp_bind
            apply Lib.wp_quiet _ _ _ _ (unlock_meta_quiet p)
            · intro _ s4 q4
              exact Lib.wp_pure _ _ _ _ (detached_quiet L p _ s4 q4 d3)
            · intro _ s4 q4
              exact detached_quiet L p _ s4 q4 d3
          · intro _ s2 q2
            exact detached_quiet L p s1 s2 q2 d1
      · intro _ s1 q1
        exact detached_quiet L p s s1 q1 h

theorem allocate_init_thr_stack_inv (L : List Nat) (env : Env) (func arg : Nat) (s : thr_lib)
    (h : lib_inv L s)
    (hfresh : ¬ (s.g_free_stk_table = [] ∧ env.new_pages_ok = true ∧
      fresh_spot s env ∈ s.g_thr_table)) :
    Lib.wp (allocate_init_thr_stack env s.g_thr_stack_size func arg)
      (fun r s1 => lib_inv L s1 ∧ ∀ p, r = some p → p ∈ s1.g_thr_table ∧ p ∉ L)
      (fun _ s1 => lib_inv L s1) s := by
  unfold allocate_init_thr_stack
  split
  · exact Lib.wp_stop _ _ _ _ h
  · apply Lib.wp_bind
    apply Lib.wp_mono _ _ _ _ _ _ (find_free_spot_inv L env s h hfresh)
    · intro r s1 h1
      match r, h1 with
      | none, h1 => exact Lib.wp_pure _ _ _ _ ⟨h1.1, fun _ e => by simp at e⟩
      | some (none, fi), h1 =>
        simp only
        apply Lib.wp_bind
        unfold initialize_stack_meta
        apply Lib.wp_pure
        simp only [if_true]
        exact Lib.wp_stop _ _ _ _ h1.1
      | some (some p, fi), h1 =>
        have d1 := h1.2 p fi rfl
        simp only
        apply Lib.wp_bind
        apply Lib.wp_mono _ _ _ _ _ _ (initialize_stack_meta_inv L env p fi func arg s1 d1)
        · intro ret s2 d2
          split
          · apply Lib.wp_bind
            apply Lib.wp_quiet _ _ _ _ lock_free_stk_table_quiet
            · intro _ s3 q3
              have d3 := detached_quiet L p s2 s3 q3 d2
              apply Lib.wp_bind
              apply Lib.wp_modify
              have a := append_step L p s3
                { s3 with g_free_stk_table := s3.g_free_stk_table ++ [p] } d3.1 d3.2.1 d3.2.2.1
                d3.2.2.2 rfl rfl rfl (fun _ => rfl)
              apply Lib.wp_bind
              apply Lib.wp_quiet _ _ _ _ unlock_free_stk_table_quiet
              · intro _ s4 q4
                exact Lib.wp_pure _ _ _ _ ⟨lib_inv_quiet L _ s4 q4 a, fun _ e => by simp at e⟩
              · intro _ s4 q4
                exact lib_inv_quiet L _ s4 q4 a
            · intro _ s3 q3
              exact lib_inv_quiet L s2 s3 q3 d2.1
          · apply Lib.wp_bind
            apply Lib.wp_quiet _ _ _ _ lock_thr_table_quiet
            · intro _ s3 q3
              have d3 := detached_quiet L p s2 s3 q3 d2
              apply Lib.wp_bind
              apply Lib.wp_modify
              have a := push_table_step L p s3
                { s3 with g_thr_table := s3.g_thr_table ++ [p] } d3 rfl rfl rfl (fun _ => rfl)
              apply Lib.wp_bind
              apply Lib.wp_quiet _ _ _ _ unlock_thr_table_quiet
              · intro _ s4 q4
                apply Lib.wp_pure
                refine ⟨lib_inv_quiet L _ s4 q4 a.1, ?_⟩
                intro p1 e
                rw [← Option.some.inj e, q4.1]
                exact a.2
              · intro _ s4 q4
                exact lib_inv_quiet L _ s4 q4 a.1
            · intro _ s3 q3
              exact lib_inv_quiet L s2 s3 q3 d2.1
        · intro _ s2 d2
          exact d2.1
    · intro _ s1 h1
      exact h1

theorem thr_create_inv (L : List Nat) (env : Env) (func arg : Nat) (s : thr_lib)
    (h : lib_inv L s)
    (hfresh : ¬ (s.g_free_stk_table = [] ∧ env.new_pages_ok = true ∧
      fresh_spot s env ∈ s.g_thr_table)) :
    Lib.wp (thr_create env func arg) (fun _ s1 => lib_inv L s1) (fun _ s1 => lib_inv L s1) s := by
  unfold thr_create
  apply Lib.wp_bind
  apply Lib.wp_get
  apply Lib.wp_bind
  apply Lib.wp_mono _ _ _ _ _ _ (allocate_init_thr_stack_inv L env func arg s h hfresh)
  · intro r s1 h1
    match r, h1 with
    | none, h1 => exact Lib.wp_pure _ _ _ _ h1.1
    | some p, h1 =>
      have hp := h1.2 p rfl
      have he : L.erase p = L := List.erase_of_not_mem hp.2
      simp only
      split
      · apply Lib.wp_bind
        apply Lib.wp_mono _ _ _ _ _ _ (free_thr_stack_inv L p s1 h1.1 hp.1)
        · intro _ s2 h2
          rw [he] at h2
          exact Lib.wp_pure _ _ _ _ h2
        · intro _ s2 h2
          rw [he] at h2
          exact h2
      · have hq : Lib.is_quiet (do
            lock_meta p
            Lib.store p fun r => { r with tid := env.fork_ret, thr_state := RUNNABLE }
            cond_signal_meta env.kern p
            unlock_meta p
            (pure env.fork_ret : Lib Int)) := by
          refine Lib.is_quiet_bind _ _ (lock_meta_quiet p) fun _ => ?_
          refine Lib.is_quiet_bind _ _ (Lib.is_quiet_store _ _ (fun _ => ⟨rfl, rfl⟩)) fun _ => ?_
          refine Lib.is_quiet_bind _ _ (cond_signal_meta_quiet env.kern p) fun _ => ?_
          exact Lib.is_quiet_bind _ _ (unlock_meta_quiet p) fun _ => Lib.is_quiet_pure _
        apply Lib.wp_quiet _ _ _ _ hq
        · intro _ s2 q2
          exact lib_inv_quiet L s1 s2 q2 h1.1
        · intro _ s2 q2
          exact lib_inv_quiet L s1 s2 q2 h1.1
  · intro _ s1 h1
    exact h1

/-! ### `thr_init` and the schedule -/

theorem Lib.wp_true {α : Type} (m : Lib α) (s : thr_lib) :
    Lib.wp m (fun _ _ => True) (fun _ _ => True) s := by
  unfold Lib.wp
  cases m s <;> trivial

/-- The lists as `thr_init` leaves them. -/
theorem init_step (s : thr_lib) (ht : s.g_thr_table = [s.g_root_thr_meta])
    (hf : s.g_free_stk_table = [])
    (hflag : (rec_flags s s.g_root_thr_meta).map Prod.fst = some IS_ROOT) : lib_inv [] s := by
  refine ⟨⟨?_, ?_, ?_⟩, ?_, ?_, hflag, ?_, List.nodup_nil⟩
  · rw [ht]
    exact List.mem_singleton_self _
  · rw [hf]
    exact List.not_mem_nil _
  · intro q hq
    rw [hf] at hq
    exact absurd hq (List.not_mem_nil _)
  · rw [ht]
    exact List.nodup_singleton _
  · rw [hf]
    exact List.nodup_nil
  · intro q hq
    exact absurd hq (List.not_mem_nil _)

theorem flag_after_store (s : thr_lib) (p : Nat) (g : thr_stack_meta → thr_stack_meta)
    (r : thr_stack_meta) (hr : s.read p = some r) (hg : (g r).root = IS_ROOT) :
    (rec_flags (s.update p g) p).map Prod.fst = some IS_ROOT := by
  unfold rec_flags
  rw [read_update_self s p g r hr]
  exact congrArg some hg

theorem thr_init_tables_inv (env : Env) (s : thr_lib) :
    Lib.wp (thr_init_tables env) (fun v s1 => v = SUCCESS_RETURN → lib_inv [] s1)
      (fun _ _ => True) s := by
  unfold thr_init_tables
  apply Lib.wp_bind
  apply Lib.wp_get
  apply Lib.wp_bind
  apply Lib.wp_modify
  apply Lib.wp_bind
  apply Lib.wp_deref
  · intro r hr
    have hr0 : s.read s.g_root_thr_meta = some r := hr
    apply Lib.wp_bind
    apply Lib.wp_store
    dsimp only
    split
    · apply Lib.wp_bind
      apply Lib.wp_modify
      apply Lib.wp_bind
      apply Lib.wp_store
      apply Lib.wp_bind
      apply Lib.wp_mono _ _ _ _ _ _ (Lib.wp_true _ _)
      · intro _ s1 _
        apply Lib.wp_pure
        intro e
        exact absurd e (by decide)
      · intro _ _ _
        trivial
    · apply Lib.wp_bind
      apply Lib.wp_modify
      apply Lib.wp_bind
      apply Lib.wp_store
      apply Lib.wp_bind
      apply Lib.wp_lock
      · intro m
        apply Lib.wp_bind
        apply Lib.wp_modify
        have hq : Lib.is_quiet (do
            unlock_thr_table
            lock_stack
            let r ← Lib.deref s.g_root_thr_meta
            Lib.modify fun s => { s with g_stacks_brk := r.stack_low }
            unlock_stack
            (pure SUCCESS_RETURN : Lib Int)) := by
          refine Lib.is_quiet_bind _ _ unlock_thr_table_quiet fun _ => ?_
          refine Lib.is_quiet_bind _ _ lock_stack_quiet fun _ => ?_
          refine Lib.is_quiet_bind _ _ (Lib.is_quiet_deref _) fun _ => ?_
          refine Lib.is_quiet_bind _ _
            (Lib.is_quiet_modify _ fun _ => ⟨rfl, rfl, rfl, fun _ => rfl⟩) fun _ => ?_
          exact Lib.is_quiet_bind _ _ unlock_stack_quiet fun _ => Lib.is_quiet_pure _
        apply Lib.wp_quiet _ _ _ _ hq
        · intro _ s1 q1 _
          refine lib_inv_quiet [] _ s1 q1 (init_step _ rfl rfl ?_)
          exact flag_after_store _ s.g_root_thr_meta _ _
            (read_update_self s s.g_root_thr_meta _ r hr0) rfl
        · intro _ _ _
          trivial
      · trivial
  · intro _
    trivial

theorem thr_init_inv (env : Env) (size : Nat) (g g1 : malloc_state × thr_lib)
    (h : thr_init env size g = .returned g1 SUCCESS_RETURN) : lib_inv [] g1.2 := by
  unfold thr_init at h
  split at h
  · simp at h
  · simp only at h
    split at h
    · simp at h
    · split at h
      · rename_i st1 v ht
        simp only [Outcome.returned.injEq] at h
        have w : ∀ s, thr_init_tables env s = .returned st1 v → lib_inv [] st1 := by
          intro s hs
          have w := thr_init_tables_inv env s
          unfold Lib.wp at w
          rw [hs] at w
          exact w h.2
        rw [← h.1]
        exact w _ ht
      · simp at h

theorem LibSys.step_keeps_inv (sys sys1 : LibSys) (e : LibEvent)
    (h : lib_inv sys.joining sys.lib) (hs : sys.step e = some sys1) :
    lib_inv sys1.joining sys1.lib := by
  cases e with
  | create env func arg =>
    rw [LibSys.step] at hs
    split at hs
    · simp at hs
    · rename_i hg
      simp only [Option.some.injEq] at hs
      rw [← hs]
      exact Lib.wp_state _ _ _ (thr_create_inv sys.joining env func arg sys.lib h hg)
  | join tid statusp ebp =>
    rw [LibSys.step] at hs
    have w := thr_join_inv sys.joining tid statusp ebp sys.lib h
    unfold Lib.wp at w
    split at hs
    · rename_i st p ho hf
      simp only [Option.some.injEq] at hs
      rw [← hs]
      rw [ho] at w
      obtain ⟨p1, hp1, hi⟩ := w.1 rfl
      rw [hf] at hp1
      rw [Option.some.inj hp1]
      exact hi
    · rename_i o x hno
      simp only [Option.some.injEq] at hs
      rw [← hs]
      cases ho : thr_join tid statusp ebp sys.lib with
      | returned s1 a =>
        rw [ho] at w
        exact w
      | stopped s1 why =>
        rw [ho] at w
        by_cases hb : why = Stop.blocked
        · obtain ⟨p1, hp1, _⟩ := w.1 hb
          rw [hb] at ho
          exact absurd hp1 (by
            intro hp1
            exact hno s1 p1 ho hp1)
        · exact w.2 hb
  | wake p statusp ebp =>
    rw [LibSys.step] at hs
    split at hs
    · rename_i hp
      have w := thr_join_wake_inv sys.joining p statusp ebp sys.lib h hp
      unfold Lib.wp at w
      split at hs
      · rename_i st ho
        simp only [Option.some.injEq] at hs
        rw [← hs]
        rw [ho] at w
        exact w.1 rfl
      · rename_i o hno
        simp only [Option.some.injEq] at hs
        rw [← hs]
        cases ho : thr_join_wake p statusp ebp sys.lib with
        | returned s1 a =>
          rw [ho] at w
          exact w
        | stopped s1 why =>
          rw [ho] at w
          by_cases hb : why = Stop.blocked
          · rw [hb] at ho
            exact absurd ho (hno s1)
          · exact w.2 hb
    · simp at hs
  | exit env status ebp =>
    rw [LibSys.step] at hs
    simp only [Option.some.injEq] at hs
    rw [← hs]
    exact lib_inv_quiet _ _ _ (thr_exit_quiet env status ebp sys.lib) h
  | free ptr =>
    cases ptr with
    | none =>
      rw [LibSys.step] at hs
      simp only [Option.some.injEq] at hs
      rw [← hs]
      exact h
    | some p =>
      rw [LibSys.step] at hs
      split at hs
      · rename_i hp
        simp only [Option.some.injEq] at hs
        rw [← hs]
        have w := Lib.wp_state _ _ _ (free_thr_stack_inv sys.joining p sys.lib h hp.1)
        rw [List.erase_of_not_mem hp.2] at w
        exact w
      · simp at hs

theorem LibSys.run_keeps_inv (evs : List LibEvent) (sys sys1 : LibSys)
    (h : lib_inv sys.joining sys.lib) (hs : sys.run evs = some sys1) :
    lib_inv sys1.joining sys1.lib := by
  induction evs generalizing sys with
  | nil =>
    unfold LibSys.run at hs
    rw [← Option.some.inj hs]
    exact h
  | cons e es ih =>
    unfold LibSys.run at hs
    split at hs
    · rename_i sys2 h2
      exact ih sys2 (LibSys.step_keeps_inv sys sys2 e h h2) hs
    · simp at hs

/-! ### The address of the root record -/

theorem Lib.keeps_root_bind {α β : Type} (m : Lib α) (f : α → Lib β) (hm : Lib.keeps_root m)
    (hf : ∀ a, Lib.keeps_root (f a)) : Lib.keeps_root (m >>= f) := by
  intro s
  rw [Lib.bind_apply]
  have h1 := hm s
  cases hms : m s with
  | returned s1 a =>
    rw [hms] at h1
    exact (hf a s1).trans h1
  | stopped s1 w =>
    rw [hms] at h1
    exact h1

theorem Lib.keeps_root_of_quiet {α : Type} (m : Lib α) (h : Lib.is_quiet m) :
    Lib.keeps_root m :=
  fun s => (h s).2.2.1

theorem Lib.keeps_root_modify (g : thr_lib → thr_lib)
    (hg : ∀ s, (g s).g_root_thr_meta = s.g_root_thr_meta) : Lib.keeps_root (Lib.modify g) :=
  fun s => hg s

theorem Lib.keeps_root_store (p : Nat) (g : thr_stack_meta → thr_stack_meta) :
    Lib.keeps_root (Lib.store p g) :=
  fun _ => rfl

theorem free_thr_stack_keeps_root (ptr : Option Nat) : Lib.keeps_root (free_thr_stack ptr) := by
  unfold free_thr_stack
  repeat (first
    | exact Lib.keeps_root_of_quiet _ (Lib.is_quiet_pure _)
    | exact Lib.keeps_root_of_quiet _ (Lib.is_quiet_deref _)
    | exact Lib.keeps_root_of_quiet _ lock_thr_table_quiet
    | exact Lib.keeps_root_of_quiet _ unlock_thr_table_quiet
    | exact Lib.keeps_root_of_quiet _ lock_free_stk_table_quiet
    | exact Lib.keeps_root_of_quiet _ unlock_free_stk_table_quiet
    | exact Lib.keeps_root_modify _ (fun _ => rfl)
    | refine Lib.keeps_root_bind _ _ ?_ (fun _ => ?_)
    | split)

theorem thr_join_loop_keeps_root (p : Nat) (statusp : Bool) (ebp : Nat) :
    Lib.keeps_root (thr_join_loop p statusp ebp) := by
  unfold thr_join_loop
  repeat (first
    | exact Lib.keeps_root_of_quiet _ (Lib.is_quiet_pure _)
    | exact Lib.keeps_root_of_quiet _ (Lib.is_quiet_stop _)
    | exact Lib.keeps_root_of_quiet _ (Lib.is_quiet_deref _)
    | exact Lib.keeps_root_of_quiet _ (cond_wait_meta_quiet _ _)
    | exact Lib.keeps_root_of_quiet _ (unlock_meta_quiet _)
    | exact free_thr_stack_keeps_root _
    | refine Lib.keeps_root_bind _ _ ?_ (fun _ => ?_)
    | split)

theorem thr_join_keeps_root (tid : Int) (statusp : Bool) (ebp : Nat) :
    Lib.keeps_root (thr_join tid statusp ebp) := by
  unfold thr_join
  repeat (first
    | exact Lib.keeps_root_of_quiet _ (Lib.is_quiet_pure _)
    | exact Lib.keeps_root_of_quiet _ Lib.is_quiet_get
    | exact Lib.keeps_root_of_quiet _ (Lib.is_quiet_deref _)
    | exact Lib.keeps_root_of_quiet _ (lock_meta_quiet _)
    | exact Lib.keeps_root_of_quiet _ (unlock_meta_quiet _)
    | exact Lib.keeps_root_store _ _
    | exact thr_join_loop_keeps_root _ _ _
    | refine Lib.keeps_root_bind _ _ ?_ (fun _ => ?_)
    | split)

theorem thr_join_wake_keeps_root (p : Nat) (statusp : Bool) (ebp : Nat) :
    Lib.keeps_root (thr_join_wake p statusp ebp) := by
  unfold thr_join_wake
  exact Lib.keeps_root_bind _ _ (Lib.keeps_root_of_quiet _ (lock_meta_quiet _))
    (fun _ => thr_join_loop_keeps_root _ _ _)

theorem find_free_spot_keeps_root (env : Env) (size : Nat) :
    Lib.keeps_root (find_free_spot env size) := by
  unfold find_free_spot
  repeat (first
    | exact Lib.keeps_root_of_quiet _ (Lib.is_quiet_pure _)
    | exact Lib.keeps_root_of_quiet _ Lib.is_quiet_get
    | exact Lib.keeps_root_of_quiet _ lock_free_stk_table_quiet
    | exact Lib.keeps_root_of_quiet _ unlock_free_stk_table_quiet
    | exact Lib.keeps_root_of_quiet _ lock_stack_quiet
    | exact Lib.keeps_root_of_quiet _ unlock_stack_quiet
    | exact Lib.keeps_root_modify _ (fun _ => rfl)
    | refine Lib.keeps_root_bind _ _ ?_ (fun _ => ?_)
    | split)

theorem initialize_stack_meta_keeps_root (env : Env) (ptr : Option Nat) (first_init : Bool)
    (func arg : Nat) : Lib.keeps_root (initialize_stack_meta env ptr first_init func arg) := by
  unfold initialize_stack_meta
  repeat (first
    | exact Lib.keeps_root_of_quiet _ (Lib.is_quiet_pure _)
    | exact Lib.keeps_root_of_quiet _ (Lib.is_quiet_stop _)
    | exact Lib.keeps_root_of_quiet _ Lib.is_quiet_get
    | exact Lib.keeps_root_of_quiet _ (init_meta_locks_quiet _ _)
    | exact Lib.keeps_root_of_quiet _ (lock_meta_quiet _)
    | exact Lib.keeps_root_of_quiet _ (unlock_meta_quiet _)
    | exact Lib.keeps_root_store _ _
    | refine Lib.keeps_root_bind _ _ ?_ (fun _ => ?_)
    | split)

theorem allocate_init_thr_stack_keeps_root (env : Env) (size func arg : Nat) :
    Lib.keeps_root (allocate_init_thr_stack env size func arg) := by
  unfold allocate_init_thr_stack
  repeat (first
    | exact Lib.keeps_root_of_quiet _ (Lib.is_quiet_pure _)
    | exact Lib.keeps_root_of_quiet _ (Lib.is_quiet_stop _)
    | exact Lib.keeps_root_of_quiet _ lock_thr_table_quiet
    | exact Lib.keeps_root_of_quiet _ unlock_thr_table_quiet
    | exact Lib.keeps_root_of_quiet _ lock_free_stk_table_quiet
    | exact Lib.keeps_root_of_quiet _ unlock_free_stk_table_quiet
    | exact Lib.keeps_root_modify _ (fun _ => rfl)
    | exact find_free_spot_keeps_root _ _
    | exact initialize_stack_meta_keeps_root _ _ _ _ _
    | refine Lib.keeps_root_bind _ _ ?_ (fun _ => ?_)
    | split)

theorem thr_create_keeps_root (env : Env) (func arg : Nat) :
    Lib.keeps_root (thr_create env func arg) := by
  unfold thr_create
  repeat (first
    | exact Lib.keeps_root_of_quiet _ (Lib.is_quiet_pure _)
    | exact Lib.keeps_root_of_quiet _ Lib.is_quiet_get
    | exact Lib.keeps_root_of_quiet _ (lock_meta_quiet _)
    | exact Lib.keeps_root_of_quiet _ (unlock_meta_quiet _)
    | exact Lib.keeps_root_of_quiet _ (cond_signal_meta_quiet _ _)
    | exact Lib.keeps_root_store _ _
    | exact free_thr_stack_keeps_root _
    | exact allocate_init_thr_stack_keeps_root _ _ _ _
    | refine Lib.keeps_root_bind _ _ ?_ (fun _ => ?_)
    | split
    | dsimp only)

theorem thr_init_tables_keeps_root (env : Env) : Lib.keeps_root (thr_init_tables env) := by
  unfold thr_init_tables cond_destroy_meta
  repeat (first
    | exact Lib.keeps_root_of_quiet _ (Lib.is_quiet_pure _)
    | exact Lib.keeps_root_of_quiet _ (Lib.is_quiet_stop _)
    | exact Lib.keeps_root_of_quiet _ Lib.is_quiet_get
    | exact Lib.keeps_root_of_quiet _ (Lib.is_quiet_deref _)
    | exact Lib.keeps_root_of_quiet _ lock_thr_table_quiet
    | exact Lib.keeps_root_of_quiet _ unlock_thr_table_quiet
    | exact Lib.keeps_root_of_quiet _ lock_stack_quiet
    | exact Lib.keeps_root_of_quiet _ unlock_stack_quiet
    | exact Lib.keeps_root_store _ _
    | exact Lib.keeps_root_modify _ (fun _ => rfl)
    | refine Lib.keeps_root_bind _ _ ?_ (fun _ => ?_)
    | split
    | dsimp only)

theorem thr_init_keeps_root (env : Env) (size : Nat) (g g1 : malloc_state × thr_lib) (v : Int)
    (h : thr_init env size g = .returned g1 v) :
    g1.2.g_root_thr_meta = g.2.g_root_thr_meta := by
  unfold thr_init at h
  split at h
  · simp at h
  · rename_i st u hsw
    have h0 : st = g.2 := by
      unfold install_swexn at hsw
      split at hsw
      · rw [Lib.pure_apply] at hsw
        simp only [Outcome.returned.injEq] at hsw
        exact hsw.1.symm
      · simp [Lib.stop] at hsw
    simp only at h
    split at h
    · simp at h
    · split at h
      · rename_i st1 v1 ht
        simp only [Outcome.returned.injEq] at h
        have w : ∀ s, thr_init_tables env s = .returned st1 v1 →
            st1.g_root_thr_meta = s.g_root_thr_meta := by
          intro s hs
          have w := thr_init_tables_keeps_root env s
          rw [hs] at w
          exact w
        rw [← h.1, ← h0]
        exact w { st with g_thr_stack_size := round_up_stack_size (add32 size env.meta_size) } ht
      · simp at h

theorem LibSys.step_keeps_root (sys sys1 : LibSys) (e : LibEvent)
    (hs : sys.step e = some sys1) : sys1.lib.g_root_thr_meta = sys.lib.g_root_thr_meta := by
  cases e with
  | create env func arg =>
    rw [LibSys.step] at hs
    split at hs
    · simp at hs
    · simp only [Option.some.injEq] at hs
      rw [← hs]
      exact thr_create_keeps_root env func arg sys.lib
  | join tid statusp ebp =>
    rw [LibSys.step] at hs
    have w := thr_join_keeps_root tid statusp ebp sys.lib
    split at hs
    · rename_i st p ho hf
      simp only [Option.some.injEq] at hs
      rw [← hs]
      rw [ho] at w
      exact w
    · simp only [Option.some.injEq] at hs
      rw [← hs]
      exact w
  | wake p statusp ebp =>
    rw [LibSys.step] at hs
    have w := thr_join_wake_keeps_root p statusp ebp sys.lib
    split at hs
    · split at hs
      · rename_i st ho
        simp only [Option.some.injEq] at hs
        rw [← hs]
        rw [ho] at w
        exact w
      · simp only [Option.some.injEq] at hs
        rw [← hs]
        exact w
    · simp at hs
  | exit env status ebp =>
    rw [LibSys.step] at hs
    simp only [Option.some.injEq] at hs
    rw [← hs]
    exact (thr_exit_quiet env status ebp sys.lib).2.2.1
  | free ptr =>
    cases ptr with
    | none =>
      rw [LibSys.step] at hs
      simp only [Option.some.injEq] at hs
      rw [← hs]
      rfl
    | some p =>
      rw [LibSys.step] at hs
      split at hs
      · simp only [Option.some.injEq] at hs
        rw [← hs]
        exact free_thr_stack_keeps_root (some p) sys.lib
      · simp at hs

theorem LibSys.run_keeps_root (evs : List LibEvent) (sys sys1 : LibSys)
    (hs : sys.run evs = some sys1) : sys1.lib.g_root_thr_meta = sys.lib.g_root_thr_meta := by
  induction evs generalizing sys with
  | nil =>
    unfold LibSys.run at hs
    rw [← Option.some.inj hs]
  | cons e es ih =>
    unfold LibSys.run at hs
    split at hs
    · rename_i sys2 h2
      exact (ih sys2 hs).trans (LibSys.step_keeps_root sys sys2 e h2)
    · simp at hs

/-- C26: let `thr_init` return success, and let any sequence of `thr_create`,
`thr_join` (on any tid, that of the root thread included; with the
continuation of a join that blocked), `thr_exit` and `free_thr_stack` calls
follow, each taken as far as it gets.  In the state reached the root record,
which lies where it lay before `thr_init`, is in the thread table and is not
on the free-stack list, and no record of the free-stack list is in the
thread table. -/
theorem lists_invariant (env : Env) (size : Nat) (g g1 : malloc_state × thr_lib)
    (evs : List LibEvent) (sys : LibSys)
    (hinit : thr_init env size g = .returned g1 SUCCESS_RETURN)
    (hrun : LibSys.run ⟨g1.2, []⟩ evs = some sys) :
    sys.lib.g_root_thr_meta = g.2.g_root_thr_meta ∧
      sys.lib.g_root_thr_meta ∈ sys.lib.g_thr_table ∧
      sys.lib.g_root_thr_meta ∉ sys.lib.g_free_stk_table ∧
      ∀ q ∈ sys.lib.g_free_stk_table, q ∉ sys.lib.g_thr_table :=
  ⟨(LibSys.run_keeps_root evs ⟨g1.2, []⟩ sys hrun).trans
      (thr_init_keeps_root env size g g1 _ hinit),
    (LibSys.run_keeps_inv evs ⟨g1.2, []⟩ sys (thr_init_inv env size g g1 hinit) hrun).1⟩

/-- C26 (witness): after `thr_init(4096)` on the program's initial state the
schedule `sched_sample` (a create, the child's exit, the join on it, the
root's exit, a join on the root's tid and a direct `free_thr_stack` on the
root record) ends with the root record alone in the thread table and the
child's record on the free-stack list. -/
theorem lists_invariant_witness :
    thr_init env_sample 4096 (malloc_boot, lib_boot) =
      .returned (⟨⟨1, 0, 0⟩, true⟩, lib_ready) SUCCESS_RETURN ∧
    LibSys.run ⟨lib_ready, []⟩ sched_sample = some sys_sample ∧
    sys_sample.lib.g_thr_table = [16777216] ∧
    sys_sample.lib.g_free_stk_table = [4294958976] ∧
    (sys_sample.lib.g_root_thr_meta = 16777216 ∧
      sys_sample.lib.g_root_thr_meta ∈ sys_sample.lib.g_thr_table ∧
      sys_sample.lib.g_root_thr_meta ∉ sys_sample.lib.g_free_stk_table ∧
      ∀ q ∈ sys_sample.lib.g_free_stk_table, q ∉ sys_sample.lib.g_thr_table) :=
  ⟨by decide, by decide, by decide, by decide,
    lists_invariant env_sample 4096 (malloc_boot, lib_boot) (⟨⟨1, 0, 0⟩, true⟩, lib_ready)
      sched_sample sys_sample (by decide) (by decide)⟩

end ThrLib
